import Mathlib

/-!
# dbj_ping: network health monitor and countermeasure controller

A shallow embedding of `dbj_ping/dbj_ping.c`, and of `parse_arguments` of
`dbj_ping_cli/dbj_ping_cli.c`.

Modelling conventions.
* The module-level globals (`g_config`, `g_stats`, `g_icmp_handle`,
  `g_initialized`, `g_config_path`) are the fields of `State`; every C function
  becomes a function from `State` to `State` (with its return value).
* `DWORD` values are natural numbers; every increment and subtraction the C
  code performs on a `DWORD` wraps around: `x + 1` is `to_dword (x + 1)`,
  that is `(x + 1) % 2 ^ 32`, and `x - 1` is `dword_pred x`.
* `double` values are exact rationals; `DBL_MAX` is the rational it denotes.
  The running average and the jitter are computed without rounding; the loss
  percentage of `analyze_network_health`, which decides the trigger, is
  computed with the rounding of `double` arithmetic (`round_double`).
* `SYSTEMTIME` values are natural numbers (milliseconds on some clock).
* Answers of the operating system (name resolution, ICMP echo, process
  creation, INI file reads, the clock) are arguments of the functions.
* Calls that leave the process (WinSock, ICMP, `CreateProcessA`, `Sleep`, INI
  writes) are appended to `State.trace`; `dbj_log` calls are appended to
  `State.logs`.
* An exported function is one uninterrupted call. Where two threads matter
  (`trigger_countermeasures` sleeps with the flag set), the call is cut at the
  end of its critical section and at the end of its sleep, and the threads
  are interleaved at those points (`callerStep`, `sysRun`).
* The C library functions `atoi` and `strtod` used by the command-line parser
  are modelled on decimal notation, with exact values; `int` options are
  integers.
-/

namespace DbjPing

/-! ## Constants -/

/-- The value a `DWORD` holds after the C code computes `n` in it: `n`
modulo `2 ^ 32`. -/
def to_dword (n : Nat) : Nat := n % 2 ^ 32

/-- The value of `n - 1` computed in a `DWORD`: zero wraps around to
`2 ^ 32 - 1`. -/
def dword_pred (n : Nat) : Nat := if n = 0 then 4294967295 else n - 1

/-- Capacity of the backup DNS table (`#define MAX_BACKUP_DNS 8`). -/
def MAX_BACKUP_DNS : Nat := 8

/-- Largest finite `double` (`DBL_MAX` of `<float.h>`), as an exact rational. -/
def DBL_MAX : ℚ := (2 ^ 53 - 1) * 2 ^ 971

/-- Length of the pause at the end of an activation (`Sleep(30000)`). -/
def COOLDOWN_MS : Nat := 30000

/-- Windows status `ERROR_SUCCESS`. -/
def ERROR_SUCCESS : Nat := 0
/-- Windows status `ERROR_NOT_READY`. -/
def ERROR_NOT_READY : Nat := 21
/-- Windows status `ERROR_INVALID_PARAMETER`. -/
def ERROR_INVALID_PARAMETER : Nat := 87
/-- Windows status `ERROR_EXCEPTION_IN_SERVICE`. -/
def ERROR_EXCEPTION_IN_SERVICE : Nat := 1064
/-- Windows status `ERROR_NETWORK_UNREACHABLE`. -/
def ERROR_NETWORK_UNREACHABLE : Nat := 1231
/-- Windows status `ERROR_ALREADY_INITIALIZED`. -/
def ERROR_ALREADY_INITIALIZED : Nat := 1247

/-- ICMP reply status `IP_SUCCESS`. -/
def IP_SUCCESS : Nat := 0
/-- ICMP reply status `IP_DEST_HOST_UNREACHABLE`. -/
def IP_DEST_HOST_UNREACHABLE : Nat := 11003
/-- ICMP reply status `IP_NO_RESOURCES`. -/
def IP_NO_RESOURCES : Nat := 11006
/-- ICMP reply status `IP_BAD_DESTINATION`. -/
def IP_BAD_DESTINATION : Nat := 11018

/-! ## Data model -/

/-- Log levels (`log_kind_t`). -/
inductive log_kind_t
  | LOG_INFO
  | LOG_WARNING
  | LOG_ERROR
  | LOG_CRITICAL
deriving DecidableEq

/-- Configuration structure (`ping_config_t`). `backup_dns` is the table of
`MAX_BACKUP_DNS` entries, `backup_dns_count` the separate count field. -/
structure ping_config_t where
  target : String
  timeout_ms : Nat
  interval_ms : Nat
  loss_threshold : Nat
  latency_threshold : Nat
  jitter_threshold : Nat
  max_retries : Nat
  enable_countermeasures : Bool
  enable_dns_switching : Bool
  enable_route_refresh : Bool
  enable_logging : Bool
  backup_dns : List String
  backup_dns_count : Nat
deriving DecidableEq

/-- Ping statistics (`ping_stats_t`). -/
structure ping_stats_t where
  packets_sent : Nat
  packets_received : Nat
  packets_lost : Nat
  min_rtt : ℚ
  max_rtt : ℚ
  avg_rtt : ℚ
  jitter : ℚ
  countermeasures_active : Bool
  current_dns_index : Nat
  last_countermeasure : Nat
deriving DecidableEq

/-- Ping result structure (`ping_result_t`). -/
structure ping_result_t where
  success : Bool
  rtt_ms : Nat
  status : Nat
  target_ip : String
  timestamp : Nat
deriving DecidableEq

/-- Calls that leave the process, in the order they are made. -/
inductive Action
  | wsa_startup
  | icmp_create_file
  | icmp_close_handle
  | wsa_cleanup
  | write_ini (cfg : ping_config_t)
  | getaddrinfo (hostname : String)
  | icmp_send_echo (target_ip : String) (timeout_ms : Nat)
  | netsh_set_dns (new_dns : String)
  | arp_flush
  | ipconfig_flushdns
  | sleep (ms : Nat)
deriving DecidableEq

/-- The module-level variables of `dbj_ping.c`, with the record of the calls
made so far. `g_icmp_handle = none` stands for `INVALID_HANDLE_VALUE`. -/
structure State where
  g_config : ping_config_t
  g_stats : ping_stats_t
  g_icmp_handle : Option Nat
  g_initialized : Bool
  g_config_path : String
  trace : List Action
  logs : List (log_kind_t × String)
deriving DecidableEq

/-- Default configuration values (`DEFAULT_CONFIG`). -/
def DEFAULT_CONFIG : ping_config_t where
  target := "8.8.8.8"
  timeout_ms := 3000
  interval_ms := 1000
  loss_threshold := 30
  latency_threshold := 500
  jitter_threshold := 100
  max_retries := 3
  enable_countermeasures := true
  enable_dns_switching := true
  enable_route_refresh := true
  enable_logging := true
  backup_dns := ["8.8.8.8", "1.1.1.1", "9.9.9.9", "208.67.222.222",
    "8.8.4.4", "1.0.0.1", "149.112.112.112", "208.67.220.220"]
  backup_dns_count := 8

/-- Zero-initialised `ping_config_t` (`static ping_config_t g_config = {0}`). -/
def ZERO_CONFIG : ping_config_t where
  target := ""
  timeout_ms := 0
  interval_ms := 0
  loss_threshold := 0
  latency_threshold := 0
  jitter_threshold := 0
  max_retries := 0
  enable_countermeasures := false
  enable_dns_switching := false
  enable_route_refresh := false
  enable_logging := false
  backup_dns := ["", "", "", "", "", "", "", ""]
  backup_dns_count := 0

/-- Zero-initialised `ping_stats_t` (`static ping_stats_t g_stats = {0}`, and
the effect of `memset(&g_stats, 0, sizeof(g_stats))`). -/
def ZERO_STATS : ping_stats_t where
  packets_sent := 0
  packets_received := 0
  packets_lost := 0
  min_rtt := 0
  max_rtt := 0
  avg_rtt := 0
  jitter := 0
  countermeasures_active := false
  current_dns_index := 0
  last_countermeasure := 0

/-- The values of the globals when the module is loaded. -/
def LOADED : State where
  g_config := ZERO_CONFIG
  g_stats := ZERO_STATS
  g_icmp_handle := none
  g_initialized := false
  g_config_path := ""
  trace := []
  logs := []

/-- Appends one `dbj_log` call to the log record. -/
def dbj_log (kind : log_kind_t) (msg : String) (s : State) : State :=
  { s with logs := s.logs ++ [(kind, msg)] }

/-- Appends one external call to the trace. -/
def emit (a : Action) (s : State) : State :=
  { s with trace := s.trace ++ [a] }

/-! ## Statistics -/

/-- Initialize statistics (`init_stats`): zero everything, then set `min_rtt`
to `DBL_MAX`, `max_rtt` to `0.0` and stamp `last_countermeasure`. -/
def init_stats (now : Nat) (s : State) : State :=
  { s with g_stats :=
      { ZERO_STATS with min_rtt := DBL_MAX, max_rtt := 0, last_countermeasure := now } }

/-- The statistics update of `ping_execute` (the block between
`EnterCriticalSection` and `LeaveCriticalSection`). -/
def update_stats (success : Bool) (rtt_ms : Nat) (st : ping_stats_t) : ping_stats_t :=
  let st1 := { st with packets_sent := to_dword (st.packets_sent + 1) }
  if success then
    let received := to_dword (st1.packets_received + 1)
    let rtt : ℚ := (rtt_ms : ℚ)
    let min_rtt := if rtt < st1.min_rtt then rtt else st1.min_rtt
    let max_rtt := if rtt > st1.max_rtt then rtt else st1.max_rtt
    let avg_rtt :=
      ((st1.avg_rtt * ((dword_pred received : Nat) : ℚ)) + rtt) / (received : ℚ)
    let jitter :=
      if received > 1 then (st1.jitter * (9 / 10)) + (|rtt - avg_rtt| * (1 / 10))
      else st1.jitter
    { st1 with
      packets_received := received
      min_rtt := min_rtt
      max_rtt := max_rtt
      avg_rtt := avg_rtt
      jitter := jitter }
  else
    { st1 with packets_lost := to_dword (st1.packets_lost + 1) }

/-! ## Countermeasures -/

/-- Answers of the operating system during one activation: the clock reading
of `GetSystemTime` and the results of the three `CreateProcessA` calls. -/
structure CmEnv where
  now : Nat
  netsh_ok : Bool
  arp_ok : Bool
  flushdns_ok : Bool
deriving DecidableEq

/-- The index update at the head of `switch_dns_server`:
`if (index >= count - 1) index = 0; else index++;` on `DWORD` values. -/
def next_dns_index (index count : Nat) : Nat :=
  if index ≥ dword_pred count then 0 else to_dword (index + 1)

/-- Switch to next backup DNS server (`switch_dns_server`). The index is
advanced first, then `netsh` is launched with the entry it points at. -/
def switch_dns_server (netsh_ok : Bool) (s : State) : Bool × State :=
  let idx := next_dns_index s.g_stats.current_dns_index s.g_config.backup_dns_count
  let s1 := { s with g_stats := { s.g_stats with current_dns_index := idx } }
  let new_dns := s1.g_config.backup_dns.getD idx ""
  let s2 := emit (Action.netsh_set_dns new_dns) s1
  if netsh_ok then (true, dbj_log .LOG_INFO "DNS switched to: %s" s2) else (false, s2)

/-- Refresh network route (`refresh_network_route`): launches `arp -d *`. -/
def refresh_network_route (arp_ok : Bool) (s : State) : Bool × State :=
  (arp_ok, emit Action.arp_flush s)

/-- Flush DNS cache (`flush_dns_cache`): launches `ipconfig /flushdns`. -/
def flush_dns_cache (flushdns_ok : Bool) (s : State) : Bool × State :=
  (flushdns_ok, emit Action.ipconfig_flushdns s)

/-- The part of `trigger_countermeasures` that runs inside the critical
section. Returns `false` when the flag was already set (the `__leave` taken
right after `LeaveCriticalSection`), and `true` after an activation, at the
point where `Sleep(30000)` is about to be called. -/
def trigger_enter (env : CmEnv) (s : State) : Bool × State :=
  if s.g_stats.countermeasures_active then (false, s)
  else
    let s1 := { s with g_stats :=
      { s.g_stats with countermeasures_active := true, last_countermeasure := env.now } }
    let s2 := dbj_log .LOG_WARNING "COUNTERMEASURES ACTIVATED" s1
    let r3 : Bool × State :=
      if s2.g_config.enable_dns_switching then
        let r := switch_dns_server env.netsh_ok s2
        if r.1 then (true, dbj_log .LOG_INFO "Countermeasure: DNS server switched" r.2)
        else (false, r.2)
      else (false, s2)
    let r4 : Bool × State :=
      if r3.2.g_config.enable_route_refresh then
        let r := refresh_network_route env.arp_ok r3.2
        if r.1 then (true, dbj_log .LOG_INFO "Countermeasure: Network route refreshed" r.2)
        else (r3.1, r.2)
      else r3
    let r5 : Bool × State :=
      let r := flush_dns_cache env.flushdns_ok r4.2
      if r.1 then (true, dbj_log .LOG_INFO "Countermeasure: DNS cache flushed" r.2)
      else (r4.1, r.2)
    let s6 :=
      if !r5.1 then dbj_log .LOG_WARNING "No countermeasures could be applied" r5.2
      else r5.2
    (true, s6)

/-- The two statements after the critical section of `trigger_countermeasures`:
`Sleep(30000); g_stats.countermeasures_active = false;`. -/
def trigger_wake (s : State) : State :=
  let s1 := emit (Action.sleep COOLDOWN_MS) s
  { s1 with g_stats := { s1.g_stats with countermeasures_active := false } }

/-- The `__finally` block of `trigger_countermeasures`, run on every exit. -/
def trigger_finally (s : State) : State :=
  if s.g_stats.countermeasures_active then
    { s with g_stats := { s.g_stats with countermeasures_active := false } }
  else s

/-- Trigger countermeasures (`trigger_countermeasures`), as one uninterrupted
call: the critical section, then (after an activation) the sleep and the flag
reset, then the `__finally` block. -/
def trigger_countermeasures (env : CmEnv) (s : State) : State :=
  let r := trigger_enter env s
  trigger_finally (if r.1 then trigger_wake r.2 else r.2)

/-! ## Network health analysis -/

/-- Rounding of a rational to the nearest `double` (IEEE 754 binary64, round
to nearest, ties to even). The exponent range is not modelled: no overflow to
infinity, no subnormal numbers. -/
def round_double (q : ℚ) : ℚ :=
  if q = 0 then 0
  else
    let e : ℤ := Int.log 2 |q| - 52
    let scaled : ℚ := |q| / (2 : ℚ) ^ e
    let f : ℤ := ⌊scaled⌋
    let r : ℚ := scaled - (f : ℚ)
    let m : ℤ :=
      if r < 1 / 2 then f else if 1 / 2 < r then f + 1 else if f % 2 = 0 then f else f + 1
    (if q < 0 then -1 else 1) * (m : ℚ) * (2 : ℚ) ^ e

/-- The packet loss percentage as `analyze_network_health` computes it:
`(double)g_stats.packets_lost / g_stats.packets_sent * 100.0`, the quotient
and the product each rounded to a `double` (the conversions of the two
`DWORD` counters and the constant `100.0` are exact). -/
def loss_percentage (lost sent : Nat) : ℚ :=
  round_double (round_double ((lost : ℚ) / (sent : ℚ)) * 100)

/-- Analyze network health and trigger countermeasures if needed
(`analyze_network_health`). The Boolean tells whether
`trigger_countermeasures` was called. The loss percentage is computed in
`double` arithmetic, as in the source; the thresholds are `DWORD` values,
converted exactly, and `avg_rtt` and `jitter` are compared as they are stored. -/
def analyze_network_health (env : CmEnv) (s : State) : Bool × State :=
  if !s.g_config.enable_countermeasures || s.g_stats.countermeasures_active then (false, s)
  else if s.g_stats.packets_sent < 10 then (false, s)
  else
    let loss_percentage : ℚ :=
      DbjPing.loss_percentage s.g_stats.packets_lost s.g_stats.packets_sent
    let r1 : Bool × State :=
      if loss_percentage > (s.g_config.loss_threshold : ℚ) then
        (true, dbj_log .LOG_WARNING "High packet loss detected: %.1f%% (threshold: %lu%%)" s)
      else (false, s)
    let r2 : Bool × State :=
      if r1.2.g_stats.avg_rtt > (r1.2.g_config.latency_threshold : ℚ) then
        (true, dbj_log .LOG_WARNING "High latency detected: %.1fms (threshold: %lums)" r1.2)
      else r1
    let r3 : Bool × State :=
      if r2.2.g_stats.jitter > (r2.2.g_config.jitter_threshold : ℚ) then
        (true, dbj_log .LOG_WARNING "High jitter detected: %.1fms (threshold: %lums)" r2.2)
      else r2
    if r3.1 then (true, trigger_countermeasures env r3.2) else (false, r3.2)

/-! ## Ping implementation -/

/-- Answers of the operating system during one `perform_ping`: the clock,
`resolve_hostname` (`none` when `getaddrinfo` fails), whether `inet_addr`
accepts the address, whether `HeapAlloc` succeeds, and the outcome of
`IcmpSendEcho` (reply count, reply status, round-trip time, `GetLastError`). -/
structure PingEnv where
  now : Nat
  resolved : Option String
  inet_addr_ok : Bool
  heap_alloc_ok : Bool
  reply_count : Nat
  echo_status : Nat
  echo_rtt : Nat
  last_error : Nat
deriving DecidableEq

/-- Result after `memset(result, 0, sizeof(ping_result_t))` and the time stamp. -/
def ZERO_RESULT (now : Nat) : ping_result_t where
  success := false
  rtt_ms := 0
  status := 0
  target_ip := ""
  timestamp := now

/-- Resolve hostname to IP address (`resolve_hostname`). Returns the status
and the contents of `ip_buffer` (if written). -/
def resolve_hostname (hostname : String) (env : PingEnv) (s : State) :
    Nat × Option String × State :=
  let s1 := emit (Action.getaddrinfo hostname) s
  match env.resolved with
  | none =>
    (ERROR_INVALID_PARAMETER, none, dbj_log .LOG_ERROR "getaddrinfo failed for %s: %d" s1)
  | some ip => (ERROR_SUCCESS, some ip, s1)

/-- Perform single ping operation (`perform_ping`). Returns the value of the
function, the contents of `*result`, and the new state. -/
def perform_ping (target : String) (env : PingEnv) (s : State) :
    Bool × ping_result_t × State :=
  let r0 := ZERO_RESULT env.now
  let rh := resolve_hostname target env s
  let s1 := rh.2.2
  if rh.1 ≠ ERROR_SUCCESS then
    (false, { r0 with success := false, status := IP_DEST_HOST_UNREACHABLE }, s1)
  else
    let target_ip := rh.2.1.getD ""
    let r1 := { r0 with target_ip := target_ip }
    if !env.inet_addr_ok then
      (false, { r1 with success := false, status := IP_BAD_DESTINATION }, s1)
    else if !env.heap_alloc_ok then
      (false, { r1 with success := false, status := IP_NO_RESOURCES }, s1)
    else
      let s2 := emit (Action.icmp_send_echo target_ip s1.g_config.timeout_ms) s1
      let r2 :=
        if env.reply_count > 0 then
          { r1 with
            success := decide (to_dword env.echo_status = IP_SUCCESS)
            status := to_dword env.echo_status
            rtt_ms := to_dword env.echo_rtt }
        else
          { r1 with success := false, status := to_dword env.last_error }
      (r2.success, r2, s2)

/-! ## Configuration management -/

/-- Answers of the operating system to the configuration code: the directory
of the module (`none` when `GetModuleFileNameA` fails), whether the INI file
exists, whether the `WritePrivateProfileStringA` calls succeed, and the values
the `GetPrivateProfile*` calls return (`dns` lists the answers for the keys
`BackupDns1` to `BackupDns8`, empty when a key is absent). -/
structure IniEnv where
  module_dir : Option String
  file_exists : Bool
  write_ok : Bool
  timeout_ms : Nat
  interval_ms : Nat
  loss_threshold : Nat
  latency_threshold : Nat
  jitter_threshold : Nat
  max_retries : Nat
  enable_countermeasures : Nat
  enable_dns_switching : Nat
  enable_route_refresh : Nat
  enable_logging : Nat
  target : String
  dns : List String
deriving DecidableEq

/-- Computes the path of the INI file (`initialize_config_path`). -/
def initialize_config_path (env : IniEnv) (s : State) : Bool × State :=
  match env.module_dir with
  | some dir =>
    (true, dbj_log .LOG_INFO "Config file path: %s"
      { s with g_config_path := dir ++ "dbj_ping.ini" })
  | none => (false, dbj_log .LOG_ERROR "Failed to get module path for config file" s)

/-- Create default configuration file (`create_default_config`): the defaults
are installed in `g_config` before the file is written. -/
def create_default_config (env : IniEnv) (s : State) : Bool × State :=
  let s1 := { s with g_config := DEFAULT_CONFIG }
  let s2 := emit (Action.write_ini s1.g_config) s1
  if env.write_ok then
    (true, dbj_log .LOG_INFO "Default configuration file created: %s" s2)
  else
    (false, dbj_log .LOG_ERROR "Failed to write INI [%s]%s=%s to %s" s2)

/-- One round of the loop of `load_configuration` that reads `BackupDns(i+1)`:
a non-empty answer is stored at position `backup_dns_count`, which then grows. -/
def load_backup_dns_step (dns : List String) (cfg : ping_config_t) (i : Nat) : ping_config_t :=
  let dns_server := dns.getD i ""
  if dns_server.length > 0 then
    { cfg with
      backup_dns := cfg.backup_dns.set cfg.backup_dns_count dns_server
      backup_dns_count := cfg.backup_dns_count + 1 }
  else cfg

/-- One round of the loop of `load_configuration` that copies the defaults. -/
def copy_default_dns_step (cfg : ping_config_t) (i : Nat) : ping_config_t :=
  { cfg with backup_dns := cfg.backup_dns.set i (DEFAULT_CONFIG.backup_dns.getD i "") }

/-- The backup DNS part of `load_configuration`: reset the count, read the
`MAX_BACKUP_DNS` keys, and use the defaults if none was loaded. -/
def load_backup_dns (dns : List String) (cfg : ping_config_t) : ping_config_t :=
  let c1 := (List.range MAX_BACKUP_DNS).foldl (load_backup_dns_step dns)
    { cfg with backup_dns_count := 0 }
  if c1.backup_dns_count = 0 then
    let c2 := (List.range DEFAULT_CONFIG.backup_dns_count).foldl copy_default_dns_step c1
    { c2 with backup_dns_count := DEFAULT_CONFIG.backup_dns_count }
  else c1

/-- Load configuration from INI file (`load_configuration`). -/
def load_configuration (env : IniEnv) (s : State) : Bool × State :=
  let r1 := initialize_config_path env s
  if !r1.1 then (false, dbj_log .LOG_ERROR "Failed to initialize configuration path" r1.2)
  else
    let r2 : Bool × State :=
      if !env.file_exists then
        let s2 := dbj_log .LOG_INFO "Configuration file not found, creating default" r1.2
        create_default_config env s2
      else (true, r1.2)
    if !r2.1 then
      (false, dbj_log .LOG_ERROR "Failed to create default configuration file" r2.2)
    else
      let c := r2.2.g_config
      let c1 : ping_config_t :=
        { c with
          timeout_ms := env.timeout_ms
          interval_ms := env.interval_ms
          loss_threshold := env.loss_threshold
          latency_threshold := env.latency_threshold
          jitter_threshold := env.jitter_threshold
          max_retries := env.max_retries
          enable_countermeasures := decide (env.enable_countermeasures ≠ 0)
          enable_dns_switching := decide (env.enable_dns_switching ≠ 0)
          enable_route_refresh := decide (env.enable_route_refresh ≠ 0)
          enable_logging := decide (env.enable_logging ≠ 0)
          target := env.target }
      let c2 := load_backup_dns env.dns c1
      (true, dbj_log .LOG_INFO "Configuration loaded successfully from: %s"
        { r2.2 with g_config := c2 })

/-- Save current configuration to INI file (`save_configuration`). -/
def save_configuration (env : IniEnv) (s : State) : Bool × State :=
  let r1 : Bool × State :=
    if s.g_config_path.length = 0 then initialize_config_path env s else (true, s)
  if !r1.1 then
    (false, dbj_log .LOG_ERROR "Failed to initialize configuration path for saving" r1.2)
  else
    let s2 := emit (Action.write_ini r1.2.g_config) r1.2
    if env.write_ok then
      (true, dbj_log .LOG_INFO "Configuration saved successfully to: %s" s2)
    else
      (false, dbj_log .LOG_ERROR "Failed to write INI [%s]%s=%s to %s" s2)

/-! ## Exported functions -/

/-- Answers of the operating system during `ping_initialize`. -/
structure InitEnv where
  wsa_result : Nat
  icmp_handle : Option Nat
  last_error : Nat
  ini : IniEnv
  now : Nat
deriving DecidableEq

/-- Initialize the ping subsystem (`ping_initialize`). -/
def ping_initialize (env : InitEnv) (s : State) : Nat × State :=
  if s.g_initialized then (ERROR_ALREADY_INITIALIZED, s)
  else
    let s1 := emit Action.wsa_startup s
    if env.wsa_result ≠ 0 then
      (ERROR_NETWORK_UNREACHABLE, dbj_log .LOG_ERROR "WSAStartup failed: %d" s1)
    else
      let s2 := { emit Action.icmp_create_file s1 with g_icmp_handle := env.icmp_handle }
      match env.icmp_handle with
      | none =>
        (to_dword env.last_error,
          emit Action.wsa_cleanup (dbj_log .LOG_ERROR "IcmpCreateFile failed: %lu" s2))
      | some _ =>
        let r3 := load_configuration env.ini s2
        if !r3.1 then
          (ERROR_INVALID_PARAMETER, emit Action.wsa_cleanup (emit Action.icmp_close_handle r3.2))
        else
          let s4 := init_stats env.now r3.2
          let s5 := { s4 with g_initialized := true }
          (ERROR_SUCCESS, dbj_log .LOG_INFO "dbj_ping DLL initialized successfully" s5)

/-- Execute a single ping (`ping_execute`). `target = none` is a null
`target` pointer, `result_given = false` a null `result` pointer. Returns the
status, the contents written to `*result` (if any), and the new state. -/
def ping_execute (target : Option String) (result_given : Bool) (env : PingEnv)
    (cm : CmEnv) (s : State) : Nat × Option ping_result_t × State :=
  if !s.g_initialized then (ERROR_NOT_READY, none, s)
  else
    match target with
    | none => (ERROR_INVALID_PARAMETER, none, s)
    | some target =>
      if !result_given then (ERROR_INVALID_PARAMETER, none, s)
      else
        let ping_target := if target.length > 0 then target else s.g_config.target
        let p := perform_ping ping_target env s
        let success := p.1
        let result := p.2.1
        let s1 : State :=
          { p.2.2 with g_stats := update_stats success result.rtt_ms p.2.2.g_stats }
        let s2 : State :=
          if s1.g_stats.packets_sent % 5 = 0 then (analyze_network_health cm s1).2 else s1
        (if success then ERROR_SUCCESS else ERROR_NETWORK_UNREACHABLE, some result, s2)

/-- Get current statistics (`ping_get_stats`). `stats_given = false` is a null
pointer; the second component is what is copied to `*stats` (if anything). -/
def ping_get_stats (stats_given : Bool) (s : State) : Nat × Option ping_stats_t :=
  if !s.g_initialized || !stats_given then (ERROR_INVALID_PARAMETER, none)
  else (ERROR_SUCCESS, some s.g_stats)

/-- Get current configuration (`ping_get_config`). -/
def ping_get_config (config_given : Bool) (s : State) : Nat × Option ping_config_t :=
  if !s.g_initialized || !config_given then (ERROR_INVALID_PARAMETER, none)
  else (ERROR_SUCCESS, some s.g_config)

/-- Set new configuration (`ping_set_config`). `config = none` is a null
pointer. The result of `save_configuration` is ignored. -/
def ping_set_config (config : Option ping_config_t) (env : IniEnv) (s : State) : Nat × State :=
  if !s.g_initialized then (ERROR_INVALID_PARAMETER, s)
  else
    match config with
    | none => (ERROR_INVALID_PARAMETER, s)
    | some c =>
      let s1 := { s with g_config := c }
      let s2 := (save_configuration env s1).2
      (ERROR_SUCCESS, dbj_log .LOG_INFO "Configuration updated" s2)

/-- Reset statistics (`ping_reset_stats`). -/
def ping_reset_stats (now : Nat) (s : State) : Nat × State :=
  if !s.g_initialized then (ERROR_NOT_READY, s)
  else (ERROR_SUCCESS, dbj_log .LOG_INFO "Statistics reset" (init_stats now s))

/-- Force countermeasures activation (`ping_force_countermeasures`). -/
def ping_force_countermeasures (env : CmEnv) (s : State) : Nat × State :=
  if !s.g_initialized then (ERROR_NOT_READY, s)
  else
    let s1 := dbj_log .LOG_INFO "Forcing countermeasures activation" s
    (ERROR_SUCCESS, trigger_countermeasures env s1)

/-- Cleanup and release resources (`ping_cleanup`). -/
def ping_cleanup (s : State) : State :=
  if !s.g_initialized then s
  else
    let s1 := { s with g_initialized := false }
    let s2 :=
      match s1.g_icmp_handle with
      | some _ => { emit Action.icmp_close_handle s1 with g_icmp_handle := none }
      | none => s1
    dbj_log .LOG_INFO "dbj_ping DLL cleaned up" (emit Action.wsa_cleanup s2)

/-! ## Sequences of calls on an initialized monitor -/

/-- One call of the exported interface, with the answers the operating
system gives during the call. -/
inductive Op
  | execute (target : Option String) (result_given : Bool) (env : PingEnv) (cm : CmEnv)
  | get_stats (stats_given : Bool)
  | get_config (config_given : Bool)
  | set_config (config : Option ping_config_t) (env : IniEnv)
  | reset_stats (now : Nat)
  | force_countermeasures (cm : CmEnv)

/-- State after one call. -/
def apiStep (s : State) : Op → State
  | .execute target result_given env cm => (ping_execute target result_given env cm s).2.2
  | .get_stats _ => s
  | .get_config _ => s
  | .set_config config env => (ping_set_config config env s).2
  | .reset_stats now => (ping_reset_stats now s).2
  | .force_countermeasures cm => (ping_force_countermeasures cm s).2

/-- State after a sequence of calls, made one after the other. -/
def runOps (s : State) (ops : List Op) : State :=
  ops.foldl apiStep s

/-! ## Two concurrent callers of `ping_force_countermeasures` -/

/-- The two calling threads. -/
inductive Tid
  | A
  | B
deriving DecidableEq

/-- Where a thread is inside `ping_force_countermeasures`: before
`EnterCriticalSection`; inside `Sleep(30000)`, which returns at `wake`; before
the `__finally` block of `trigger_countermeasures`; returned. -/
inductive Pc
  | start
  | sleeping (wake : Nat)
  | leaving
  | done
deriving DecidableEq

/-- One step of a thread at time `t`. The critical section is one step (the
lock keeps other threads out of it); it takes `busy` milliseconds, after
which `Sleep(30000)` starts. A sleeping thread cannot step before `wake`. -/
def callerStep (t : Nat) (env : CmEnv) (busy : Nat) (pc : Pc) (s : State) :
    Option (Pc × State) :=
  match pc with
  | .start =>
    if !s.g_initialized then some (.done, s)
    else
      let s1 := dbj_log .LOG_INFO "Forcing countermeasures activation" s
      let r := trigger_enter { env with now := t } s1
      if r.1 then some (.sleeping (t + busy + COOLDOWN_MS), r.2) else some (.leaving, r.2)
  | .sleeping wake => if wake ≤ t then some (.leaving, trigger_wake s) else none
  | .leaving => some (.done, trigger_finally s)
  | .done => none

/-- The shared state, the clock and the position of each thread. -/
structure Sys where
  st : State
  clock : Nat
  pc : Tid → Pc

/-- A scheduling event: thread `tid` takes its next step at time `time`. -/
structure Event where
  tid : Tid
  time : Nat
deriving DecidableEq

/-- One scheduling event; `none` when the event is impossible (time running
backwards, a thread that has returned, a sleeper woken too early). -/
def sysStep (envs : Tid → CmEnv) (busy : Tid → Nat) (sys : Sys) (e : Event) : Option Sys :=
  if e.time < sys.clock then none
  else
    match callerStep e.time (envs e.tid) (busy e.tid) (sys.pc e.tid) sys.st with
    | none => none
    | some r => some { st := r.2, clock := e.time, pc := Function.update sys.pc e.tid r.1 }

/-- A schedule, event after event. -/
def sysRun (envs : Tid → CmEnv) (busy : Tid → Nat) : Sys → List Event → Option Sys
  | sys, [] => some sys
  | sys, e :: es =>
    match sysStep envs busy sys e with
    | none => none
    | some sys1 => sysRun envs busy sys1 es

/-- Time of the first step of thread `tid` in a schedule: the moment its call
of `ping_force_countermeasures` reaches the critical section. -/
def firstTime (tid : Tid) : List Event → Option Nat
  | [] => none
  | e :: es => if e.tid = tid then some e.time else firstTime tid es

/-! ## Predicates used by the theorems -/

/-- The fields of the statistics that only `ping_execute` and `init_stats` write. -/
def SameCounters (a b : ping_stats_t) : Prop :=
  a.packets_sent = b.packets_sent ∧ a.packets_received = b.packets_received ∧
  a.packets_lost = b.packets_lost ∧ a.min_rtt = b.min_rtt ∧ a.max_rtt = b.max_rtt ∧
  a.avg_rtt = b.avg_rtt ∧ a.jitter = b.jitter

/-- What the countermeasure code leaves alone: the configuration, the
initialized flag and the probe counters. -/
def Frame (s t : State) : Prop :=
  t.g_config = s.g_config ∧ t.g_initialized = s.g_initialized ∧
  SameCounters t.g_stats s.g_stats

/-- The `DWORD` equation between the three packet counters. -/
def CountersOk (st : ping_stats_t) : Prop :=
  st.packets_sent = (st.packets_received + st.packets_lost) % 2 ^ 32

/-- Statistics right after `init_stats`. -/
def FRESH_STATS (now : Nat) : ping_stats_t :=
  { ZERO_STATS with min_rtt := DBL_MAX, max_rtt := 0, last_countermeasure := now }

/-- A call of `ping_initialize` on a monitor that is not initialized which
leaves it initialized. -/
def Initializes (env : InitEnv) (s0 : State) : Prop :=
  s0.g_initialized = false ∧ ( ping_initialize env s0).2.g_initialized = true

/-- The remediation launches of one activation, in order, for configuration
`cfg` and rotation index `index` before the activation. -/
def activation_actions (cfg : ping_config_t) (index : Nat) : List Action :=
  (if cfg.enable_dns_switching then
      [Action.netsh_set_dns (cfg.backup_dns.getD (next_dns_index index cfg.backup_dns_count) "")]
    else []) ++
  (if cfg.enable_route_refresh then [Action.arp_flush] else []) ++
  [Action.ipconfig_flushdns]

/-- What a position still owes to the trace once both threads have returned. -/
def pending : Pc → List Action
  | .sleeping _ => [Action.sleep COOLDOWN_MS]
  | _ => []

/-- Condition on one call, given the state it is made in: a `ping_set_config`
installs a resolver count (a `DWORD`) that is greater than the current
rotation index. Nothing is asked of the other calls. -/
def SetConfigAboveIndex (s : State) : Op → Prop
  | .set_config (some c) _ =>
    s.g_stats.current_dns_index < c.backup_dns_count ∧ c.backup_dns_count < 2 ^ 32
  | _ => True

/-- Every call of a sequence, made from `s` on, meets the condition `ok` in
the state it is made in. -/
def RunOk (ok : State → Op → Prop) : State → List Op → Prop
  | _, [] => True
  | s, op :: ops => ok s op ∧ RunOk ok (apiStep s op) ops

/-- The ordering facts about the round-trip statistics: with nothing
received, `min_rtt` is the sentinel (and `max_rtt`, `avg_rtt` are still zero);
with something received, `min_rtt <= avg_rtt <= max_rtt`. -/
def RttOk (st : ping_stats_t) : Prop :=
  (st.packets_received = 0 → st.min_rtt = DBL_MAX ∧ st.max_rtt = 0 ∧ st.avg_rtt = 0) ∧
  (0 < st.packets_received → st.min_rtt ≤ st.avg_rtt ∧ st.avg_rtt ≤ st.max_rtt)

/-- Counting the `ping_execute` calls since the last `ping_reset_stats`: the
count after one more call. -/
def countStep (n : Nat) : Op → Nat
  | .execute _ _ _ _ => n + 1
  | .reset_stats _ => 0
  | _ => n

/-- Number of `ping_execute` calls of a sequence that come after its last
`ping_reset_stats`. -/
def probesSinceReset (ops : List Op) : Nat :=
  ops.foldl countStep 0

/-- The equation between the packet counters without wrap-around, together
with the bound that keeps it so: at most `n` packets sent. -/
def CountersExact (st : ping_stats_t) (n : Nat) : Prop :=
  st.packets_sent ≤ n ∧ st.packets_sent = st.packets_received + st.packets_lost

/-- The value `perform_ping` returns, as a function of the answers of the
operating system: the name resolves, the address and the buffer are fine, and
a reply with status `IP_SUCCESS` arrives. -/
def probe_ok (env : PingEnv) : Bool :=
  env.resolved.isSome && env.inet_addr_ok && env.heap_alloc_ok &&
    decide (env.reply_count > 0) && decide (to_dword env.echo_status = IP_SUCCESS)

/-- Number of completed activations recorded in a trace: each one ends with
its `Sleep(30000)`. -/
def activations (tr : List Action) : Nat :=
  tr.count (Action.sleep COOLDOWN_MS)

/-- The first `k` probes of a run: probe `i` (counted from 0) is made on
target `target i` and gets the answers `e i` and, should an activation start,
`c i`. -/
def probeOps (target : Nat → String) (e : Nat → PingEnv) (c : Nat → CmEnv) (k : Nat) : List Op :=
  (List.range k).map (fun i => Op.execute (some (target i)) true (e i) (c i))

/-- Number of failed probes among the first `k` when exactly the second, the
fifth and the eighth probe fail. -/
def lostUpTo (k : Nat) : Nat :=
  (if 1 < k then 1 else 0) + (if 4 < k then 1 else 0) + (if 7 < k then 1 else 0)

/-- State `s` is `k` accepted probes after `s0` with `l` of them lost and no
activation in between. -/
def Quiet (s0 s : State) (k l : Nat) : Prop :=
  s.g_initialized = true ∧ s.g_config = s0.g_config ∧
  s.g_stats.packets_sent = k ∧ s.g_stats.packets_lost = l ∧
  s.g_stats.countermeasures_active = false ∧
  s.g_stats.last_countermeasure = s0.g_stats.last_countermeasure ∧
  s.g_stats.current_dns_index = s0.g_stats.current_dns_index ∧
  activations s.trace = activations s0.trace

/-! ## Sample inputs -/

/-- Sample INI answers: the file exists and holds the documented defaults,
with no `BackupDns` key. -/
def SAMPLE_INI : IniEnv where
  module_dir := some "app/"
  file_exists := true
  write_ok := true
  timeout_ms := 3000
  interval_ms := 1000
  loss_threshold := 30
  latency_threshold := 500
  jitter_threshold := 100
  max_retries := 3
  enable_countermeasures := 1
  enable_dns_switching := 1
  enable_route_refresh := 1
  enable_logging := 1
  target := "8.8.8.8"
  dns := []

/-- Sample answers for `ping_initialize`: every step succeeds. -/
def SAMPLE_INIT : InitEnv where
  wsa_result := 0
  icmp_handle := some 1
  last_error := 0
  ini := SAMPLE_INI
  now := 0

/-- Sample answers for a probe: a reply with status `IP_SUCCESS` after `rtt` ms. -/
def SAMPLE_REPLY (rtt : Nat) : PingEnv where
  now := 0
  resolved := some "8.8.8.8"
  inet_addr_ok := true
  heap_alloc_ok := true
  reply_count := 1
  echo_status := 0
  echo_rtt := rtt
  last_error := 0

/-- Sample answers for a probe: the name does not resolve. -/
def SAMPLE_UNRESOLVED : PingEnv where
  now := 0
  resolved := none
  inet_addr_ok := false
  heap_alloc_ok := false
  reply_count := 0
  echo_status := 0
  echo_rtt := 0
  last_error := 0

/-- Sample answers for an activation at time `now`: every launch succeeds. -/
def SAMPLE_CM (now : Nat) : CmEnv where
  now := now
  netsh_ok := true
  arp_ok := true
  flushdns_ok := true

/-- The monitor after a first successful `ping_initialize`. -/
def READY : State := ( ping_initialize SAMPLE_INIT LOADED).2

/-- Sample state: ten probes sent, four of them lost, on the sample configuration. -/
def DEGRADED : State :=
  { READY with
    g_stats :=
      { packets_sent := 10
        packets_received := 6
        packets_lost := 4
        min_rtt := 20
        max_rtt := 20
        avg_rtt := 20
        jitter := 0
        countermeasures_active := false
        current_dns_index := 0
        last_countermeasure := 0 } }

/-- Sample state: twenty probes sent, eleven of them lost, and a loss
threshold of 55 (the other thresholds as in the sample configuration). -/
def AT_THRESHOLD : State :=
  { READY with
    g_config := { READY.g_config with loss_threshold := 55 }
    g_stats :=
      { packets_sent := 20
        packets_received := 9
        packets_lost := 11
        min_rtt := 20
        max_rtt := 20
        avg_rtt := 20
        jitter := 0
        countermeasures_active := false
        current_dns_index := 0
        last_countermeasure := 0 } }

/-- Sample state: a first activation has run its critical section on `READY`
at time 1000 and its thread is inside `Sleep(30000)`. -/
def SLEEPING : State := (trigger_enter (SAMPLE_CM 1000) READY).2

/-- Sample INI answers that list three backup DNS servers. -/
def SAMPLE_INI3 : IniEnv :=
  { SAMPLE_INI with dns := ["1.1.1.1", "8.8.8.8", "9.9.9.9"] }

/-- The monitor after a successful `ping_initialize` with three backup DNS
servers configured. -/
def READY3 : State := ( ping_initialize { SAMPLE_INIT with ini := SAMPLE_INI3 } LOADED).2

/-- Sample answers for an activation at time `now`: every launch fails. -/
def SAMPLE_CM_FAIL (now : Nat) : CmEnv where
  now := now
  netsh_ok := false
  arp_ok := false
  flushdns_ok := false

/-- Sample schedule: `A` reaches the critical section at 1 s, `B` at 5 s and
returns at once, `A` wakes at 40 s and returns. -/
def SAMPLE_SCHEDULE : List Event :=
  [⟨.A, 1000⟩, ⟨.B, 5000⟩, ⟨.B, 5000⟩, ⟨.A, 40000⟩, ⟨.A, 40000⟩]

/-- The system at the end of the sample schedule, both calls made on `READY`
(`READY` itself if the schedule were impossible). -/
def SAMPLE_FINAL : Sys :=
  (sysRun (fun _ => SAMPLE_CM 0) (fun _ => 200)
    { st := READY, clock := 0, pc := fun _ => .start } SAMPLE_SCHEDULE).getD
    { st := READY, clock := 0, pc := fun _ => .start }

/-- A configuration with a single backup DNS server. -/
def ONE_DNS_CONFIG : ping_config_t := { DEFAULT_CONFIG with backup_dns_count := 1 }

/-- A configuration with three backup DNS servers. -/
def THREE_DNS_CONFIG : ping_config_t := { DEFAULT_CONFIG with backup_dns_count := 3 }

/-- A configuration whose count field is 9, one more than the table holds. -/
def NINE_DNS_CONFIG : ping_config_t := { DEFAULT_CONFIG with backup_dns_count := 9 }

/-- A configuration whose count field is 0. -/
def NO_DNS_CONFIG : ping_config_t := { DEFAULT_CONFIG with backup_dns_count := 0 }

/-- A sequence of `n` probes that all succeed with a round trip of 20 ms. -/
def probes (n : Nat) : List Op :=
  List.replicate n (Op.execute (some "") true (SAMPLE_REPLY 20) (SAMPLE_CM 0))

/-- Sample state: the initialized monitor with countermeasures disabled in the
configuration (and nothing sent yet). -/
def GATED : State :=
  { READY with g_config := { READY.g_config with enable_countermeasures := false } }

/-- Sample state: the initialized monitor after one forced activation
(rotation index 1). -/
def ROTATED : State := (ping_force_countermeasures (SAMPLE_CM 1) READY).2

/-- Sample state: the initialized monitor whose configured target is the empty
string (installed by `ping_set_config`). -/
def EMPTY_TARGET : State :=
  (ping_set_config (some { DEFAULT_CONFIG with target := "" }) SAMPLE_INI READY).2

/-- Sample state: the initialized monitor with a loss threshold of 20. -/
def READY20 : State :=
  ( ping_initialize { SAMPLE_INIT with ini := { SAMPLE_INI with loss_threshold := 20 } } LOADED).2

/-- Sample answers for ten probes: the second, fifth and eighth do not
resolve, the others get a reply after 20 ms. -/
def SAMPLE_TEN (i : Nat) : PingEnv :=
  if i = 1 ∨ i = 4 ∨ i = 7 then SAMPLE_UNRESOLVED else SAMPLE_REPLY 20

/-- The state of `ping_execute` on its accepted path right after the statistics
update (at `LeaveCriticalSection`), before the test `packets_sent % 5 == 0`. -/
def ping_execute_recorded (target : String) (env : PingEnv) (s : State) : State :=
  let ping_target := if target.length > 0 then target else s.g_config.target
  let p := perform_ping ping_target env s
  { p.2.2 with g_stats := update_stats p.1 p.2.1.rtt_ms p.2.2.g_stats }

/-- Whether a call of `ping_execute` reaches the statement
`analyze_network_health();`: the call is accepted and the test
`g_stats.packets_sent % 5 == 0` holds after the statistics update. -/
def ping_execute_analyzes (target : Option String) (result_given : Bool) (env : PingEnv)
    (s : State) : Bool :=
  match target with
  | none => false
  | some target =>
    s.g_initialized && result_given &&
      decide ((ping_execute_recorded target env s).g_stats.packets_sent % 5 = 0)

/-- Sample state: fourteen probes sent, five of them lost, on the sample
configuration. -/
def STRAINED : State :=
  { READY with
    g_stats :=
      { packets_sent := 14
        packets_received := 9
        packets_lost := 5
        min_rtt := 20
        max_rtt := 20
        avg_rtt := 20
        jitter := 0
        countermeasures_active := false
        current_dns_index := 0
        last_countermeasure := 0 } }

/-- Counting the probes recorded by `ping_execute` (the calls that pass the
argument checks) since the last `ping_reset_stats`: the count after one more
call. -/
def recordStep (n : Nat) : Op → Nat
  | .execute (some _) true _ _ => n + 1
  | .reset_stats _ => 0
  | _ => n

/-- Number of probes of a sequence that were recorded after its last
`ping_reset_stats`. -/
def recordedSinceReset (ops : List Op) : Nat :=
  ops.foldl recordStep 0

/-- The round-trip times received since the last `ping_reset_stats`, oldest
first: the list after one more call. A recorded probe that succeeds adds the
`RoundTripTime` of its reply (a `DWORD`). -/
def rttStep (l : List Nat) : Op → List Nat
  | .execute (some _) true env _ => if probe_ok env then l ++ [to_dword env.echo_rtt] else l
  | .reset_stats _ => []
  | _ => l

/-- Round-trip times of the probes of a sequence that were received after its
last `ping_reset_stats`. -/
def receivedRtts (ops : List Op) : List Nat :=
  ops.foldl rttStep []

/-- Arithmetic mean of a list of round-trip times. -/
def mean_rtt (l : List Nat) : ℚ :=
  ((l.sum : Nat) : ℚ) / ((l.length : Nat) : ℚ)

/-- The received counter, the running average and the jitter against the list
of round-trip times received since the last reset: the counter is the length,
the average times the length is the sum, and the jitter is still zero while at
most one probe was received. -/
def MeanOk (st : ping_stats_t) (l : List Nat) : Prop :=
  st.packets_received = l.length ∧
  st.avg_rtt * ((l.length : Nat) : ℚ) = ((l.sum : Nat) : ℚ) ∧
  (l.length ≤ 1 → st.jitter = 0)

/-- Sample run: a reply after 10 ms, a probe that does not resolve, a reply
after 30 ms. -/
def SAMPLE_RUN : List Op :=
  [Op.execute (some "8.8.8.8") true (SAMPLE_REPLY 10) (SAMPLE_CM 0),
    Op.execute (some "nowhere") true SAMPLE_UNRESOLVED (SAMPLE_CM 0),
    Op.execute (some "8.8.8.8") true (SAMPLE_REPLY 30) (SAMPLE_CM 0)]

/-! ## The command-line parser of `dbj_ping.exe` -/

/-- Command-line options (`ping_options_t` of `dbj_ping_cli.c`). -/
structure ping_options_t where
  target : String
  count : Int
  timeout : Int
  ttl : Int
  size : Int
  no_fragment : Bool
  resolve_addresses : Bool
  quiet : Bool
  flood : Bool
  verbose : Bool
  interval : Int
  infinite : Bool
  help : Bool
deriving DecidableEq

/-- Zero-initialised options (`static ping_options_t g_options = { 0 }`). -/
def ZERO_OPTIONS : ping_options_t where
  target := ""
  count := 0
  timeout := 0
  ttl := 0
  size := 0
  no_fragment := false
  resolve_addresses := false
  quiet := false
  flood := false
  verbose := false
  interval := 0
  infinite := false
  help := false

/-- White space as `isspace` sees it in the C locale. -/
def is_space (c : Char) : Bool :=
  c.toNat = 32 || (decide (9 ≤ c.toNat) && decide (c.toNat ≤ 13))

/-- Drops leading white space. -/
def skip_space : List Char → List Char
  | [] => []
  | c :: cs => if is_space c then skip_space cs else c :: cs

/-- Reads the run of decimal digits at the head of the text: the value read
so far, the number of digits read so far, and on return the rest. -/
def read_digits : List Char → Nat → Nat → Nat × Nat × List Char
  | [], acc, k => (acc, k, [])
  | c :: cs, acc, k =>
    if c.isDigit then read_digits cs (acc * 10 + (c.toNat - 48)) (k + 1) else (acc, k, c :: cs)

/-- Reads an optional sign: whether it is a minus, and the rest. -/
def read_sign : List Char → Bool × List Char
  | [] => (false, [])
  | c :: cs => if c = '-' then (true, cs) else if c = '+' then (false, cs) else (false, c :: cs)

/-- The C library function `atoi`: white space, an optional sign, decimal
digits; 0 when there is no digit. The value is not reduced to the range of
`int` (out of range the C function is undefined). -/
def atoi (s : String) : Int :=
  let r := read_sign (skip_space s.data)
  let v : Int := ((read_digits r.2 0 0).1 : Int)
  if r.1 then -v else v

/-- The C library function `strtod` on decimal notation: white space, an
optional sign, digits with an optional fraction, an optional exponent.
Returns whether a number was converted (`endptr != nptr`) and its value, as an
exact rational (the rounding to a `double` is left out). Hexadecimal notation,
`inf` and `nan` are not covered. -/
def strtod (s : String) : Bool × ℚ :=
  let r := read_sign (skip_space s.data)
  let ip := read_digits r.2 0 0
  let fp : Nat × Nat × List Char :=
    match ip.2.2 with
    | c :: cs => if c = '.' then read_digits cs 0 0 else (0, 0, c :: cs)
    | [] => (0, 0, [])
  if ip.2.1 + fp.2.1 = 0 then (false, 0)
  else
    let ex : Int :=
      match fp.2.2 with
      | c :: cs =>
        if c = 'e' ∨ c = 'E' then
          let es := read_sign cs
          let ed := read_digits es.2 0 0
          if ed.2.1 = 0 then 0 else if es.1 then -(ed.1 : Int) else (ed.1 : Int)
        else 0
      | [] => 0
    let v : ℚ := ((ip.1 : ℚ) + (fp.1 : ℚ) / (10 : ℚ) ^ fp.2.1) * (10 : ℚ) ^ ex
    (true, if r.1 then -v else v)

/-- The name of an option argument, `argv[i] + 1`, when `argv[i][0]` is `-` or
`/`; `none` for any other argument. -/
def option_name (a : String) : Option String :=
  match a.data with
  | c :: cs => if c = '-' ∨ c = '/' then some (String.mk cs) else none
  | [] => none

/-- The exit of `parse_arguments` after the loop. -/
def parse_finish (o : ping_options_t) : Bool × ping_options_t :=
  if o.target.length = 0 && !o.help then (false, o) else (true, o)

/-- The loop of `parse_arguments` over `argv[i]`, `argv[i + 1]`, and so on;
an option that takes a value consumes the next argument (`argv[++i]`). -/
def parse_loop (o : ping_options_t) : List String → Bool × ping_options_t
  | [] => parse_finish o
  | a :: rest =>
    match option_name a with
    | some arg =>
      if arg = "t" then parse_loop { o with infinite := true } rest
      else if arg = "a" then parse_loop { o with resolve_addresses := true } rest
      else if arg = "f" then parse_loop { o with no_fragment := true } rest
      else if arg = "q" then parse_loop { o with quiet := true } rest
      else if arg = "v" then parse_loop { o with verbose := true } rest
      else if arg = "h" ∨ arg = "?" ∨ arg = "-help" then (true, { o with help := true })
      else if arg = "n" ∨ arg = "c" then
        match rest with
        | v :: rest1 =>
          let count := atoi v
          parse_loop { o with count := if count ≤ 0 then 4 else count } rest1
        | [] => (false, o)
      else if arg = "l" then
        match rest with
        | v :: rest1 =>
          let size := atoi v
          let size1 := if size < 0 then 32 else size
          parse_loop { o with size := if size1 > 65500 then 65500 else size1 } rest1
        | [] => (false, o)
      else if arg = "w" then
        match rest with
        | v :: rest1 =>
          let timeout := atoi v
          parse_loop { o with timeout := if timeout < 1 then 1000 else timeout } rest1
        | [] => (false, o)
      else if arg = "i" then
        match rest with
        | v :: rest1 =>
          let d := strtod v
          if d.1 ∧ d.2 > 0 then
            parse_loop { o with interval := ⌊d.2 * 1000⌋ } rest1
          else
            let ttl := atoi v
            let ttl1 := if ttl ≤ 0 then 128 else ttl
            parse_loop { o with ttl := if ttl1 > 255 then 255 else ttl1 } rest1
        | [] => (false, o)
      else if arg = "version" then (false, o)
      else (false, o)
    | none =>
      if o.target.length = 0 then
        parse_loop { o with target := String.mk (a.data.take 255) } rest
      else (false, o)

/-- Command-line parsing (`parse_arguments`): `argv` with the program name
first, `g` the value of `g_options` on entry. Returns the value of the
function and `g_options` on return; what is printed is left out. -/
def parse_arguments (argv : List String) (g : ping_options_t) : Bool × ping_options_t :=
  let o : ping_options_t :=
    { g with
      count := 4
      timeout := 3000
      ttl := 128
      size := 32
      interval := 1000
      infinite := false
      resolve_addresses := false
      no_fragment := false
      quiet := false
      verbose := false
      help := false }
  if argv.length < 2 then (false, o) else parse_loop o (argv.drop 1)

/-- Condition on one call: a `ping_set_config` installs a resolver count (a
`DWORD`) of at least 1. Nothing is asked of the other calls, and nothing
relates the count to the rotation index. -/
def SetConfigCountOk (_ : State) : Op → Prop
  | .set_config (some c) _ => 1 ≤ c.backup_dns_count ∧ c.backup_dns_count < 2 ^ 32
  | _ => True

/-- The rotation index is below the resolver count. -/
def IndexOk (s : State) : Prop :=
  s.g_stats.current_dns_index < s.g_config.backup_dns_count

/-- Initialized, with a resolver count (a `DWORD`) of at least 1. -/
def CountOk (s : State) : Prop :=
  s.g_initialized = true ∧ 1 ≤ s.g_config.backup_dns_count ∧
    s.g_config.backup_dns_count < 2 ^ 32

/-! # Theorems -/

/-! ## Frame lemmas -/

@[simp]
theorem dbj_log_g_stats (k : log_kind_t) (m : String) (s : State) :
    (dbj_log k m s).g_stats = s.g_stats := rfl

@[simp]
theorem dbj_log_g_config (k : log_kind_t) (m : String) (s : State) :
    (dbj_log k m s).g_config = s.g_config := rfl

@[simp]
theorem dbj_log_g_initialized (k : log_kind_t) (m : String) (s : State) :
    (dbj_log k m s).g_initialized = s.g_initialized := rfl

@[simp]
theorem dbj_log_trace (k : log_kind_t) (m : String) (s : State) :
    (dbj_log k m s).trace = s.trace := rfl

@[simp]
theorem emit_g_stats (a : Action) (s : State) : (emit a s).g_stats = s.g_stats := rfl

@[simp]
theorem emit_g_config (a : Action) (s : State) : (emit a s).g_config = s.g_config := rfl

@[simp]
theorem emit_g_initialized (a : Action) (s : State) :
    (emit a s).g_initialized = s.g_initialized := rfl

@[simp]
theorem emit_trace (a : Action) (s : State) : (emit a s).trace = s.trace ++ [a] := rfl

theorem Frame.refl (s : State) : Frame s s :=
  ⟨rfl, rfl, rfl, rfl, rfl, rfl, rfl, rfl, rfl⟩

theorem Frame.trans {s t u : State} (h1 : Frame s t) (h2 : Frame t u) : Frame s u := by
  obtain ⟨a1, a2, a3, a4, a5, a6, a7, a8, a9⟩ := h1
  obtain ⟨b1, b2, b3, b4, b5, b6, b7, b8, b9⟩ := h2
  exact ⟨b1.trans a1, b2.trans a2, b3.trans a3, b4.trans a4, b5.trans a5, b6.trans a6,
    b7.trans a7, b8.trans a8, b9.trans a9⟩

theorem switch_dns_server_frame (ok : Bool) (s : State) :
    Frame s (switch_dns_server ok s).2 := by
  unfold switch_dns_server Frame SameCounters
  cases ok <;> simp

theorem trigger_enter_frame (env : CmEnv) (s : State) : Frame s (trigger_enter env s).2 := by
  unfold trigger_enter Frame SameCounters
  obtain ⟨now, n, a, f⟩ := env
  cases ha : s.g_stats.countermeasures_active <;>
    cases hd : s.g_config.enable_dns_switching <;>
    cases hr : s.g_config.enable_route_refresh <;> cases n <;> cases a <;> cases f <;>
    simp [switch_dns_server, refresh_network_route, flush_dns_cache, hd, hr]

theorem trigger_wake_frame (s : State) : Frame s (trigger_wake s) :=
  ⟨rfl, rfl, rfl, rfl, rfl, rfl, rfl, rfl, rfl⟩

theorem trigger_finally_frame (s : State) : Frame s (trigger_finally s) := by
  unfold trigger_finally
  split_ifs
  · exact ⟨rfl, rfl, rfl, rfl, rfl, rfl, rfl, rfl, rfl⟩
  · exact Frame.refl s

theorem trigger_countermeasures_frame (env : CmEnv) (s : State) :
    Frame s (trigger_countermeasures env s) := by
  unfold trigger_countermeasures
  refine Frame.trans ?_ (trigger_finally_frame _)
  split_ifs
  · exact Frame.trans (trigger_enter_frame env s) (trigger_wake_frame _)
  · exact trigger_enter_frame env s

theorem dbj_log_frame (k : log_kind_t) (m : String) (s : State) : Frame s (dbj_log k m s) :=
  ⟨rfl, rfl, rfl, rfl, rfl, rfl, rfl, rfl, rfl⟩

theorem emit_frame (a : Action) (s : State) : Frame s (emit a s) :=
  ⟨rfl, rfl, rfl, rfl, rfl, rfl, rfl, rfl, rfl⟩

theorem analyze_network_health_frame (env : CmEnv) (s : State) :
    Frame s (analyze_network_health env s).2 := by
  unfold analyze_network_health
  split_ifs
  · exact Frame.refl s
  · exact Frame.refl s
  · dsimp only
    split_ifs <;>
      first
      | exact Frame.refl s
      | exact dbj_log_frame _ _ _
      | exact trigger_countermeasures_frame _ _

theorem resolve_hostname_same (hostname : String) (env : PingEnv) (s : State) :
    (resolve_hostname hostname env s).2.2.g_config = s.g_config ∧
    (resolve_hostname hostname env s).2.2.g_stats = s.g_stats ∧
    (resolve_hostname hostname env s).2.2.g_initialized = s.g_initialized := by
  unfold resolve_hostname
  cases env.resolved <;> exact ⟨rfl, rfl, rfl⟩

theorem perform_ping_same (target : String) (env : PingEnv) (s : State) :
    (perform_ping target env s).2.2.g_config = s.g_config ∧
    (perform_ping target env s).2.2.g_stats = s.g_stats ∧
    (perform_ping target env s).2.2.g_initialized = s.g_initialized := by
  unfold perform_ping
  have h := resolve_hostname_same target env s
  generalize resolve_hostname target env s = rh at h
  dsimp only
  split_ifs <;> exact h

theorem perform_ping_frame (target : String) (env : PingEnv) (s : State) :
    Frame s (perform_ping target env s).2.2 := by
  obtain ⟨h1, h2, h3⟩ := perform_ping_same target env s
  refine ⟨h1, h3, ?_⟩
  rw [h2]
  exact ⟨rfl, rfl, rfl, rfl, rfl, rfl, rfl⟩

theorem initialize_config_path_same (env : IniEnv) (s : State) :
    (initialize_config_path env s).2.g_config = s.g_config ∧
    (initialize_config_path env s).2.g_stats = s.g_stats ∧
    (initialize_config_path env s).2.g_initialized = s.g_initialized ∧
    (initialize_config_path env s).2.trace = s.trace := by
  unfold initialize_config_path
  split <;> exact ⟨rfl, rfl, rfl, rfl⟩

theorem save_configuration_same (env : IniEnv) (s : State) :
    (save_configuration env s).2.g_config = s.g_config ∧
    (save_configuration env s).2.g_stats = s.g_stats ∧
    (save_configuration env s).2.g_initialized = s.g_initialized := by
  unfold save_configuration
  have h1 : (if s.g_config_path.length = 0 then initialize_config_path env s else (true, s)).2.g_config
        = s.g_config ∧
      (if s.g_config_path.length = 0 then initialize_config_path env s else (true, s)).2.g_stats
        = s.g_stats ∧
      (if s.g_config_path.length = 0 then initialize_config_path env s
        else (true, s)).2.g_initialized = s.g_initialized := by
    have h := initialize_config_path_same env s
    split_ifs
    · exact ⟨h.1, h.2.1, h.2.2.1⟩
    · exact ⟨rfl, rfl, rfl⟩
  generalize (if s.g_config_path.length = 0 then initialize_config_path env s else (true, s)) = r1
    at h1
  dsimp only
  split_ifs <;> exact h1

theorem perform_ping_g_stats (target : String) (env : PingEnv) (s : State) :
    (perform_ping target env s).2.2.g_stats = s.g_stats :=
  (perform_ping_same target env s).2.1

theorem to_dword_lt (n : Nat) : to_dword n < 4294967296 := by
  unfold to_dword
  omega

theorem perform_ping_rtt_lt (target : String) (env : PingEnv) (s : State) :
    (perform_ping target env s).2.1.rtt_ms < 4294967296 := by
  unfold perform_ping
  dsimp only
  split_ifs <;> simp [ZERO_RESULT, to_dword_lt]

/-- Effect of `ping_execute` on the state: either the call is rejected and
nothing changes, or one probe is recorded by `update_stats` and the rest is
left to the countermeasure code. -/
theorem ping_execute_cases (target : Option String) (result_given : Bool) (env : PingEnv)
    (cm : CmEnv) (s : State) :
    (ping_execute target result_given env cm s).2.2 = s ∨
    ∃ success rtt_ms, rtt_ms < 4294967296 ∧
      (ping_execute target result_given env cm s).2.2.g_config = s.g_config ∧
      (ping_execute target result_given env cm s).2.2.g_initialized = s.g_initialized ∧
      SameCounters (ping_execute target result_given env cm s).2.2.g_stats
        (update_stats success rtt_ms s.g_stats) := by
  unfold ping_execute
  cases hinit : s.g_initialized with
  | false => exact Or.inl rfl
  | true =>
    cases target with
    | none => exact Or.inl rfl
    | some target =>
      cases result_given with
      | false => exact Or.inl rfl
      | true =>
        right
        dsimp only
        generalize (if target.length > 0 then target else s.g_config.target) = ping_target
        have hp := perform_ping_frame ping_target env s
        have hg := perform_ping_g_stats ping_target env s
        have hr := perform_ping_rtt_lt ping_target env s
        generalize perform_ping ping_target env s = p at hp hg hr
        refine ⟨p.1, p.2.1.rtt_ms, hr, ?_⟩
        simp only [Bool.not_true, Bool.false_eq_true, if_false]
        rw [hg]
        split_ifs
        · obtain ⟨a, b, c⟩ := analyze_network_health_frame cm
            { p.2.2 with g_stats := update_stats p.1 p.2.1.rtt_ms s.g_stats }
          exact ⟨a.trans hp.1, (b.trans hp.2.1).trans hinit, c⟩
        · exact ⟨hp.1, hp.2.1.trans hinit, rfl, rfl, rfl, rfl, rfl, rfl, rfl⟩

theorem ping_set_config_same (config : Option ping_config_t) (env : IniEnv) (s : State) :
    (ping_set_config config env s).2.g_initialized = s.g_initialized ∧
    (ping_set_config config env s).2.g_stats = s.g_stats := by
  unfold ping_set_config
  split_ifs
  · exact ⟨rfl, rfl⟩
  · cases config with
    | none => exact ⟨rfl, rfl⟩
    | some c =>
      have h := save_configuration_same env { s with g_config := c }
      exact ⟨h.2.2, h.2.1⟩

theorem ping_set_config_g_config (c : ping_config_t) (env : IniEnv) (s : State)
    (h : s.g_initialized = true) :
    (ping_set_config (some c) env s).2.g_config = c := by
  unfold ping_set_config
  simp only [h, Bool.not_true, Bool.false_eq_true, if_false]
  exact (save_configuration_same env _).1

theorem ping_force_countermeasures_frame (cm : CmEnv) (s : State) :
    Frame s (ping_force_countermeasures cm s).2 := by
  unfold ping_force_countermeasures
  split_ifs
  · exact Frame.refl s
  · exact trigger_countermeasures_frame cm _

/-! ## The counters -/

theorem CountersOk_of_same {a b : ping_stats_t} (h : SameCounters a b) (hb : CountersOk b) :
    CountersOk a := by
  unfold CountersOk at *
  rw [h.1, h.2.1, h.2.2.1]
  exact hb

theorem update_stats_CountersOk (success : Bool) (rtt_ms : Nat) (st : ping_stats_t)
    (h : CountersOk st) : CountersOk (update_stats success rtt_ms st) := by
  unfold CountersOk at *
  unfold update_stats to_dword
  cases success
  · simp only [Bool.false_eq_true, if_false]
    norm_num
    omega
  · simp only [if_true]
    norm_num
    omega

theorem apiStep_CountersOk (s : State) (op : Op)
    (h : s.g_initialized = true ∧ CountersOk s.g_stats) :
    (apiStep s op).g_initialized = true ∧ CountersOk (apiStep s op).g_stats := by
  cases op with
  | execute target result_given env cm =>
    rcases ping_execute_cases target result_given env cm s with h1 | ⟨b, r, -, -, h2, h3⟩
    · simp only [apiStep]
      rw [h1]
      exact h
    · exact ⟨h2.trans h.1, CountersOk_of_same h3 (update_stats_CountersOk b r _ h.2)⟩
  | get_stats _ => exact h
  | get_config _ => exact h
  | set_config config env =>
    obtain ⟨h1, h2⟩ := ping_set_config_same config env s
    simp only [apiStep]
    rw [h1, h2]
    exact h
  | reset_stats now =>
    simp only [apiStep, ping_reset_stats, h.1, Bool.not_true, Bool.false_eq_true, if_false]
    exact ⟨h.1, by simp [CountersOk, init_stats, ZERO_STATS]⟩
  | force_countermeasures cm =>
    obtain ⟨-, h1, h2⟩ := ping_force_countermeasures_frame cm s
    exact ⟨h1.trans h.1, CountersOk_of_same h2 h.2⟩

theorem runOps_induction (P : State → Prop) (hstep : ∀ s op, P s → P (apiStep s op))
    (ops : List Op) : ∀ s, P s → P (runOps s ops) := by
  induction ops with
  | nil => intro s h; exact h
  | cons op ops ih => intro s h; exact ih _ (hstep s op h)

/-! ## Initialization -/

theorem load_backup_dns_step_count (dns : List String) (cfg : ping_config_t) (i : Nat) :
    (load_backup_dns_step dns cfg i).backup_dns_count ≤ cfg.backup_dns_count + 1 := by
  unfold load_backup_dns_step
  dsimp only
  split_ifs
  · exact Nat.le_refl _
  · exact Nat.le_succ _

theorem load_backup_dns_fold_count (dns : List String) (l : List Nat) :
    ∀ cfg : ping_config_t,
      (l.foldl (load_backup_dns_step dns) cfg).backup_dns_count ≤ cfg.backup_dns_count + l.length := by
  induction l with
  | nil => intro cfg; exact Nat.le_refl _
  | cons i l ih =>
    intro cfg
    have h1 := ih (load_backup_dns_step dns cfg i)
    have h2 := load_backup_dns_step_count dns cfg i
    simp only [List.foldl_cons, List.length_cons]
    omega

/-- After `load_configuration` has read the backup DNS keys, the count lies
between 1 and `MAX_BACKUP_DNS`. -/
theorem load_backup_dns_count (dns : List String) (cfg : ping_config_t) :
    1 ≤ (load_backup_dns dns cfg).backup_dns_count ∧
    (load_backup_dns dns cfg).backup_dns_count ≤ MAX_BACKUP_DNS := by
  unfold load_backup_dns
  have h := load_backup_dns_fold_count dns (List.range MAX_BACKUP_DNS)
    { cfg with backup_dns_count := 0 }
  simp only [List.length_range, Nat.zero_add] at h
  dsimp only
  split_ifs with h0
  · exact ⟨show 1 ≤ 8 by decide, show 8 ≤ 8 by decide⟩
  · exact ⟨Nat.pos_of_ne_zero h0, h⟩

theorem create_default_config_g_initialized (env : IniEnv) (s : State) :
    (create_default_config env s).2.g_initialized = s.g_initialized := by
  unfold create_default_config
  dsimp only
  split_ifs <;> rfl

theorem load_configuration_g_initialized (env : IniEnv) (s : State) :
    (load_configuration env s).2.g_initialized = s.g_initialized := by
  unfold load_configuration
  have h1 := (initialize_config_path_same env s).2.2.1
  generalize initialize_config_path env s = r1 at h1
  dsimp only
  split_ifs
  · exact h1
  · exact (create_default_config_g_initialized env _).trans h1
  · exact (create_default_config_g_initialized env _).trans h1
  · exact h1
  · exact h1

theorem load_configuration_count (env : IniEnv) (s : State)
    (h : (load_configuration env s).1 = true) :
    1 ≤ (load_configuration env s).2.g_config.backup_dns_count ∧
    (load_configuration env s).2.g_config.backup_dns_count ≤ MAX_BACKUP_DNS := by
  unfold load_configuration at h ⊢
  generalize initialize_config_path env s = r1 at h ⊢
  dsimp only at h ⊢
  split_ifs at h ⊢
  · exact load_backup_dns_count _ _
  · exact load_backup_dns_count _ _

/-- What a successful `ping_initialize` establishes. -/
theorem ping_initialize_ready (env : InitEnv) (s0 : State) (h : Initializes env s0) :
    ( ping_initialize env s0).1 = ERROR_SUCCESS ∧
    ( ping_initialize env s0).2.g_stats = FRESH_STATS env.now ∧
    1 ≤ ( ping_initialize env s0).2.g_config.backup_dns_count ∧
    ( ping_initialize env s0).2.g_config.backup_dns_count ≤ MAX_BACKUP_DNS := by
  obtain ⟨h0, h1⟩ := h
  have hl := load_configuration_g_initialized env.ini
  have hc := load_configuration_count env.ini
  unfold ping_initialize at h1 ⊢
  simp only [h0, Bool.false_eq_true, if_false] at h1 ⊢
  cases hh : env.icmp_handle with
  | none =>
    simp only [hh] at h1
    split_ifs at h1 <;> simp [h0] at h1
  | some hd =>
    simp only [hh] at h1 ⊢
    split_ifs at h1 ⊢ with hw hload
    · simp [h0] at h1
    · simp [hl, h0] at h1
    · exact ⟨rfl, rfl, hc _ (by simpa using hload)⟩

theorem runOps_CountersOk (s : State) (ops : List Op)
    (h : s.g_initialized = true ∧ CountersOk s.g_stats) :
    (runOps s ops).g_initialized = true ∧ CountersOk (runOps s ops).g_stats :=
  runOps_induction (fun t => t.g_initialized = true ∧ CountersOk t.g_stats)
    apiStep_CountersOk ops s h

/-! ## Health analysis -/

/-- The value of `round_double` on a positive rational, from the binade it
lies in and the nearest multiple of the spacing there. -/
theorem round_double_eq (q : ℚ) (e m : ℤ) (h1 : (2 : ℚ) ^ (e + 52) ≤ q)
    (h2 : q < (2 : ℚ) ^ (e + 53)) (h3 : (m : ℚ) - 1 / 2 < q / (2 : ℚ) ^ e)
    (h4 : q / (2 : ℚ) ^ e < (m : ℚ) + 1 / 2) : round_double q = (m : ℚ) * (2 : ℚ) ^ e := by
  have hq : 0 < q := lt_of_lt_of_le (zpow_pos (by norm_num) _) h1
  have hlog : Int.log 2 q = e + 52 := by
    have a : e + 52 ≤ Int.log 2 q :=
      (Int.zpow_le_iff_le_log (by norm_num) hq).mp (by simpa using h1)
    have b : Int.log 2 q < e + 53 :=
      (Int.lt_zpow_iff_log_lt (by norm_num) hq).mp (by simpa using h2)
    omega
  unfold round_double
  rw [if_neg (ne_of_gt hq), abs_of_pos hq, hlog]
  have he : e + 52 - 52 = e := by ring
  simp only [he, if_neg (not_lt.mpr (le_of_lt hq)), one_mul]
  have hfl := Int.floor_le (q / (2 : ℚ) ^ e)
  have hlt := Int.lt_floor_add_one (q / (2 : ℚ) ^ e)
  generalize q / (2 : ℚ) ^ e = x at *
  generalize hf : ⌊x⌋ = f at *
  have hm : f = m ∨ f = m - 1 := by
    have c1 : (f : ℚ) < (m : ℚ) + 1 / 2 := lt_of_le_of_lt hfl h4
    have c2 : (m : ℚ) - 1 / 2 < (f : ℚ) + 1 := lt_trans h3 hlt
    have d1 : f ≤ m := by
      by_contra hc
      have : (m : ℚ) + 1 ≤ (f : ℚ) := by exact_mod_cast (not_le.mp hc)
      linarith
    have d2 : m - 1 ≤ f := by
      by_contra hc
      have : (f : ℚ) + 1 ≤ (m : ℚ) - 1 := by
        have : f + 1 ≤ m - 1 := by omega
        exact_mod_cast this
      linarith
    omega
  rcases hm with hm | hm
  · subst hm
    rw [if_pos (by linarith)]
  · subst hm
    have : ¬ (x - ((m - 1 : ℤ) : ℚ) < 1 / 2) := by
      push_cast
      linarith
    rw [if_neg this, if_pos (by push_cast; linarith)]
    push_cast
    ring_nf

/-- The form of `round_double_eq` for the binades below `2 ^ 52`: the spacing
is `1 / 2 ^ k`. -/
theorem round_double_eq_div (q : ℚ) (k : ℕ) (m : ℤ) (h1 : (2 : ℚ) ^ 52 ≤ q * (2 : ℚ) ^ k)
    (h2 : q * (2 : ℚ) ^ k < (2 : ℚ) ^ 53) (h3 : (m : ℚ) - 1 / 2 < q * (2 : ℚ) ^ k)
    (h4 : q * (2 : ℚ) ^ k < (m : ℚ) + 1 / 2) : round_double q = (m : ℚ) / (2 : ℚ) ^ k := by
  have hk : (0 : ℚ) < (2 : ℚ) ^ k := pow_pos (by norm_num) k
  have hz : (2 : ℚ) ^ (-(k : ℤ)) = ((2 : ℚ) ^ k)⁻¹ := by
    rw [zpow_neg, zpow_natCast]
  have hdiv : q / (2 : ℚ) ^ (-(k : ℤ)) = q * (2 : ℚ) ^ k := by
    rw [hz, div_inv_eq_mul]
  have e1 : (2 : ℚ) ^ (-(k : ℤ) + 52) = (2 : ℚ) ^ 52 / (2 : ℚ) ^ k := by
    rw [zpow_add₀ (by norm_num), hz]
    norm_num
    ring
  have e2 : (2 : ℚ) ^ (-(k : ℤ) + 53) = (2 : ℚ) ^ 53 / (2 : ℚ) ^ k := by
    rw [zpow_add₀ (by norm_num), hz]
    norm_num
    ring
  rw [round_double_eq q (-(k : ℤ)) m (by rw [e1, div_le_iff₀ hk]; exact h1)
    (by rw [e2, lt_div_iff₀ hk]; exact h2) (by rw [hdiv]; exact h3) (by rw [hdiv]; exact h4), hz]
  rfl

/-- Four lost of ten: `0.4` rounds up by `0.4 / 2 ^ 54`, the product rounds
back to 40. -/
theorem loss_percentage_4_10 : loss_percentage 4 10 = 40 := by
  unfold loss_percentage
  have h : round_double (((4 : ℕ) : ℚ) / ((10 : ℕ) : ℚ)) =
      ((7205759403792794 : ℤ) : ℚ) / (2 : ℚ) ^ 54 :=
    round_double_eq_div _ 54 7205759403792794 (by norm_num) (by norm_num) (by norm_num)
      (by norm_num)
  rw [h, round_double_eq_div _ 47 5629499534213120 (by norm_num) (by norm_num) (by norm_num)
    (by norm_num)]
  norm_num

theorem loss_percentage_6_15 : loss_percentage 6 15 = 40 := by
  unfold loss_percentage
  have h : round_double (((6 : ℕ) : ℚ) / ((15 : ℕ) : ℚ)) =
      ((7205759403792794 : ℤ) : ℚ) / (2 : ℚ) ^ 54 :=
    round_double_eq_div _ 54 7205759403792794 (by norm_num) (by norm_num) (by norm_num)
      (by norm_num)
  rw [h, round_double_eq_div _ 47 5629499534213120 (by norm_num) (by norm_num) (by norm_num)
    (by norm_num)]
  norm_num

/-- Three lost of ten: `0.3` rounds down, the product rounds up to 30. -/
theorem loss_percentage_3_10 : loss_percentage 3 10 = 30 := by
  unfold loss_percentage
  have h : round_double (((3 : ℕ) : ℚ) / ((10 : ℕ) : ℚ)) =
      ((5404319552844595 : ℤ) : ℚ) / (2 : ℚ) ^ 54 :=
    round_double_eq_div _ 54 5404319552844595 (by norm_num) (by norm_num) (by norm_num)
      (by norm_num)
  rw [h, round_double_eq_div _ 48 8444249301319680 (by norm_num) (by norm_num) (by norm_num)
    (by norm_num)]
  norm_num

/-- Eleven lost of twenty: `0.55` rounds up, and the product rounds up to the
`double` next above 55. -/
theorem loss_percentage_11_20 : loss_percentage 11 20 = 55 + 1 / 2 ^ 47 := by
  unfold loss_percentage
  have h : round_double (((11 : ℕ) : ℚ) / ((20 : ℕ) : ℚ)) =
      ((4953959590107546 : ℤ) : ℚ) / (2 : ℚ) ^ 53 :=
    round_double_eq_div _ 53 4953959590107546 (by norm_num) (by norm_num) (by norm_num)
      (by norm_num)
  rw [h, round_double_eq_div _ 47 7740561859543041 (by norm_num) (by norm_num) (by norm_num)
    (by norm_num)]
  norm_num

/-- Value of the decision of `analyze_network_health` once the three gates
are passed. -/
theorem analyze_network_health_decision (env : CmEnv) (s : State)
    (h1 : s.g_config.enable_countermeasures = true)
    (h2 : s.g_stats.countermeasures_active = false)
    (h3 : 10 ≤ s.g_stats.packets_sent) :
    ((analyze_network_health env s).1 = true ↔
      (loss_percentage s.g_stats.packets_lost s.g_stats.packets_sent
          > (s.g_config.loss_threshold : ℚ) ∨
        s.g_stats.avg_rtt > (s.g_config.latency_threshold : ℚ) ∨
        s.g_stats.jitter > (s.g_config.jitter_threshold : ℚ))) := by
  unfold analyze_network_health
  simp only [h1, h2, Bool.not_true, Bool.or_self, Bool.false_eq_true, if_false,
    Nat.not_lt.mpr h3]
  by_cases c1 : loss_percentage s.g_stats.packets_lost s.g_stats.packets_sent
      > (s.g_config.loss_threshold : ℚ) <;>
  by_cases c2 : s.g_stats.avg_rtt > (s.g_config.latency_threshold : ℚ) <;>
  by_cases c3 : s.g_stats.jitter > (s.g_config.jitter_threshold : ℚ) <;>
  simp [c1, c2, c3]

/-- C2 as stated fails, by the rounding of the `double` arithmetic: with 20
packets sent, 11 lost and a loss threshold of 55, none of the three strict
comparisons holds for the exact values (`11 / 20 * 100` is 55), yet
`analyze_network_health` triggers: the quotient rounds to a `double` slightly
above `0.55` and the product to `55.00000000000001`. -/
theorem analyze_network_health_rounding_counterexample :
    AT_THRESHOLD.g_config.enable_countermeasures = true ∧
    AT_THRESHOLD.g_stats.countermeasures_active = false ∧
    AT_THRESHOLD.g_stats.packets_sent = 20 ∧
    AT_THRESHOLD.g_stats.packets_lost = 11 ∧
    AT_THRESHOLD.g_config.loss_threshold = 55 ∧
    ¬ ((AT_THRESHOLD.g_stats.packets_lost : ℚ) / (AT_THRESHOLD.g_stats.packets_sent : ℚ) * 100
          > (AT_THRESHOLD.g_config.loss_threshold : ℚ) ∨
        AT_THRESHOLD.g_stats.avg_rtt > (AT_THRESHOLD.g_config.latency_threshold : ℚ) ∨
        AT_THRESHOLD.g_stats.jitter > (AT_THRESHOLD.g_config.jitter_threshold : ℚ)) ∧
    (analyze_network_health (SAMPLE_CM 0) AT_THRESHOLD).1 = true := by
  have hs : AT_THRESHOLD.g_stats.packets_sent = 20 := rfl
  have hl : AT_THRESHOLD.g_stats.packets_lost = 11 := rfl
  have ht : AT_THRESHOLD.g_config.loss_threshold = 55 := rfl
  have ha : AT_THRESHOLD.g_stats.avg_rtt = 20 := rfl
  have hj : AT_THRESHOLD.g_stats.jitter = 0 := rfl
  have hlt : AT_THRESHOLD.g_config.latency_threshold = 500 := rfl
  have hjt : AT_THRESHOLD.g_config.jitter_threshold = 100 := rfl
  refine ⟨rfl, rfl, hs, hl, ht, ?_, ?_⟩
  · rw [hs, hl, ht, ha, hj, hlt, hjt]
    norm_num
  · refine (analyze_network_health_decision (SAMPLE_CM 0) AT_THRESHOLD rfl rfl
      (by rw [hs]; decide)).mpr (Or.inl ?_)
    rw [hs, hl, ht, loss_percentage_11_20]
    norm_num

/-- C2, amended. The decision of `analyze_network_health` (whether it calls
`trigger_countermeasures`) is false when countermeasures are disabled, or
already active, or fewer than 10 packets were sent; otherwise it is true
exactly when `loss_percentage > loss_threshold` or
`avg_rtt > latency_threshold` or `jitter > jitter_threshold`, each comparison
strict, where `loss_percentage` is `lost / sent * 100` as `double` arithmetic
computes it: the quotient rounded to the nearest `double`, then the product
rounded. With 10 sent, 4 lost and a loss threshold of 30 it is true (the
computed percentage is exactly 40). -/
theorem analyze_network_health_should_trigger (env : CmEnv) (s : State) :
    ((s.g_config.enable_countermeasures = false ∨ s.g_stats.countermeasures_active = true ∨
        s.g_stats.packets_sent < 10) → (analyze_network_health env s).1 = false) ∧
    (s.g_config.enable_countermeasures = true → s.g_stats.countermeasures_active = false →
      10 ≤ s.g_stats.packets_sent →
      ((analyze_network_health env s).1 = true ↔
        (round_double (round_double
            ((s.g_stats.packets_lost : ℚ) / (s.g_stats.packets_sent : ℚ)) * 100)
            > (s.g_config.loss_threshold : ℚ) ∨
          s.g_stats.avg_rtt > (s.g_config.latency_threshold : ℚ) ∨
          s.g_stats.jitter > (s.g_config.jitter_threshold : ℚ)))) ∧
    (s.g_config.enable_countermeasures = true → s.g_stats.countermeasures_active = false →
      s.g_stats.packets_sent = 10 → s.g_stats.packets_lost = 4 →
      s.g_config.loss_threshold = 30 → (analyze_network_health env s).1 = true) := by
  refine ⟨?_, analyze_network_health_decision env s, ?_⟩
  · intro h
    unfold analyze_network_health
    rcases h with h | h | h
    · simp [h]
    · simp [h]
    · split_ifs
      · rfl
      · rfl
  · intro h1 h2 h3 h4 h5
    refine (analyze_network_health_decision env s h1 h2 (by omega)).mpr (Or.inl ?_)
    rw [h3, h4, h5, loss_percentage_4_10]
    norm_num

/-- C2 (amended) at concrete states: 4 of 10 probes lost against a threshold
of 30 triggers; the freshly initialized monitor (nothing sent) does not. -/
theorem analyze_network_health_should_trigger_witness :
    (analyze_network_health (SAMPLE_CM 0) DEGRADED).1 = true ∧
    (analyze_network_health (SAMPLE_CM 0) READY).1 = false :=
  ⟨(analyze_network_health_should_trigger (SAMPLE_CM 0) DEGRADED).2.2 rfl rfl rfl rfl rfl,
   (analyze_network_health_should_trigger (SAMPLE_CM 0) READY).1 (Or.inr (Or.inr (by decide)))⟩

/-! ## Activation -/

theorem trigger_enter_active (env : CmEnv) (s : State)
    (h : s.g_stats.countermeasures_active = true) : trigger_enter env s = (false, s) := by
  unfold trigger_enter
  rw [if_pos h]

/-- Effect of the critical section of `trigger_countermeasures` when the flag
is clear. -/
theorem trigger_enter_idle (env : CmEnv) (s : State)
    (h : s.g_stats.countermeasures_active = false) :
    (trigger_enter env s).1 = true ∧
    (trigger_enter env s).2.g_stats.countermeasures_active = true ∧
    (trigger_enter env s).2.g_stats.last_countermeasure = env.now ∧
    (trigger_enter env s).2.g_stats.current_dns_index =
      (if s.g_config.enable_dns_switching then
        next_dns_index s.g_stats.current_dns_index s.g_config.backup_dns_count
       else s.g_stats.current_dns_index) ∧
    (trigger_enter env s).2.trace =
      s.trace ++ activation_actions s.g_config s.g_stats.current_dns_index := by
  unfold trigger_enter activation_actions
  obtain ⟨now, n, a, f⟩ := env
  simp only [h, Bool.false_eq_true, if_false]
  cases hd : s.g_config.enable_dns_switching <;> cases hr : s.g_config.enable_route_refresh <;>
    cases n <;> cases a <;> cases f <;>
    simp [switch_dns_server, refresh_network_route, flush_dns_cache, hd, hr]

/-- A call of `trigger_countermeasures` that finds the flag set launches
nothing and keeps the index and the time stamp, but clears the flag. -/
theorem trigger_countermeasures_active (env : CmEnv) (s : State)
    (h : s.g_stats.countermeasures_active = true) :
    (trigger_countermeasures env s).trace = s.trace ∧
    (trigger_countermeasures env s).g_stats.current_dns_index = s.g_stats.current_dns_index ∧
    (trigger_countermeasures env s).g_stats.last_countermeasure = s.g_stats.last_countermeasure ∧
    (trigger_countermeasures env s).g_stats.countermeasures_active = false := by
  unfold trigger_countermeasures
  rw [trigger_enter_active env s h]
  simp [trigger_finally, h]

/-- Effect of a whole call of `trigger_countermeasures` that finds the flag
clear. -/
theorem trigger_countermeasures_idle (env : CmEnv) (s : State)
    (h : s.g_stats.countermeasures_active = false) :
    (trigger_countermeasures env s).g_stats.countermeasures_active = false ∧
    (trigger_countermeasures env s).g_stats.last_countermeasure = env.now ∧
    (trigger_countermeasures env s).g_stats.current_dns_index =
      (if s.g_config.enable_dns_switching then
        next_dns_index s.g_stats.current_dns_index s.g_config.backup_dns_count
       else s.g_stats.current_dns_index) ∧
    (trigger_countermeasures env s).trace =
      s.trace ++ activation_actions s.g_config s.g_stats.current_dns_index ++
        [Action.sleep COOLDOWN_MS] := by
  obtain ⟨h1, h2, h3, h4, h5⟩ := trigger_enter_idle env s h
  unfold trigger_countermeasures
  dsimp only
  rw [if_pos h1]
  simp [trigger_finally, trigger_wake, h3, h4, h5]

theorem SLEEPING_active : SLEEPING.g_stats.countermeasures_active = true :=
  (trigger_enter_idle (SAMPLE_CM 1000) READY rfl).2.1

/-- C3 (evaluation of the code). While a first activation sleeps (flag set),
a second `ping_force_countermeasures` launches nothing and leaves the rotation
index and the activation time stamp alone, but it does not leave the flag set:
the `__finally` block of `trigger_countermeasures` clears it. -/
theorem force_while_active_clears_flag :
    SLEEPING.g_initialized = true ∧
    SLEEPING.g_stats.countermeasures_active = true ∧
    (ping_force_countermeasures (SAMPLE_CM 2000) SLEEPING).2.trace = SLEEPING.trace ∧
    (ping_force_countermeasures (SAMPLE_CM 2000) SLEEPING).2.g_stats.current_dns_index =
      SLEEPING.g_stats.current_dns_index ∧
    (ping_force_countermeasures (SAMPLE_CM 2000) SLEEPING).2.g_stats.last_countermeasure =
      SLEEPING.g_stats.last_countermeasure ∧
    (ping_force_countermeasures (SAMPLE_CM 2000) SLEEPING).2.g_stats.countermeasures_active =
      false := by
  have hi : SLEEPING.g_initialized = true :=
    (trigger_enter_frame (SAMPLE_CM 1000) READY).2.1.trans rfl
  have h := trigger_countermeasures_active (SAMPLE_CM 2000)
    (dbj_log .LOG_INFO "Forcing countermeasures activation" SLEEPING) SLEEPING_active
  refine ⟨hi, SLEEPING_active, ?_⟩
  unfold ping_force_countermeasures
  simp only [hi, Bool.not_true, Bool.false_eq_true, if_false]
  exact h

theorem next_dns_index_eq (i n : Nat) (h1 : 1 ≤ n) (h2 : n < 2 ^ 32) (hi : i < n) :
    next_dns_index i n = (i + 1) % n := by
  unfold next_dns_index dword_pred to_dword
  have hn : n ≠ 0 := by omega
  simp only [hn, if_false]
  split_ifs with hge
  · have : i + 1 = n := by omega
    rw [this, Nat.mod_self]
  · have hlt : i + 1 < n := by omega
    rw [Nat.mod_eq_of_lt hlt]
    norm_num at h2 ⊢
    omega

/-- C5. With resolver rotation enabled, `n >= 1` configured resolvers and
rotation index `i < n`, one activation from Idle sets the index to
`(i + 1) mod n`; with 3 resolvers and index 0, three consecutive activations
give the indices 1, 2, 0. -/
theorem rotation_index_wraps (env1 env2 env3 : CmEnv) (s : State) (n i : Nat)
    (hd : s.g_config.enable_dns_switching = true)
    (hidle : s.g_stats.countermeasures_active = false)
    (hn : s.g_config.backup_dns_count = n) (hi : s.g_stats.current_dns_index = i)
    (h1 : 1 ≤ n) (h2 : n < 2 ^ 32) (hlt : i < n) :
    (trigger_countermeasures env1 s).g_stats.current_dns_index = (i + 1) % n ∧
    (n = 3 → i = 0 →
      (trigger_countermeasures env1 s).g_stats.current_dns_index = 1 ∧
      (trigger_countermeasures env2 (trigger_countermeasures env1 s)).g_stats.current_dns_index
        = 2 ∧
      (trigger_countermeasures env3 (trigger_countermeasures env2
        (trigger_countermeasures env1 s))).g_stats.current_dns_index = 0) := by
  have step : ∀ (env : CmEnv) (t : State) (j : Nat), t.g_config = s.g_config →
      t.g_stats.countermeasures_active = false → t.g_stats.current_dns_index = j → j < n →
      (trigger_countermeasures env t).g_config = s.g_config ∧
      (trigger_countermeasures env t).g_stats.countermeasures_active = false ∧
      (trigger_countermeasures env t).g_stats.current_dns_index = (j + 1) % n := by
    intro env t j hc ha hj hjn
    obtain ⟨a1, -, a3, -⟩ := trigger_countermeasures_idle env t ha
    refine ⟨(trigger_countermeasures_frame env t).1.trans hc, a1, ?_⟩
    rw [a3, hc, hd, if_pos rfl, hj, hn]
    exact next_dns_index_eq j n h1 h2 hjn
  obtain ⟨c1, a1, i1⟩ := step env1 s i rfl hidle hi hlt
  refine ⟨i1, ?_⟩
  intro h3 h0
  subst h3 h0
  obtain ⟨c2, a2, i2⟩ := step env2 _ 1 c1 a1 i1 (by decide)
  obtain ⟨-, -, i3⟩ := step env3 _ 2 c2 a2 i2 (by decide)
  exact ⟨i1, i2, i3⟩

/-- C5 at a concrete state: three resolvers, index 0, three activations (the
second with every launch failing). -/
theorem rotation_index_wraps_witness :
    (trigger_countermeasures (SAMPLE_CM 1) READY3).g_stats.current_dns_index = 1 ∧
    (trigger_countermeasures (SAMPLE_CM_FAIL 2)
      (trigger_countermeasures (SAMPLE_CM 1) READY3)).g_stats.current_dns_index = 2 ∧
    (trigger_countermeasures (SAMPLE_CM 3) (trigger_countermeasures (SAMPLE_CM_FAIL 2)
      (trigger_countermeasures (SAMPLE_CM 1) READY3))).g_stats.current_dns_index = 0 :=
  (rotation_index_wraps (SAMPLE_CM 1) (SAMPLE_CM_FAIL 2) (SAMPLE_CM 3) READY3 3 0 rfl rfl rfl rfl
    (by decide) (by decide) (by decide)).2 rfl rfl

/-- C10. Entering Active from Idle launches, whatever the outcomes of the
launches, exactly: the resolver switch if and only if `enable_dns_switching`,
then the route refresh if and only if `enable_route_refresh`, then the cache
flush; the whole call adds only the `Sleep` after them. -/
theorem activation_sequence (env : CmEnv) (s : State)
    (hidle : s.g_stats.countermeasures_active = false) :
    (trigger_enter env s).2.trace =
      s.trace ++
      (if s.g_config.enable_dns_switching then
        [Action.netsh_set_dns (s.g_config.backup_dns.getD
          (next_dns_index s.g_stats.current_dns_index s.g_config.backup_dns_count) "")]
       else []) ++
      (if s.g_config.enable_route_refresh then [Action.arp_flush] else []) ++
      [Action.ipconfig_flushdns] ∧
    (trigger_countermeasures env s).trace =
      s.trace ++
      (if s.g_config.enable_dns_switching then
        [Action.netsh_set_dns (s.g_config.backup_dns.getD
          (next_dns_index s.g_stats.current_dns_index s.g_config.backup_dns_count) "")]
       else []) ++
      (if s.g_config.enable_route_refresh then [Action.arp_flush] else []) ++
      [Action.ipconfig_flushdns] ++ [Action.sleep COOLDOWN_MS] := by
  have h1 := (trigger_enter_idle env s hidle).2.2.2.2
  have h2 := (trigger_countermeasures_idle env s hidle).2.2.2
  unfold activation_actions at h1 h2
  simp only [List.append_assoc] at h1 h2 ⊢
  exact ⟨h1, h2⟩

/-- C10 at a concrete state: all three launches fail, all three are made. -/
theorem activation_sequence_witness :
    (trigger_enter (SAMPLE_CM_FAIL 7) READY).2.trace =
      READY.trace ++ [Action.netsh_set_dns "1.1.1.1"] ++ [Action.arp_flush] ++
      [Action.ipconfig_flushdns] ∧
    (trigger_countermeasures (SAMPLE_CM_FAIL 7) READY).trace =
      READY.trace ++ [Action.netsh_set_dns "1.1.1.1"] ++ [Action.arp_flush] ++
      [Action.ipconfig_flushdns] ++ [Action.sleep COOLDOWN_MS] :=
  activation_sequence (SAMPLE_CM_FAIL 7) READY rfl

/-! ## Two concurrent callers: one activation for two calls -/

theorem callerStep_start_idle (t : Nat) (env : CmEnv) (busy : Nat) (s : State)
    (hi : s.g_initialized = true) (ha : s.g_stats.countermeasures_active = false) :
    callerStep t env busy .start s =
      some (.sleeping (t + busy + COOLDOWN_MS),
        (trigger_enter { env with now := t }
          (dbj_log .LOG_INFO "Forcing countermeasures activation" s)).2) := by
  have h := (trigger_enter_idle { env with now := t }
    (dbj_log .LOG_INFO "Forcing countermeasures activation" s) ha).1
  simp only [callerStep, hi, Bool.not_true, Bool.false_eq_true, if_false]
  rw [if_pos h]

theorem callerStep_start_active (t : Nat) (env : CmEnv) (busy : Nat) (s : State)
    (hi : s.g_initialized = true) (ha : s.g_stats.countermeasures_active = true) :
    callerStep t env busy .start s =
      some (.leaving, dbj_log .LOG_INFO "Forcing countermeasures activation" s) := by
  have h := trigger_enter_active { env with now := t }
    (dbj_log .LOG_INFO "Forcing countermeasures activation" s) ha
  simp only [callerStep, hi, Bool.not_true, Bool.false_eq_true, if_false]
  rw [h]
  simp

/-- A step of a thread that is past the critical section adds to the trace
exactly what its position owed and the new position no longer owes. -/
theorem callerStep_past_start (t : Nat) (env : CmEnv) (busy : Nat) (pc pc1 : Pc) (s s1 : State)
    (hpc : pc ≠ .start) (h : callerStep t env busy pc s = some (pc1, s1)) :
    pc1 ≠ .start ∧ s1.trace ++ pending pc1 = s.trace ++ pending pc ∧
      (∀ w, pc1 ≠ .sleeping w) := by
  cases pc with
  | start => exact absurd rfl hpc
  | sleeping wake =>
    simp only [callerStep] at h
    split_ifs at h
    simp only [Option.some.injEq, Prod.mk.injEq] at h
    obtain ⟨rfl, rfl⟩ := h
    simp [pending, trigger_wake]
  | leaving =>
    simp only [callerStep, Option.some.injEq, Prod.mk.injEq] at h
    obtain ⟨rfl, rfl⟩ := h
    refine ⟨by simp, ?_, by simp⟩
    unfold trigger_finally
    split_ifs <;> rfl
  | done => simp [callerStep] at h

theorem sysStep_some (envs : Tid → CmEnv) (busy : Tid → Nat) (sys sys1 : Sys) (e : Event)
    (h : sysStep envs busy sys e = some sys1) :
    sys.clock ≤ e.time ∧ sys1.clock = e.time ∧
    ∃ r, callerStep e.time (envs e.tid) (busy e.tid) (sys.pc e.tid) sys.st = some r ∧
      sys1.st = r.2 ∧ sys1.pc = Function.update sys.pc e.tid r.1 := by
  unfold sysStep at h
  split_ifs at h with hlt
  cases hc : callerStep e.time (envs e.tid) (busy e.tid) (sys.pc e.tid) sys.st with
  | none => rw [hc] at h; exact absurd h (by simp)
  | some r =>
    rw [hc] at h
    simp only [Option.some.injEq] at h
    subst h
    exact ⟨Nat.le_of_not_lt hlt, rfl, r, rfl, rfl, rfl⟩

/-- Once no thread is before the critical section and `Y` is not sleeping,
the rest of the schedule adds to the trace only the `Sleep` that `X` may
still owe. -/
theorem sysRun_past_start (envs : Tid → CmEnv) (busy : Tid → Nat) (X Y : Tid) (hXY : X ≠ Y)
    (hall : ∀ z, z = X ∨ z = Y) :
    ∀ (es : List Event) (sys final : Sys), sysRun envs busy sys es = some final →
      sys.pc X ≠ .start → (sys.pc Y = .leaving ∨ sys.pc Y = .done) →
      final.st.trace ++ pending (final.pc X) = sys.st.trace ++ pending (sys.pc X) := by
  intro es
  induction es with
  | nil =>
    intro sys final h _ _
    simp only [sysRun, Option.some.injEq] at h
    subst h
    rfl
  | cons e es ih =>
    intro sys final h hX hY
    simp only [sysRun] at h
    cases hs : sysStep envs busy sys e with
    | none => rw [hs] at h; exact absurd h (by simp)
    | some sys1 =>
      rw [hs] at h
      obtain ⟨-, -, r, hr, hst, hpc⟩ := sysStep_some envs busy sys sys1 e hs
      rcases hall e.tid with htid | htid
      · rw [htid] at hr hpc
        obtain ⟨p1, p2, p3⟩ := callerStep_past_start _ _ _ _ r.1 sys.st r.2 hX hr
        have hX1 : sys1.pc X = r.1 := by rw [hpc]; simp
        have hY1 : sys1.pc Y = sys.pc Y := by
          rw [hpc]; exact Function.update_noteq (Ne.symm hXY) _ _
        have := ih sys1 final h (by rw [hX1]; exact p1) (by rw [hY1]; exact hY)
        rw [this, hX1, hst]
        exact p2
      · rw [htid] at hr hpc
        have hY0 : sys.pc Y ≠ .start := by rcases hY with h' | h' <;> rw [h'] <;> simp
        obtain ⟨p1, p2, p3⟩ := callerStep_past_start _ _ _ _ r.1 sys.st r.2 hY0 hr
        have hX1 : sys1.pc X = sys.pc X := by
          rw [hpc]; exact Function.update_noteq hXY _ _
        have hY1 : sys1.pc Y = r.1 := by rw [hpc]; simp
        have hr1 : r.1 = .leaving ∨ r.1 = .done := by
          cases hq : r.1 with
          | start => exact absurd hq p1
          | sleeping w => exact absurd hq (p3 w)
          | leaving => exact Or.inl rfl
          | done => exact Or.inr rfl
        have hpend : pending r.1 = [] ∧ pending (sys.pc Y) = [] := by
          constructor
          · rcases hr1 with h' | h' <;> rw [h'] <;> rfl
          · rcases hY with h' | h' <;> rw [h'] <;> rfl
        rw [hpend.1, hpend.2, List.append_nil, List.append_nil] at p2
        have := ih sys1 final h (by rw [hX1]; exact hX) (by rw [hY1]; exact hr1)
        rw [this, hX1, hst, p2]

/-- A thread that is before the critical section and has returned at the end
of the schedule takes its first step in it, not before the current time. -/
theorem sysRun_first_step (envs : Tid → CmEnv) (busy : Tid → Nat) (Y : Tid) :
    ∀ (es : List Event) (sys final : Sys), sysRun envs busy sys es = some final →
      sys.pc Y = .start → final.pc Y = .done →
      ∃ tY, firstTime Y es = some tY ∧ sys.clock ≤ tY := by
  intro es
  induction es with
  | nil =>
    intro sys final h h1 h2
    simp only [sysRun, Option.some.injEq] at h
    subst h
    rw [h1] at h2
    exact absurd h2 (by simp)
  | cons e es ih =>
    intro sys final h h1 h2
    simp only [sysRun] at h
    cases hs : sysStep envs busy sys e with
    | none => rw [hs] at h; exact absurd h (by simp)
    | some sys1 =>
      rw [hs] at h
      obtain ⟨hc, hc1, r, hr, hst, hpc⟩ := sysStep_some envs busy sys sys1 e hs
      by_cases htid : e.tid = Y
      · exact ⟨e.time, by simp [firstTime, htid], hc⟩
      · have hY1 : sys1.pc Y = .start := by
          rw [hpc, Function.update_noteq (Ne.symm htid)]; exact h1
        obtain ⟨tY, ht1, ht2⟩ := ih sys1 final h hY1 h2
        exact ⟨tY, by simp [firstTime, htid, ht1], by omega⟩

/-- While `X` sleeps with the flag set and `Y` has not reached the critical
section, if `Y` reaches it before `X` wakes then the rest of the schedule adds
only the `Sleep` of `X` to the trace. -/
theorem sysRun_while_sleeping (envs : Tid → CmEnv) (busy : Tid → Nat) (X Y : Tid) (hXY : X ≠ Y)
    (hall : ∀ z, z = X ∨ z = Y) (w : Nat) :
    ∀ (es : List Event) (sys final : Sys), sysRun envs busy sys es = some final →
      sys.pc Y = .start → sys.pc X = .sleeping w → sys.st.g_initialized = true →
      sys.st.g_stats.countermeasures_active = true →
      (∀ tY, firstTime Y es = some tY → tY < w) →
      final.pc X = .done → final.pc Y = .done →
      final.st.trace = sys.st.trace ++ [Action.sleep COOLDOWN_MS] := by
  intro es
  induction es with
  | nil =>
    intro sys final h h1 _ _ _ _ _ h2
    simp only [sysRun, Option.some.injEq] at h
    subst h
    rw [h1] at h2
    exact absurd h2 (by simp)
  | cons e es ih =>
    intro sys final h hY hX hi ha hfirst hdX hdY
    simp only [sysRun] at h
    cases hs : sysStep envs busy sys e with
    | none => rw [hs] at h; exact absurd h (by simp)
    | some sys1 =>
      rw [hs] at h
      obtain ⟨hc, hc1, r, hr, hst, hpc⟩ := sysStep_some envs busy sys sys1 e hs
      rcases hall e.tid with htid | htid
      · -- `X` would have to wake before `Y` has started
        rw [htid, hX] at hr
        simp only [callerStep] at hr
        split_ifs at hr with hwake
        have hY1 : sys1.pc Y = .start := by
          rw [hpc, htid, Function.update_noteq (Ne.symm hXY)]; exact hY
        obtain ⟨tY, ht1, ht2⟩ := sysRun_first_step envs busy Y es sys1 final h hY1 hdY
        have hne : e.tid ≠ Y := by rw [htid]; exact hXY
        have := hfirst tY (by simp [firstTime, hne, ht1])
        omega
      · rw [htid, hY, callerStep_start_active _ _ _ _ hi ha] at hr
        simp only [Option.some.injEq] at hr
        subst hr
        have hX1 : sys1.pc X = .sleeping w := by
          rw [hpc, htid, Function.update_noteq hXY]; exact hX
        have hY1 : sys1.pc Y = .leaving := by rw [hpc, htid]; simp
        have := sysRun_past_start envs busy X Y hXY hall es sys1 final h
          (by rw [hX1]; simp) (Or.inl hY1)
        rw [hdX, hX1, hst] at this
        simpa [pending] using this

/-- C4. Two threads call `ping_force_countermeasures` on an initialized, idle
monitor. In every schedule in which both calls return and the later call
reaches the critical section within 30 seconds of the earlier one, the calls
together launch the remediation actions of exactly one activation (followed by
its one `Sleep`): each enabled action once, not twice. -/
theorem force_twice_within_cooldown (envs : Tid → CmEnv) (busy : Tid → Nat) (s : State)
    (c0 : Nat) (es : List Event) (final : Sys)
    (hi : s.g_initialized = true) (ha : s.g_stats.countermeasures_active = false)
    (hrun : sysRun envs busy { st := s, clock := c0, pc := fun _ => .start } es = some final)
    (hdone : ∀ z, final.pc z = .done)
    (hclose : ∀ tA tB, firstTime .A es = some tA → firstTime .B es = some tB →
      tB < tA + COOLDOWN_MS ∧ tA < tB + COOLDOWN_MS) :
    final.st.trace =
      s.trace ++ activation_actions s.g_config s.g_stats.current_dns_index ++
        [Action.sleep COOLDOWN_MS] := by
  cases es with
  | nil =>
    simp only [sysRun, Option.some.injEq] at hrun
    subst hrun
    exact absurd (hdone .A) (by simp)
  | cons e es =>
    simp only [sysRun] at hrun
    cases hs : sysStep envs busy { st := s, clock := c0, pc := fun _ => .start } e with
    | none => rw [hs] at hrun; exact absurd hrun (by simp)
    | some sys1 =>
      rw [hs] at hrun
      obtain ⟨-, -, r, hr, hst, hpc⟩ := sysStep_some envs busy _ sys1 e hs
      simp only [callerStep_start_idle _ _ _ _ hi ha, Option.some.injEq] at hr
      subst hr
      simp only at hst hpc
      obtain ⟨-, a2, -, -, a5⟩ := trigger_enter_idle { envs e.tid with now := e.time }
        (dbj_log .LOG_INFO "Forcing countermeasures activation" s) ha
      have a0 := (trigger_enter_frame { envs e.tid with now := e.time }
        (dbj_log .LOG_INFO "Forcing countermeasures activation" s)).2.1
      simp only [dbj_log_g_initialized, dbj_log_trace, dbj_log_g_config,
        dbj_log_g_stats] at a0 a5
      rw [← hst] at a0 a2 a5
      have key : ∀ X Y : Tid, e.tid = X → X ≠ Y → (∀ z, z = X ∨ z = Y) →
          (∀ tY, firstTime Y es = some tY → tY < e.time + COOLDOWN_MS) →
          final.st.trace = sys1.st.trace ++ [Action.sleep COOLDOWN_MS] := by
        intro X Y hX hXY hall hY
        refine sysRun_while_sleeping envs busy X Y hXY hall
          (e.time + busy e.tid + COOLDOWN_MS) es sys1 final hrun ?_ ?_ (a0.trans hi) a2 ?_
          (hdone X) (hdone Y)
        · rw [hpc, hX, Function.update_noteq (Ne.symm hXY)]
        · rw [hpc, hX]; simp
        · intro tY ht
          have := hY tY ht
          omega
      rw [← a5]
      cases htid : e.tid with
      | A =>
        refine key .A .B htid (by decide) (fun z => by cases z <;> simp) ?_
        intro tY ht
        exact (hclose e.time tY (by simp [firstTime, htid]) (by simp [firstTime, htid, ht])).1
      | B =>
        refine key .B .A htid (by decide) (fun z => by cases z <;> simp) ?_
        intro tY ht
        exact (hclose tY e.time (by simp [firstTime, htid, ht]) (by simp [firstTime, htid])).2

/-- C4 on the sample schedule: the second call comes 4 s after the first. -/
theorem force_twice_within_cooldown_witness :
    SAMPLE_FINAL.st.trace =
      READY.trace ++ [Action.netsh_set_dns "1.1.1.1", Action.arp_flush,
        Action.ipconfig_flushdns] ++ [Action.sleep COOLDOWN_MS] :=
  force_twice_within_cooldown (fun _ => SAMPLE_CM 0) (fun _ => 200) READY 0 SAMPLE_SCHEDULE
    SAMPLE_FINAL rfl rfl rfl (fun z => by cases z <;> rfl)
    (fun tA tB hA hB => by
      simp only [SAMPLE_SCHEDULE, firstTime, if_true, Option.some.injEq] at hA
      simp only [SAMPLE_SCHEDULE, firstTime, if_true, Option.some.injEq, reduceCtorEq,
        if_false] at hB
      subst hA hB
      exact ⟨by decide, by decide⟩)

/-! ## Rotation index and resolver count -/

theorem next_dns_index_lt (i n : Nat) (h2 : n < 2 ^ 32) (hi : i < n) :
    next_dns_index i n < n := by
  rw [next_dns_index_eq i n (by omega) h2 hi]
  exact Nat.mod_lt _ (by omega)

/-- The rotation index after `trigger_countermeasures` is the old one or its
successor in the rotation. -/
theorem trigger_countermeasures_index (env : CmEnv) (s : State) :
    (trigger_countermeasures env s).g_stats.current_dns_index = s.g_stats.current_dns_index ∨
    (trigger_countermeasures env s).g_stats.current_dns_index =
      next_dns_index s.g_stats.current_dns_index s.g_config.backup_dns_count := by
  cases ha : s.g_stats.countermeasures_active with
  | true => exact Or.inl (trigger_countermeasures_active env s ha).2.1
  | false =>
    have h := (trigger_countermeasures_idle env s ha).2.2.1
    rw [h]
    split_ifs
    · exact Or.inr rfl
    · exact Or.inl rfl

theorem analyze_network_health_index (env : CmEnv) (s : State) :
    (analyze_network_health env s).2.g_stats.current_dns_index = s.g_stats.current_dns_index ∨
    (analyze_network_health env s).2.g_stats.current_dns_index =
      next_dns_index s.g_stats.current_dns_index s.g_config.backup_dns_count := by
  unfold analyze_network_health
  split_ifs
  · exact Or.inl rfl
  · exact Or.inl rfl
  · dsimp only
    split_ifs <;>
      first
      | exact Or.inl rfl
      | exact trigger_countermeasures_index env _

theorem update_stats_index (success : Bool) (rtt_ms : Nat) (st : ping_stats_t) :
    (update_stats success rtt_ms st).current_dns_index = st.current_dns_index := by
  unfold update_stats
  cases success <;> rfl

theorem ping_execute_index (target : Option String) (result_given : Bool) (env : PingEnv)
    (cm : CmEnv) (s : State) :
    (ping_execute target result_given env cm s).2.2.g_stats.current_dns_index
      = s.g_stats.current_dns_index ∨
    (ping_execute target result_given env cm s).2.2.g_stats.current_dns_index
      = next_dns_index s.g_stats.current_dns_index s.g_config.backup_dns_count := by
  unfold ping_execute
  cases hinit : s.g_initialized with
  | false => exact Or.inl rfl
  | true =>
    cases target with
    | none => exact Or.inl rfl
    | some target =>
      cases result_given with
      | false => exact Or.inl rfl
      | true =>
        dsimp only
        generalize (if target.length > 0 then target else s.g_config.target) = ping_target
        have hp := (perform_ping_frame ping_target env s).1
        have hg := perform_ping_g_stats ping_target env s
        generalize perform_ping ping_target env s = p at hp hg
        simp only [Bool.not_true, Bool.false_eq_true, if_false]
        rw [hg]
        split_ifs
        · have h := analyze_network_health_index cm
            { p.2.2 with g_stats := update_stats p.1 p.2.1.rtt_ms s.g_stats }
          rcases h with h' | h'
          · exact Or.inl (h'.trans (update_stats_index _ _ _))
          · right
            rw [h']
            show next_dns_index (update_stats p.1 p.2.1.rtt_ms s.g_stats).current_dns_index
              p.2.2.g_config.backup_dns_count = _
            rw [update_stats_index, hp]
        · exact Or.inl (update_stats_index _ _ _)

/-- The invariant behind the amended C6: initialized, index below the count,
count a `DWORD`. -/
theorem apiStep_index_lt (s : State) (op : Op) (hok : SetConfigAboveIndex s op)
    (h : s.g_initialized = true ∧
      s.g_stats.current_dns_index < s.g_config.backup_dns_count ∧
      s.g_config.backup_dns_count < 2 ^ 32) :
    (apiStep s op).g_initialized = true ∧
      (apiStep s op).g_stats.current_dns_index < (apiStep s op).g_config.backup_dns_count ∧
      (apiStep s op).g_config.backup_dns_count < 2 ^ 32 := by
  obtain ⟨hi, hlt, hr⟩ := h
  have hnext := next_dns_index_lt _ _ hr hlt
  cases op with
  | execute target result_given env cm =>
    have hidx := ping_execute_index target result_given env cm s
    rcases ping_execute_cases target result_given env cm s with h1 | ⟨b, r, -, hc, h2, -⟩
    · simp only [apiStep]
      rw [h1]
      exact ⟨hi, hlt, hr⟩
    · simp only [apiStep]
      rw [hc]
      refine ⟨h2.trans hi, ?_, hr⟩
      rcases hidx with h' | h' <;> rw [h'] <;> assumption
  | get_stats _ => exact ⟨hi, hlt, hr⟩
  | get_config _ => exact ⟨hi, hlt, hr⟩
  | set_config config env =>
    obtain ⟨h1, h2⟩ := ping_set_config_same config env s
    cases config with
    | none =>
      simp only [apiStep, ping_set_config]
      split_ifs <;> exact ⟨hi, hlt, hr⟩
    | some c =>
      simp only [apiStep]
      rw [h1, h2, ping_set_config_g_config c env s hi]
      exact ⟨hi, hok.1, hok.2⟩
  | reset_stats now =>
    simp only [apiStep, ping_reset_stats, hi, Bool.not_true, Bool.false_eq_true, if_false]
    refine ⟨hi, ?_, hr⟩
    show 0 < s.g_config.backup_dns_count
    omega
  | force_countermeasures cm =>
    obtain ⟨hc, h1, -⟩ := ping_force_countermeasures_frame cm s
    simp only [apiStep]
    rw [hc]
    refine ⟨h1.trans hi, ?_, hr⟩
    unfold ping_force_countermeasures
    simp only [hi, Bool.not_true, Bool.false_eq_true, if_false]
    rcases trigger_countermeasures_index cm
      (dbj_log .LOG_INFO "Forcing countermeasures activation" s) with h' | h' <;>
      rw [h'] <;> assumption

theorem runOps_index_lt (ops : List Op) :
    ∀ s : State, RunOk SetConfigAboveIndex s ops →
      (s.g_initialized = true ∧
        s.g_stats.current_dns_index < s.g_config.backup_dns_count ∧
        s.g_config.backup_dns_count < 2 ^ 32) →
      (runOps s ops).g_stats.current_dns_index < (runOps s ops).g_config.backup_dns_count := by
  induction ops with
  | nil => intro s _ h; exact h.2.1
  | cons op ops ih =>
    intro s hok h
    exact ih (apiStep s op) hok.2 (apiStep_index_lt s op hok.1 h)

/-- C6 as stated fails: after one activation (index 1) a `ping_set_config`
that installs a configuration with one resolver leaves the index at 1, which
is not below the count 1. -/
theorem index_below_count_counterexample :
    Initializes SAMPLE_INIT LOADED ∧
    ¬ ((runOps ( ping_initialize SAMPLE_INIT LOADED).2
          [Op.force_countermeasures (SAMPLE_CM 1),
           Op.set_config (some ONE_DNS_CONFIG) SAMPLE_INI]).g_stats.current_dns_index <
        (runOps ( ping_initialize SAMPLE_INIT LOADED).2
          [Op.force_countermeasures (SAMPLE_CM 1),
           Op.set_config (some ONE_DNS_CONFIG) SAMPLE_INI]).g_config.backup_dns_count) := by
  refine ⟨⟨rfl, rfl⟩, ?_⟩
  decide

/-- C7 (evaluation of the code). On the initialized monitor,
`ping_set_config` with a count field of 9 returns `ERROR_SUCCESS` and installs
the count 9, above `MAX_BACKUP_DNS`; `ping_get_config` then reports it, and
eight activations later the rotation index is 8, outside the table. -/
theorem set_config_count_above_capacity :
    Initializes SAMPLE_INIT LOADED ∧
    (ping_set_config (some NINE_DNS_CONFIG) SAMPLE_INI ( ping_initialize SAMPLE_INIT LOADED).2).1
      = ERROR_SUCCESS ∧
    ¬ ((ping_set_config (some NINE_DNS_CONFIG) SAMPLE_INI
        ( ping_initialize SAMPLE_INIT LOADED).2).2.g_config.backup_dns_count ≤ MAX_BACKUP_DNS) ∧
    ((ping_get_config true (ping_set_config (some NINE_DNS_CONFIG) SAMPLE_INI
        ( ping_initialize SAMPLE_INIT LOADED).2).2).2.map
          (fun c => c.backup_dns_count)) = some 9 ∧
    (runOps ( ping_initialize SAMPLE_INIT LOADED).2
      (Op.set_config (some NINE_DNS_CONFIG) SAMPLE_INI ::
        List.replicate 8 (Op.force_countermeasures (SAMPLE_CM 1)))).g_stats.current_dns_index
      = 8 := by
  refine ⟨⟨rfl, rfl⟩, ?_, ?_, ?_, ?_⟩ <;> decide

/-- C8 (evaluation of the code). On the initialized monitor,
`ping_set_config` with a count field of 0 returns `ERROR_SUCCESS` and leaves
the count at 0: the default list is not substituted. Afterwards every
activation just increments the rotation index (9 after nine activations). -/
theorem set_config_zero_count_kept :
    Initializes SAMPLE_INIT LOADED ∧
    (ping_set_config (some NO_DNS_CONFIG) SAMPLE_INI ( ping_initialize SAMPLE_INIT LOADED).2).1
      = ERROR_SUCCESS ∧
    (ping_set_config (some NO_DNS_CONFIG) SAMPLE_INI
      ( ping_initialize SAMPLE_INIT LOADED).2).2.g_config.backup_dns_count = 0 ∧
    (runOps ( ping_initialize SAMPLE_INIT LOADED).2
      (Op.set_config (some NO_DNS_CONFIG) SAMPLE_INI ::
        List.replicate 9 (Op.force_countermeasures (SAMPLE_CM 1)))).g_stats.current_dns_index
      = 9 := by
  refine ⟨⟨rfl, rfl⟩, ?_, ?_, ?_⟩ <;> decide

/-- The path through `ping_initialize` does substitute the defaults: after a
successful initialization the count lies between 1 and `MAX_BACKUP_DNS`. -/
theorem initialize_count_in_range (env : InitEnv) (s0 : State) (h : Initializes env s0) :
    1 ≤ ( ping_initialize env s0).2.g_config.backup_dns_count ∧
    ( ping_initialize env s0).2.g_config.backup_dns_count ≤ MAX_BACKUP_DNS :=
  (ping_initialize_ready env s0 h).2.2

/-! ## Round-trip statistics -/

theorem RttOk_of_same {a b : ping_stats_t} (h : SameCounters a b) (hb : RttOk b) : RttOk a := by
  obtain ⟨-, h2, -, h4, h5, h6, -⟩ := h
  unfold RttOk at *
  rw [h2, h4, h5, h6]
  exact hb

theorem lt_DBL_MAX (r : Nat) (hr : r < 4294967296) : (r : ℚ) < DBL_MAX := by
  have h1 : (r : ℚ) < 4294967296 := by exact_mod_cast hr
  have h2 : (4294967296 : ℚ) ≤ DBL_MAX := by
    unfold DBL_MAX
    norm_num
  exact lt_of_lt_of_le h1 h2

theorem to_dword_of_lt (n : Nat) (h : n < 4294967296) : to_dword n = n := by
  unfold to_dword
  norm_num
  omega

/-- A successful probe keeps the ordering facts, as long as the received
counter does not wrap around. -/
theorem update_stats_RttOk (r : Nat) (st : ping_stats_t) (hr : r < 4294967296)
    (hn : st.packets_received + 1 < 4294967296) (h : RttOk st) :
    (update_stats true r st).packets_received = st.packets_received + 1 ∧
    RttOk (update_stats true r st) := by
  have hd : to_dword (st.packets_received + 1) = st.packets_received + 1 :=
    to_dword_of_lt _ hn
  have hp : dword_pred (st.packets_received + 1) = st.packets_received := by
    unfold dword_pred
    simp
  have hmax := lt_DBL_MAX r hr
  have hr0 : (0 : ℚ) ≤ (r : ℚ) := Nat.cast_nonneg r
  unfold update_stats
  simp only [if_true, hd, hp]
  refine ⟨trivial, fun h0 => absurd h0 (Nat.succ_ne_zero _), fun _ => ?_⟩
  obtain ⟨hz, hpos⟩ := h
  rcases Nat.eq_zero_or_pos st.packets_received with h0 | h0
  · obtain ⟨a1, a2, a3⟩ := hz h0
    rw [a1, a2, a3, h0]
    simp only [hmax, if_true]
    norm_num
    split_ifs with hc
    · exact le_refl _
    · have hr' : r = 0 := by omega
      simp [hr']
  · obtain ⟨b1, b2⟩ := hpos h0
    have hk : (0 : ℚ) < (st.packets_received : ℚ) := by exact_mod_cast h0
    have hk1 : (0 : ℚ) < ((st.packets_received + 1 : Nat) : ℚ) := by
      push_cast
      linarith
    constructor
    · rw [le_div_iff₀ hk1]
      push_cast
      split_ifs with hc
      · nlinarith
      · have := not_lt.mp hc
        nlinarith
    · rw [div_le_iff₀ hk1]
      push_cast
      split_ifs with hc
      · nlinarith
      · have := not_lt.mp hc
        nlinarith

theorem update_stats_lost_RttOk (r : Nat) (st : ping_stats_t) (h : RttOk st) :
    (update_stats false r st).packets_received = st.packets_received ∧
    RttOk (update_stats false r st) := by
  unfold update_stats
  exact ⟨rfl, h⟩

theorem runOps_append_singleton (s : State) (ops : List Op) (op : Op) :
    runOps s (ops ++ [op]) = apiStep (runOps s ops) op := by
  simp [runOps, List.foldl_append]

theorem probesSinceReset_append_singleton (ops : List Op) (op : Op) :
    probesSinceReset (ops ++ [op]) = countStep (probesSinceReset ops) op := by
  simp [probesSinceReset, List.foldl_append]

/-- One call keeps: initialized, and, while the count of probes since the
last reset is a `DWORD`, received at most that count and the ordering facts. -/
theorem apiStep_RttOk (s : State) (op : Op) (n : Nat) (hinit : s.g_initialized = true)
    (hg : n < 4294967296 → s.g_stats.packets_received ≤ n ∧ RttOk s.g_stats)
    (hn : countStep n op < 4294967296) :
    (apiStep s op).g_initialized = true ∧
    (apiStep s op).g_stats.packets_received ≤ countStep n op ∧
    RttOk (apiStep s op).g_stats := by
  cases op with
  | execute target result_given env cm =>
    simp only [countStep] at hn ⊢
    obtain ⟨hle, hok⟩ := hg (by omega)
    rcases ping_execute_cases target result_given env cm s with h1 | ⟨b, r, hr, -, h2, h3⟩
    · simp only [apiStep]
      rw [h1]
      exact ⟨hinit, by omega, hok⟩
    · simp only [apiStep]
      refine ⟨h2.trans hinit, ?_, ?_⟩
      · rw [h3.2.1]
        cases b with
        | false => rw [(update_stats_lost_RttOk r _ hok).1]; omega
        | true => rw [(update_stats_RttOk r _ hr (by omega) hok).1]; omega
      · refine RttOk_of_same h3 ?_
        cases b with
        | false => exact (update_stats_lost_RttOk r _ hok).2
        | true => exact (update_stats_RttOk r _ hr (by omega) hok).2
  | get_stats _ => exact ⟨hinit, hg hn⟩
  | get_config _ => exact ⟨hinit, hg hn⟩
  | set_config config env =>
    obtain ⟨h1, h2⟩ := ping_set_config_same config env s
    simp only [apiStep, countStep] at hn ⊢
    rw [h1, h2]
    exact ⟨hinit, hg hn⟩
  | reset_stats now =>
    simp only [apiStep, ping_reset_stats, hinit, Bool.not_true, Bool.false_eq_true, if_false,
      countStep]
    refine ⟨hinit, Nat.le_refl 0, fun _ => ⟨rfl, rfl, rfl⟩, fun h0 => absurd h0 (Nat.lt_irrefl 0)⟩
  | force_countermeasures cm =>
    obtain ⟨-, h1, h2⟩ := ping_force_countermeasures_frame cm s
    simp only [apiStep, countStep] at hn ⊢
    obtain ⟨hle, hok⟩ := hg hn
    refine ⟨h1.trans hinit, ?_, RttOk_of_same h2 hok⟩
    rw [h2.2.1]
    exact hle

theorem runOps_RttOk (s : State) (hinit : s.g_initialized = true)
    (hfresh : s.g_stats.packets_received = 0 ∧ RttOk s.g_stats) (ops : List Op) :
    (runOps s ops).g_initialized = true ∧
    (probesSinceReset ops < 4294967296 →
      (runOps s ops).g_stats.packets_received ≤ probesSinceReset ops ∧
      RttOk (runOps s ops).g_stats) := by
  induction ops using List.reverseRecOn with
  | nil => exact ⟨hinit, fun _ => ⟨Nat.le_of_eq hfresh.1, hfresh.2⟩⟩
  | append_singleton ops op ih =>
    rw [runOps_append_singleton, probesSinceReset_append_singleton]
    refine ⟨?_, fun hn => ?_⟩
    · cases op with
      | execute target result_given env cm =>
        rcases ping_execute_cases target result_given env cm (runOps s ops) with
          h1 | ⟨b, r, -, -, h2, -⟩
        · simp only [apiStep]; rw [h1]; exact ih.1
        · exact h2.trans ih.1
      | get_stats _ => exact ih.1
      | get_config _ => exact ih.1
      | set_config config env =>
        exact (ping_set_config_same config env _).1.trans ih.1
      | reset_stats now =>
        simp only [apiStep, ping_reset_stats, ih.1, Bool.not_true, Bool.false_eq_true, if_false]
        exact ih.1
      | force_countermeasures cm =>
        exact (ping_force_countermeasures_frame cm _).2.1.trans ih.1
    · exact (apiStep_RttOk (runOps s ops) op (probesSinceReset ops) ih.1 ih.2 hn).2

/-- C9, amended. After a successful `ping_initialize` and any sequence of
exported calls with fewer than `2 ^ 32` probes since the last reset,
`ping_get_stats` succeeds and its snapshot satisfies: if `packets_received >
0` then `min_rtt <= avg_rtt <= max_rtt` (round-trip statistics in exact
arithmetic), and if `packets_received == 0` then `min_rtt` is `DBL_MAX`. -/
theorem rtt_order (env : InitEnv) (s0 : State) (ops : List Op) (h : Initializes env s0)
    (hcount : probesSinceReset ops < 2 ^ 32) :
    ∃ snap, ping_get_stats true (runOps ( ping_initialize env s0).2 ops) = (ERROR_SUCCESS, some snap) ∧
      (0 < snap.packets_received → snap.min_rtt ≤ snap.avg_rtt ∧ snap.avg_rtt ≤ snap.max_rtt) ∧
      (snap.packets_received = 0 → snap.min_rtt = DBL_MAX) := by
  have hr := (ping_initialize_ready env s0 h).2.1
  have hinv := runOps_RttOk ( ping_initialize env s0).2 h.2
    (by rw [hr]; exact ⟨rfl, fun _ => ⟨rfl, rfl, rfl⟩, fun h0 => absurd h0 (Nat.lt_irrefl 0)⟩) ops
  obtain ⟨-, hz, hp⟩ := hinv.2 (by norm_num at hcount ⊢; exact hcount)
  refine ⟨(runOps ( ping_initialize env s0).2 ops).g_stats, ?_, hp, fun h0 => (hz h0).1⟩
  unfold ping_get_stats
  rw [hinv.1]
  rfl

/-- C9 (amended) at a concrete run: replies of 20 ms and 35 ms around a failure. -/
theorem rtt_order_witness :
    ∃ snap, ping_get_stats true (runOps ( ping_initialize SAMPLE_INIT LOADED).2
        [Op.execute (some "") true (SAMPLE_REPLY 20) (SAMPLE_CM 1),
         Op.execute (some "") true SAMPLE_UNRESOLVED (SAMPLE_CM 2),
         Op.execute (some "") true (SAMPLE_REPLY 35) (SAMPLE_CM 3)]) = (ERROR_SUCCESS, some snap) ∧
      (0 < snap.packets_received → snap.min_rtt ≤ snap.avg_rtt ∧ snap.avg_rtt ≤ snap.max_rtt) ∧
      (snap.packets_received = 0 → snap.min_rtt = DBL_MAX) :=
  rtt_order SAMPLE_INIT LOADED _ ⟨rfl, rfl⟩ (by decide)

/-- The counters after an accepted `ping_execute` are those `update_stats`
computes from the outcome of `perform_ping`. -/
theorem ping_execute_counters (target : String) (env : PingEnv) (cm : CmEnv) (s : State)
    (hi : s.g_initialized = true) :
    (ping_execute (some target) true env cm s).2.2.g_initialized = true ∧
    SameCounters (ping_execute (some target) true env cm s).2.2.g_stats
      (update_stats
        (perform_ping (if target.length > 0 then target else s.g_config.target) env s).1
        (perform_ping (if target.length > 0 then target else s.g_config.target) env s).2.1.rtt_ms
        s.g_stats) := by
  unfold ping_execute
  simp only [hi, Bool.not_true, Bool.false_eq_true, if_false]
  generalize (if target.length > 0 then target else s.g_config.target) = ping_target
  have hp := perform_ping_frame ping_target env s
  have hg := perform_ping_g_stats ping_target env s
  generalize perform_ping ping_target env s = p at hp hg
  rw [hg]
  split_ifs
  · obtain ⟨-, b, c⟩ := analyze_network_health_frame cm
      { p.2.2 with g_stats := update_stats p.1 p.2.1.rtt_ms s.g_stats }
    exact ⟨(b.trans hp.2.1).trans hi, c⟩
  · exact ⟨hp.2.1.trans hi, rfl, rfl, rfl, rfl, rfl, rfl, rfl⟩

theorem perform_ping_sample_reply (target : String) (rtt : Nat) (hr : rtt < 4294967296)
    (s : State) :
    (perform_ping target (SAMPLE_REPLY rtt) s).1 = true ∧
    (perform_ping target (SAMPLE_REPLY rtt) s).2.1.rtt_ms = rtt := by
  have h0 : to_dword 0 = 0 := to_dword_of_lt 0 (by decide)
  simp [perform_ping, resolve_hostname, SAMPLE_REPLY, to_dword_of_lt rtt hr, h0, IP_SUCCESS,
    ERROR_SUCCESS]

/-- One probe of `probes` on an initialized monitor. -/
theorem apiStep_probe (s : State) (hi : s.g_initialized = true) :
    (apiStep s (Op.execute (some "") true (SAMPLE_REPLY 20) (SAMPLE_CM 0))).g_initialized = true ∧
    SameCounters (apiStep s (Op.execute (some "") true (SAMPLE_REPLY 20) (SAMPLE_CM 0))).g_stats
      (update_stats true 20 s.g_stats) := by
  have h := ping_execute_counters "" (SAMPLE_REPLY 20) (SAMPLE_CM 0) s hi
  rw [(perform_ping_sample_reply _ 20 (by decide) s).1,
    (perform_ping_sample_reply _ 20 (by decide) s).2] at h
  exact h

theorem runOps_probes_received (n : Nat) :
    ∀ (s : State) (k : Nat), s.g_initialized = true → k < 4294967296 →
      s.g_stats.packets_received = k →
      (runOps s (probes n)).g_stats.packets_received = (k + n) % 4294967296 := by
  induction n with
  | zero =>
    intro s k _ hk h
    show s.g_stats.packets_received = _
    rw [h, Nat.add_zero, Nat.mod_eq_of_lt hk]
  | succ n ih =>
    intro s k hi hk h
    obtain ⟨h1, h2⟩ := apiStep_probe s hi
    have h3 : (apiStep s (Op.execute (some "") true (SAMPLE_REPLY 20)
        (SAMPLE_CM 0))).g_stats.packets_received = (k + 1) % 4294967296 := by
      rw [h2.2.1]
      unfold update_stats to_dword
      simp only [if_true]
      rw [h]
      norm_num
    have := ih _ ((k + 1) % 4294967296) h1 (Nat.mod_lt _ (by decide)) h3
    show (runOps (apiStep s _) (probes n)).g_stats.packets_received = _
    rw [this]
    omega

theorem runOps_probes_min (n : Nat) :
    ∀ s : State, s.g_initialized = true → s.g_stats.min_rtt = 20 →
      (runOps s (probes n)).g_stats.min_rtt = 20 := by
  induction n with
  | zero => intro s _ h; exact h
  | succ n ih =>
    intro s hi h
    obtain ⟨h1, h2⟩ := apiStep_probe s hi
    refine ih _ h1 ?_
    rw [h2.2.2.2.1]
    unfold update_stats
    simp [h]

theorem update_stats_min_first (st : ping_stats_t)
    (h : st.min_rtt = DBL_MAX ∨ st.min_rtt = 20) : (update_stats true 20 st).min_rtt = 20 := by
  have hlt := lt_DBL_MAX 20 (by decide)
  unfold update_stats
  simp only [if_true]
  rcases h with h | h
  · rw [h, if_pos hlt]
    norm_num
  · rw [h]
    norm_num

theorem runOps_probes_min_pos (n : Nat) (s : State) (hi : s.g_initialized = true)
    (h : s.g_stats.min_rtt = DBL_MAX ∨ s.g_stats.min_rtt = 20) (hn : 0 < n) :
    (runOps s (probes n)).g_stats.min_rtt = 20 := by
  cases n with
  | zero => exact absurd hn (Nat.lt_irrefl 0)
  | succ n =>
    obtain ⟨h1, h2⟩ := apiStep_probe s hi
    refine runOps_probes_min n _ h1 ?_
    rw [h2.2.2.2.1]
    exact update_stats_min_first _ h

/-- C9 as stated fails when the `DWORD` counter wraps: after `2 ^ 32` probes
that all succeed with a round trip of 20 ms, `packets_received` is 0 again
while `min_rtt` is 20, not `DBL_MAX`. -/
theorem rtt_sentinel_counterexample :
    Initializes SAMPLE_INIT LOADED ∧
    (runOps ( ping_initialize SAMPLE_INIT LOADED).2 (probes (2 ^ 32))).g_stats.packets_received
      = 0 ∧
    (runOps ( ping_initialize SAMPLE_INIT LOADED).2 (probes (2 ^ 32))).g_stats.min_rtt = 20 ∧
    ¬ ((runOps ( ping_initialize SAMPLE_INIT LOADED).2 (probes (2 ^ 32))).g_stats.min_rtt
      = DBL_MAX) := by
  have hinit : Initializes SAMPLE_INIT LOADED := ⟨rfl, rfl⟩
  have hr := (ping_initialize_ready SAMPLE_INIT LOADED hinit).2.1
  have h1 := runOps_probes_received (2 ^ 32) ( ping_initialize SAMPLE_INIT LOADED).2 0
    hinit.2 (by decide) (by rw [hr]; rfl)
  have h2 := runOps_probes_min_pos (2 ^ 32) ( ping_initialize SAMPLE_INIT LOADED).2 hinit.2
    (Or.inl (by rw [hr]; rfl)) (by decide)
  refine ⟨hinit, ?_, h2, ?_⟩
  · rw [h1]
    norm_num
  · rw [h2]
    have := lt_DBL_MAX 20 (by decide)
    intro hc
    rw [← hc] at this
    norm_num at this

/-! ## The counters without wrap-around -/

theorem CountersExact_of_same {a b : ping_stats_t} {n : Nat} (h : SameCounters a b)
    (hb : CountersExact b n) : CountersExact a n := by
  unfold CountersExact at *
  rw [h.1, h.2.1, h.2.2.1]
  exact hb

theorem update_stats_CountersExact (success : Bool) (rtt_ms : Nat) (st : ping_stats_t) (n : Nat)
    (hn : n + 1 < 4294967296) (h : CountersExact st n) :
    CountersExact (update_stats success rtt_ms st) (n + 1) := by
  obtain ⟨h1, h2⟩ := h
  have e1 : to_dword (st.packets_sent + 1) = st.packets_sent + 1 := to_dword_of_lt _ (by omega)
  have e2 : to_dword (st.packets_received + 1) = st.packets_received + 1 :=
    to_dword_of_lt _ (by omega)
  have e3 : to_dword (st.packets_lost + 1) = st.packets_lost + 1 := to_dword_of_lt _ (by omega)
  unfold CountersExact update_stats
  cases success
  · simp only [Bool.false_eq_true, if_false, e1, e3]
    omega
  · simp only [if_true, e1, e2]
    omega

theorem apiStep_CountersExact (s : State) (op : Op) (n : Nat) (hinit : s.g_initialized = true)
    (hg : n < 4294967296 → CountersExact s.g_stats n)
    (hn : countStep n op < 4294967296) :
    CountersExact (apiStep s op).g_stats (countStep n op) := by
  cases op with
  | execute target result_given env cm =>
    simp only [countStep] at hn ⊢
    have hok := hg (by omega)
    rcases ping_execute_cases target result_given env cm s with h1 | ⟨b, r, -, -, -, h3⟩
    · simp only [apiStep]
      rw [h1]
      exact ⟨by have := hok.1; omega, hok.2⟩
    · exact CountersExact_of_same h3 (update_stats_CountersExact b r _ n hn hok)
  | get_stats _ => exact hg hn
  | get_config _ => exact hg hn
  | set_config config env =>
    simp only [apiStep, countStep] at hn ⊢
    rw [(ping_set_config_same config env s).2]
    exact hg hn
  | reset_stats now =>
    simp only [apiStep, ping_reset_stats, hinit, Bool.not_true, Bool.false_eq_true, if_false,
      countStep]
    exact ⟨Nat.le_refl 0, rfl⟩
  | force_countermeasures cm =>
    simp only [apiStep, countStep] at hn ⊢
    exact CountersExact_of_same (ping_force_countermeasures_frame cm s).2.2 (hg hn)

theorem apiStep_g_initialized (s : State) (op : Op) (h : s.g_initialized = true) :
    (apiStep s op).g_initialized = true := by
  cases op with
  | execute target result_given env cm =>
    rcases ping_execute_cases target result_given env cm s with h1 | ⟨b, r, -, -, h2, -⟩
    · simp only [apiStep]; rw [h1]; exact h
    · exact h2.trans h
  | get_stats _ => exact h
  | get_config _ => exact h
  | set_config config env => exact (ping_set_config_same config env _).1.trans h
  | reset_stats now =>
    simp only [apiStep, ping_reset_stats, h, Bool.not_true, Bool.false_eq_true, if_false]
    exact h
  | force_countermeasures cm => exact (ping_force_countermeasures_frame cm _).2.1.trans h

theorem runOps_g_initialized (s : State) (ops : List Op) (h : s.g_initialized = true) :
    (runOps s ops).g_initialized = true :=
  runOps_induction (fun t => t.g_initialized = true) apiStep_g_initialized ops s h

theorem runOps_CountersExact (s : State) (hinit : s.g_initialized = true)
    (hfresh : CountersExact s.g_stats 0) (ops : List Op) :
    probesSinceReset ops < 4294967296 →
      CountersExact (runOps s ops).g_stats (probesSinceReset ops) := by
  induction ops using List.reverseRecOn with
  | nil => exact fun _ => hfresh
  | append_singleton ops op ih =>
    rw [runOps_append_singleton, probesSinceReset_append_singleton]
    exact apiStep_CountersExact (runOps s ops) op (probesSinceReset ops)
      (runOps_g_initialized s ops hinit) ih

/-- C1, amended. After a successful `ping_initialize`, whatever calls of the exported
interface follow (probes that succeed or fail, resets, configuration changes,
forced countermeasures), `ping_get_stats` succeeds and the snapshot it returns
satisfies `packets_sent == packets_received + packets_lost`, the sum being
taken in a `DWORD` as the C expression takes it; and as long as fewer than
`2 ^ 32` probes were made since the last reset, no counter has wrapped around
and the equation holds between the numbers themselves. -/
theorem sent_eq_received_plus_lost (env : InitEnv) (s0 : State) (ops : List Op)
    (h : Initializes env s0) :
    ∃ snap, ping_get_stats true (runOps ( ping_initialize env s0).2 ops) = (ERROR_SUCCESS, some snap) ∧
      snap.packets_sent = (snap.packets_received + snap.packets_lost) % 2 ^ 32 ∧
      (probesSinceReset ops < 2 ^ 32 →
        snap.packets_sent = snap.packets_received + snap.packets_lost) := by
  have hr := ping_initialize_ready env s0 h
  have hinv := runOps_CountersOk ( ping_initialize env s0).2 ops
    ⟨h.2, by rw [CountersOk, hr.2.1]; rfl⟩
  have hex := runOps_CountersExact ( ping_initialize env s0).2 h.2
    (by rw [hr.2.1]; exact ⟨Nat.le_refl 0, rfl⟩) ops
  refine ⟨(runOps ( ping_initialize env s0).2 ops).g_stats, ?_, hinv.2, fun hc => ?_⟩
  · unfold ping_get_stats
    rw [hinv.1]
    rfl
  · exact (hex (by norm_num at hc ⊢; exact hc)).2

/-- C1 (amended) at a concrete run: a reply, a failed resolution, a reset,
another failure. -/
theorem sent_eq_received_plus_lost_witness :
    Initializes SAMPLE_INIT LOADED ∧
    ∃ snap, ping_get_stats true (runOps ( ping_initialize SAMPLE_INIT LOADED).2
        [Op.execute (some "") true (SAMPLE_REPLY 20) (SAMPLE_CM 1),
         Op.execute (some "") true SAMPLE_UNRESOLVED (SAMPLE_CM 2),
         Op.reset_stats 3,
         Op.execute (some "") true SAMPLE_UNRESOLVED (SAMPLE_CM 4)]) = (ERROR_SUCCESS, some snap) ∧
      snap.packets_sent = (snap.packets_received + snap.packets_lost) % 2 ^ 32 ∧
      (probesSinceReset
        [Op.execute (some "") true (SAMPLE_REPLY 20) (SAMPLE_CM 1),
         Op.execute (some "") true SAMPLE_UNRESOLVED (SAMPLE_CM 2),
         Op.reset_stats 3,
         Op.execute (some "") true SAMPLE_UNRESOLVED (SAMPLE_CM 4)] < 2 ^ 32 →
        snap.packets_sent = snap.packets_received + snap.packets_lost) :=
  ⟨⟨rfl, rfl⟩, sent_eq_received_plus_lost SAMPLE_INIT LOADED _ ⟨rfl, rfl⟩⟩

/-! ## Forced activation -/

/-- C11. On an initialized, idle monitor `ping_force_countermeasures` runs the
activation whatever the configuration and the statistics say (nothing is
assumed about `enable_countermeasures`, `packets_sent` or the thresholds): it
stamps the activation time, launches the remediation actions and sleeps; and
it returns `ERROR_SUCCESS` for every outcome of the launches. -/
theorem force_bypasses_analyzer (env : CmEnv) (s : State)
    (hi : s.g_initialized = true) (hidle : s.g_stats.countermeasures_active = false) :
    (ping_force_countermeasures env s).1 = ERROR_SUCCESS ∧
    (ping_force_countermeasures env s).2.g_stats.last_countermeasure = env.now ∧
    (ping_force_countermeasures env s).2.trace =
      s.trace ++ activation_actions s.g_config s.g_stats.current_dns_index ++
        [Action.sleep COOLDOWN_MS] := by
  obtain ⟨-, h2, -, h4⟩ := trigger_countermeasures_idle env
    (dbj_log .LOG_INFO "Forcing countermeasures activation" s) hidle
  unfold ping_force_countermeasures
  simp only [hi, Bool.not_true, Bool.false_eq_true, if_false]
  exact ⟨trivial, h2, h4⟩

/-- C11 at a concrete state: countermeasures disabled, nothing sent (the
analyzer would not trigger), every launch fails; the activation still runs and
the call returns `ERROR_SUCCESS`. -/
theorem force_bypasses_analyzer_witness :
    (analyze_network_health (SAMPLE_CM_FAIL 7) GATED).1 = false ∧
    (ping_force_countermeasures (SAMPLE_CM_FAIL 7) GATED).1 = ERROR_SUCCESS ∧
    (ping_force_countermeasures (SAMPLE_CM_FAIL 7) GATED).2.g_stats.last_countermeasure = 7 ∧
    (ping_force_countermeasures (SAMPLE_CM_FAIL 7) GATED).2.trace =
      GATED.trace ++ activation_actions GATED.g_config GATED.g_stats.current_dns_index ++
        [Action.sleep COOLDOWN_MS] :=
  ⟨rfl, force_bypasses_analyzer (SAMPLE_CM_FAIL 7) GATED rfl rfl⟩

/-! ## Reset -/

/-- C13 as stated fails: after one activation the rotation index is 1, and
`ping_reset_stats` brings it back to 0. -/
theorem reset_keeps_index_counterexample :
    ROTATED.g_initialized = true ∧
    ROTATED.g_stats.current_dns_index = 1 ∧
    ¬ ((ping_reset_stats 5 ROTATED).2.g_stats.current_dns_index =
      ROTATED.g_stats.current_dns_index) := by
  refine ⟨?_, ?_, ?_⟩ <;> decide

/-- C13, amended. `ping_reset_stats` on an initialized monitor sets the
rotation index to 0 whatever it was (`init_stats` zeroes the whole statistics
record), so the index is unchanged exactly when it was 0. -/
theorem reset_zeroes_index (now : Nat) (s : State) (hi : s.g_initialized = true) :
    (ping_reset_stats now s).2.g_stats.current_dns_index = 0 ∧
    ((ping_reset_stats now s).2.g_stats.current_dns_index = s.g_stats.current_dns_index ↔
      s.g_stats.current_dns_index = 0) := by
  have h : (ping_reset_stats now s).2.g_stats.current_dns_index = 0 := by
    unfold ping_reset_stats
    simp only [hi, Bool.not_true, Bool.false_eq_true, if_false]
    rfl
  refine ⟨h, ?_⟩
  rw [h]
  exact eq_comm

/-- C13 (amended) at a concrete state: index 1 before the reset, 0 after. -/
theorem reset_zeroes_index_witness :
    (ping_reset_stats 5 ROTATED).2.g_stats.current_dns_index = 0 ∧
    ((ping_reset_stats 5 ROTATED).2.g_stats.current_dns_index =
        ROTATED.g_stats.current_dns_index ↔
      ROTATED.g_stats.current_dns_index = 0) :=
  reset_zeroes_index 5 ROTATED (by decide)

/-- C14. On an initialized monitor `ping_reset_stats` succeeds and the
snapshot taken after it is the fresh one, whatever the statistics were: the
three counters 0, `min_rtt` the sentinel `DBL_MAX`, `max_rtt`, `avg_rtt` and
`jitter` 0, `last_countermeasure` the clock reading; a second reset at the
same clock reading gives the same snapshot. -/
theorem reset_stats_fresh (now : Nat) (s : State) (hi : s.g_initialized = true) :
    (ping_reset_stats now s).1 = ERROR_SUCCESS ∧
    (∃ snap, ping_get_stats true (ping_reset_stats now s).2 = (ERROR_SUCCESS, some snap) ∧
      snap.packets_sent = 0 ∧ snap.packets_received = 0 ∧ snap.packets_lost = 0 ∧
      snap.min_rtt = DBL_MAX ∧ snap.max_rtt = 0 ∧ snap.avg_rtt = 0 ∧ snap.jitter = 0 ∧
      snap.last_countermeasure = now) ∧
    ping_get_stats true (ping_reset_stats now (ping_reset_stats now s).2).2 =
      ping_get_stats true (ping_reset_stats now s).2 := by
  have h : ∀ t : State, t.g_initialized = true →
      ping_reset_stats now t =
        (ERROR_SUCCESS, dbj_log .LOG_INFO "Statistics reset" (init_stats now t)) := by
    intro t ht
    unfold ping_reset_stats
    simp only [ht, Bool.not_true, Bool.false_eq_true, if_false]
  have hg : ∀ t : State, t.g_initialized = true →
      ping_get_stats true (dbj_log .LOG_INFO "Statistics reset" (init_stats now t)) =
        (ERROR_SUCCESS, some (FRESH_STATS now)) := by
    intro t ht
    unfold ping_get_stats
    simp only [dbj_log_g_initialized, init_stats, ht, Bool.not_true, Bool.or_self,
      Bool.false_eq_true, if_false]
    rfl
  rw [h s hi]
  refine ⟨rfl, ⟨FRESH_STATS now, hg s hi, rfl, rfl, rfl, rfl, rfl, rfl, rfl, rfl⟩, ?_⟩
  rw [h _ (show (dbj_log .LOG_INFO "Statistics reset" (init_stats now s)).g_initialized = true
    from hi), hg s hi]
  exact hg _ hi

/-- C14 at a concrete state: ten probes sent and four lost before the reset. -/
theorem reset_stats_fresh_witness :
    (ping_reset_stats 9 DEGRADED).1 = ERROR_SUCCESS ∧
    (∃ snap, ping_get_stats true (ping_reset_stats 9 DEGRADED).2 = (ERROR_SUCCESS, some snap) ∧
      snap.packets_sent = 0 ∧ snap.packets_received = 0 ∧ snap.packets_lost = 0 ∧
      snap.min_rtt = DBL_MAX ∧ snap.max_rtt = 0 ∧ snap.avg_rtt = 0 ∧ snap.jitter = 0 ∧
      snap.last_countermeasure = 9) ∧
    ping_get_stats true (ping_reset_stats 9 (ping_reset_stats 9 DEGRADED).2).2 =
      ping_get_stats true (ping_reset_stats 9 DEGRADED).2 :=
  reset_stats_fresh 9 DEGRADED rfl

/-! ## Calls on a monitor that is not initialized, and the getters -/

/-- C15 as stated fails: before any `ping_initialize`, `ping_get_stats` does
not return `ERROR_NOT_READY`. -/
theorem get_stats_not_ready_counterexample :
    LOADED.g_initialized = false ∧
    ¬ ((ping_get_stats true LOADED).1 = ERROR_NOT_READY) := by
  refine ⟨rfl, ?_⟩
  decide

/-- C15, amended. `ping_get_stats` called on a monitor that is not
initialized returns `ERROR_INVALID_PARAMETER` and copies no statistics to the
caller. -/
theorem get_stats_uninitialized (stats_given : Bool) (s : State)
    (h : s.g_initialized = false) :
    ping_get_stats stats_given s = (ERROR_INVALID_PARAMETER, none) := by
  unfold ping_get_stats
  simp [h]

/-- C15 (amended) at the state the module is loaded in. -/
theorem get_stats_uninitialized_witness :
    ping_get_stats true LOADED = (ERROR_INVALID_PARAMETER, none) :=
  get_stats_uninitialized true LOADED rfl

/-- C16. `ping_get_stats` and `ping_get_config` return
`ERROR_INVALID_PARAMETER` and copy nothing when the monitor is not initialized
or the output pointer is null; on an initialized monitor with an output they
return `ERROR_SUCCESS` and the current statistics, respectively the current
configuration, as they are. (Both only read the globals.) -/
theorem getters_result (given : Bool) (s : State) :
    ((s.g_initialized = false ∨ given = false) →
      ping_get_stats given s = (ERROR_INVALID_PARAMETER, none) ∧
      ping_get_config given s = (ERROR_INVALID_PARAMETER, none)) ∧
    (s.g_initialized = true →
      ping_get_stats true s = (ERROR_SUCCESS, some s.g_stats) ∧
      ping_get_config true s = (ERROR_SUCCESS, some s.g_config)) := by
  unfold ping_get_stats ping_get_config
  constructor
  · intro h
    rcases h with h | h <;> simp [h]
  · intro h
    simp [h]

/-- C16 at concrete states: not initialized; initialized with a null output;
initialized with an output. -/
theorem getters_result_witness :
    (ping_get_stats true LOADED = (ERROR_INVALID_PARAMETER, none) ∧
      ping_get_config true LOADED = (ERROR_INVALID_PARAMETER, none)) ∧
    (ping_get_stats false READY = (ERROR_INVALID_PARAMETER, none) ∧
      ping_get_config false READY = (ERROR_INVALID_PARAMETER, none)) ∧
    (ping_get_stats true READY = (ERROR_SUCCESS, some READY.g_stats) ∧
      ping_get_config true READY = (ERROR_SUCCESS, some READY.g_config)) :=
  ⟨(getters_result true LOADED).1 (Or.inl rfl),
   (getters_result false READY).1 (Or.inr rfl),
   (getters_result true READY).2 rfl⟩

/-- C17 as stated fails: before any `ping_initialize`, `ping_set_config` does
not return `ERROR_NOT_READY`. -/
theorem set_config_not_ready_counterexample :
    LOADED.g_initialized = false ∧
    ¬ ((ping_set_config (some DEFAULT_CONFIG) SAMPLE_INI LOADED).1 = ERROR_NOT_READY) := by
  refine ⟨rfl, ?_⟩
  decide

/-- C17, amended. `ping_set_config` called on a monitor that is not
initialized returns `ERROR_INVALID_PARAMETER` and changes nothing: the stored
configuration is kept and nothing is written to the INI file. -/
theorem set_config_uninitialized (config : Option ping_config_t) (env : IniEnv) (s : State)
    (h : s.g_initialized = false) :
    ping_set_config config env s = (ERROR_INVALID_PARAMETER, s) := by
  unfold ping_set_config
  simp [h]

/-- C17 (amended) at the state the module is loaded in. -/
theorem set_config_uninitialized_witness :
    ping_set_config (some DEFAULT_CONFIG) SAMPLE_INI LOADED = (ERROR_INVALID_PARAMETER, LOADED) :=
  set_config_uninitialized (some DEFAULT_CONFIG) SAMPLE_INI LOADED rfl

/-- C19. On a monitor that is not initialized, `ping_execute` (whatever its
arguments, null ones included), `ping_reset_stats` and
`ping_force_countermeasures` return `ERROR_NOT_READY` and leave the whole state
as it is: statistics, configuration, and the records of external calls and of
log calls. -/
theorem not_ready_calls (target : Option String) (result_given : Bool) (env : PingEnv)
    (cm : CmEnv) (now : Nat) (s : State) (h : s.g_initialized = false) :
    ping_execute target result_given env cm s = (ERROR_NOT_READY, none, s) ∧
    ping_reset_stats now s = (ERROR_NOT_READY, s) ∧
    ping_force_countermeasures cm s = (ERROR_NOT_READY, s) := by
  unfold ping_execute ping_reset_stats ping_force_countermeasures
  simp [h]

/-- C19 at the state the module is loaded in, with null arguments. -/
theorem not_ready_calls_witness :
    ping_execute none false (SAMPLE_REPLY 20) (SAMPLE_CM 1) LOADED = (ERROR_NOT_READY, none, LOADED) ∧
    ping_reset_stats 3 LOADED = (ERROR_NOT_READY, LOADED) ∧
    ping_force_countermeasures (SAMPLE_CM 1) LOADED = (ERROR_NOT_READY, LOADED) :=
  not_ready_calls none false (SAMPLE_REPLY 20) (SAMPLE_CM 1) 3 LOADED rfl

/-- C20. `ping_initialize` on an initialized monitor returns
`ERROR_ALREADY_INITIALIZED` and leaves the whole state as it is: statistics,
configuration, ICMP handle, and the record of external calls (no WinSock or
ICMP call is made). -/
theorem initialize_twice (env : InitEnv) (s : State) (h : s.g_initialized = true) :
    ping_initialize env s = (ERROR_ALREADY_INITIALIZED, s) := by
  unfold ping_initialize
  simp [h]

/-- C20 at a concrete state: a second `ping_initialize` right after the first. -/
theorem initialize_twice_witness :
    ping_initialize SAMPLE_INIT READY = (ERROR_ALREADY_INITIALIZED, READY) :=
  initialize_twice SAMPLE_INIT READY rfl

/-! ## Single probes -/

theorem perform_ping_ok (target : String) (env : PingEnv) (s : State) :
    (perform_ping target env s).1 = probe_ok env := by
  unfold perform_ping resolve_hostname probe_ok
  cases hr : env.resolved <;> cases hi : env.inet_addr_ok <;> cases hh : env.heap_alloc_ok <;>
    simp [ERROR_SUCCESS, ERROR_INVALID_PARAMETER]
  split_ifs <;> simp_all

theorem perform_ping_activations (target : String) (env : PingEnv) (s : State) :
    activations (perform_ping target env s).2.2.trace = activations s.trace := by
  unfold perform_ping resolve_hostname activations
  cases hr : env.resolved <;> cases hi : env.inet_addr_ok <;> cases hh : env.heap_alloc_ok <;>
    simp [ERROR_SUCCESS, ERROR_INVALID_PARAMETER, List.count_append, List.count_cons]

/-- What `update_stats` does to the fields other than the round-trip ones. -/
theorem update_stats_fields (success : Bool) (rtt_ms : Nat) (st : ping_stats_t) :
    (update_stats success rtt_ms st).packets_sent = to_dword (st.packets_sent + 1) ∧
    (update_stats success rtt_ms st).packets_lost =
      (if success then st.packets_lost else to_dword (st.packets_lost + 1)) ∧
    (update_stats success rtt_ms st).packets_received =
      (if success then to_dword (st.packets_received + 1) else st.packets_received) ∧
    (update_stats success rtt_ms st).countermeasures_active = st.countermeasures_active ∧
    (update_stats success rtt_ms st).current_dns_index = st.current_dns_index ∧
    (update_stats success rtt_ms st).last_countermeasure = st.last_countermeasure := by
  unfold update_stats
  cases success <;> simp

/-- The accepted path of `ping_execute`, written out. -/
theorem ping_execute_accepted (target : String) (env : PingEnv) (cm : CmEnv) (s : State)
    (hi : s.g_initialized = true) :
    (ping_execute (some target) true env cm s).1 =
      (if probe_ok env then ERROR_SUCCESS else ERROR_NETWORK_UNREACHABLE) ∧
    (ping_execute (some target) true env cm s).2.1 =
      some (perform_ping (if target.length > 0 then target else s.g_config.target) env s).2.1 ∧
    (ping_execute (some target) true env cm s).2.2 =
      (if (update_stats (probe_ok env)
            (perform_ping (if target.length > 0 then target else s.g_config.target)
              env s).2.1.rtt_ms s.g_stats).packets_sent % 5 = 0 then
        (analyze_network_health cm
          { (perform_ping (if target.length > 0 then target else s.g_config.target) env s).2.2 with
            g_stats := update_stats (probe_ok env)
              (perform_ping (if target.length > 0 then target else s.g_config.target)
                env s).2.1.rtt_ms s.g_stats }).2
       else
          { (perform_ping (if target.length > 0 then target else s.g_config.target) env s).2.2 with
            g_stats := update_stats (probe_ok env)
              (perform_ping (if target.length > 0 then target else s.g_config.target)
                env s).2.1.rtt_ms s.g_stats }) := by
  unfold ping_execute
  simp only [hi, Bool.not_true, Bool.false_eq_true, if_false]
  generalize (if target.length > 0 then target else s.g_config.target) = ping_target
  have hok := perform_ping_ok ping_target env s
  have hg := perform_ping_g_stats ping_target env s
  generalize perform_ping ping_target env s = p at hok hg
  rw [hg, hok]
  exact ⟨rfl, trivial, rfl⟩

theorem ping_execute_sent (target : String) (env : PingEnv) (cm : CmEnv) (s : State)
    (hi : s.g_initialized = true) :
    (ping_execute (some target) true env cm s).2.2.g_stats.packets_sent =
      to_dword (s.g_stats.packets_sent + 1) := by
  rw [(ping_execute_counters target env cm s hi).2.1]
  exact (update_stats_fields _ _ _).1

/-- C18 as stated fails: with an empty target and an empty configured target,
a probe whose name resolution fails is counted (one sent, one lost) and the
call returns `ERROR_NETWORK_UNREACHABLE`, not `ERROR_INVALID_PARAMETER`. -/
theorem empty_target_counterexample :
    EMPTY_TARGET.g_initialized = true ∧ EMPTY_TARGET.g_config.target = "" ∧
    EMPTY_TARGET.g_stats.packets_sent = 0 ∧
    ¬ ((ping_execute (some "") true SAMPLE_UNRESOLVED (SAMPLE_CM 1) EMPTY_TARGET).1 =
      ERROR_INVALID_PARAMETER) ∧
    (ping_execute (some "") true SAMPLE_UNRESOLVED (SAMPLE_CM 1) EMPTY_TARGET).2.2.g_stats.packets_sent
      = 1 ∧
    (ping_execute (some "") true SAMPLE_UNRESOLVED (SAMPLE_CM 1) EMPTY_TARGET).2.2.g_stats.packets_lost
      = 1 := by
  refine ⟨?_, ?_, ?_, ?_, ?_, ?_⟩ <;> decide

/-- C18, amended. On an initialized monitor `ping_execute` returns
`ERROR_INVALID_PARAMETER`, recording nothing, when the target pointer or the
result pointer is null. With an empty target and an empty configured target
it does not: it probes the empty name, records the outcome (`packets_sent`
grows by one), writes the result and returns `ERROR_SUCCESS` or
`ERROR_NETWORK_UNREACHABLE`. -/
theorem execute_invalid_argument (target : String) (result_given : Bool) (env : PingEnv)
    (cm : CmEnv) (s : State) (hi : s.g_initialized = true) :
    ping_execute none result_given env cm s = (ERROR_INVALID_PARAMETER, none, s) ∧
    ping_execute (some target) false env cm s = (ERROR_INVALID_PARAMETER, none, s) ∧
    (s.g_config.target = "" →
      (ping_execute (some "") true env cm s).1 =
        (if probe_ok env then ERROR_SUCCESS else ERROR_NETWORK_UNREACHABLE) ∧
      (ping_execute (some "") true env cm s).1 ≠ ERROR_INVALID_PARAMETER ∧
      (ping_execute (some "") true env cm s).2.1 = some (perform_ping "" env s).2.1 ∧
      (ping_execute (some "") true env cm s).2.2.g_stats.packets_sent =
        to_dword (s.g_stats.packets_sent + 1)) := by
  refine ⟨?_, ?_, ?_⟩
  · unfold ping_execute
    simp [hi]
  · unfold ping_execute
    simp [hi]
  · intro ht
    obtain ⟨h1, h2, -⟩ := ping_execute_accepted "" env cm s hi
    refine ⟨h1, ?_, ?_, ping_execute_sent "" env cm s hi⟩
    · rw [h1]
      split_ifs <;> decide
    · rw [h2, ht]
      rfl

/-- C18 (amended) at a concrete state: empty target, empty configured target. -/
theorem execute_invalid_argument_witness :
    ping_execute none true SAMPLE_UNRESOLVED (SAMPLE_CM 1) EMPTY_TARGET =
      (ERROR_INVALID_PARAMETER, none, EMPTY_TARGET) ∧
    ping_execute (some "") false SAMPLE_UNRESOLVED (SAMPLE_CM 1) EMPTY_TARGET =
      (ERROR_INVALID_PARAMETER, none, EMPTY_TARGET) ∧
    (EMPTY_TARGET.g_config.target = "" →
      (ping_execute (some "") true SAMPLE_UNRESOLVED (SAMPLE_CM 1) EMPTY_TARGET).1 =
        (if probe_ok SAMPLE_UNRESOLVED then ERROR_SUCCESS else ERROR_NETWORK_UNREACHABLE) ∧
      (ping_execute (some "") true SAMPLE_UNRESOLVED (SAMPLE_CM 1) EMPTY_TARGET).1 ≠
        ERROR_INVALID_PARAMETER ∧
      (ping_execute (some "") true SAMPLE_UNRESOLVED (SAMPLE_CM 1) EMPTY_TARGET).2.1 =
        some (perform_ping "" SAMPLE_UNRESOLVED EMPTY_TARGET).2.1 ∧
      (ping_execute (some "") true SAMPLE_UNRESOLVED
          (SAMPLE_CM 1) EMPTY_TARGET).2.2.g_stats.packets_sent =
        to_dword (EMPTY_TARGET.g_stats.packets_sent + 1)) :=
  execute_invalid_argument "" true SAMPLE_UNRESOLVED (SAMPLE_CM 1) EMPTY_TARGET (by decide)

/-! ## Ten probes, three of them lost -/

theorem analyze_network_health_few (cm : CmEnv) (s : State) (h : s.g_stats.packets_sent < 10) :
    analyze_network_health cm s = (false, s) := by
  unfold analyze_network_health
  split_ifs <;> rfl

theorem probeOps_succ (target : Nat → String) (e : Nat → PingEnv) (c : Nat → CmEnv) (k : Nat) :
    probeOps target e c (k + 1) =
      probeOps target e c k ++ [Op.execute (some (target k)) true (e k) (c k)] := by
  simp [probeOps, List.range_succ]

/-- A probe that leaves fewer than 10 packets sent starts no activation. -/
theorem quiet_step (s0 s : State) (k l : Nat) (target : String) (env : PingEnv) (cm : CmEnv)
    (h : Quiet s0 s k l) (hk : k + 1 < 10) (hl : l ≤ k) :
    Quiet s0 (apiStep s (Op.execute (some target) true env cm)) (k + 1)
      (l + if probe_ok env then 0 else 1) := by
  obtain ⟨hi, hc, hs, hlost, ha, hlast, hidx, hact⟩ := h
  obtain ⟨-, -, h3⟩ := ping_execute_accepted target env cm s hi
  have hp := perform_ping_same (if target.length > 0 then target else s.g_config.target) env s
  have hpa := perform_ping_activations
    (if target.length > 0 then target else s.g_config.target) env s
  generalize perform_ping (if target.length > 0 then target else s.g_config.target) env s = p
    at h3 hp hpa
  obtain ⟨f1, f2, -, f4, f5, f6⟩ := update_stats_fields (probe_ok env) p.2.1.rtt_ms s.g_stats
  have hsent : (update_stats (probe_ok env) p.2.1.rtt_ms s.g_stats).packets_sent = k + 1 := by
    rw [f1, hs]
    exact to_dword_of_lt _ (by omega)
  have hstate : apiStep s (Op.execute (some target) true env cm) =
      { p.2.2 with g_stats := update_stats (probe_ok env) p.2.1.rtt_ms s.g_stats } := by
    simp only [apiStep]
    rw [h3]
    split_ifs
    · rw [analyze_network_health_few cm _ (by show (update_stats _ _ _).packets_sent < 10; omega)]
    · rfl
  rw [hstate]
  refine ⟨hp.2.2.trans hi, hp.1.trans hc, hsent, ?_, f4.trans ha, f6.trans hlast,
    f5.trans hidx, hpa.trans hact⟩
  show (update_stats (probe_ok env) p.2.1.rtt_ms s.g_stats).packets_lost = _
  rw [f2, hlost]
  cases probe_ok env
  · simp only [Bool.false_eq_true, if_false]
    exact to_dword_of_lt _ (by omega)
  · simp

theorem activations_activation (tr : List Action) (cfg : ping_config_t) (index : Nat) :
    activations (tr ++ activation_actions cfg index ++ [Action.sleep COOLDOWN_MS]) =
      activations tr + 1 := by
  unfold activations activation_actions
  cases cfg.enable_dns_switching <;> cases cfg.enable_route_refresh <;>
    simp [List.count_append, List.count_cons]

/-- When `analyze_network_health` decides to trigger, it runs
`trigger_countermeasures` on the state it was given, up to log entries. -/
theorem analyze_network_health_shape (cm : CmEnv) (s : State) :
    ∃ t : State, ((analyze_network_health cm s).1 = true →
        (analyze_network_health cm s).2 = trigger_countermeasures cm t) ∧
      t.g_stats = s.g_stats ∧ t.trace = s.trace := by
  unfold analyze_network_health
  split_ifs
  · exact ⟨s, fun h => absurd h (by simp), rfl, rfl⟩
  · exact ⟨s, fun h => absurd h (by simp), rfl, rfl⟩
  · by_cases c1 : loss_percentage s.g_stats.packets_lost s.g_stats.packets_sent
        > (s.g_config.loss_threshold : ℚ) <;>
    by_cases c2 : s.g_stats.avg_rtt > (s.g_config.latency_threshold : ℚ) <;>
    by_cases c3 : s.g_stats.jitter > (s.g_config.jitter_threshold : ℚ) <;>
    simp only [c1, c2, c3, if_true, if_false, dbj_log_g_stats, dbj_log_g_config,
      Bool.false_eq_true] <;>
    first
    | exact ⟨_, fun _ => rfl, rfl, rfl⟩
    | exact ⟨s, fun h => absurd h (by simp), rfl, rfl⟩

/-- When `analyze_network_health` decides to trigger on an idle monitor, one
activation runs, stamped with the clock reading. -/
theorem analyze_network_health_triggered (cm : CmEnv) (s : State)
    (h : (analyze_network_health cm s).1 = true)
    (ha : s.g_stats.countermeasures_active = false) :
    activations (analyze_network_health cm s).2.trace = activations s.trace + 1 ∧
    (analyze_network_health cm s).2.g_stats.last_countermeasure = cm.now := by
  obtain ⟨t, h0, h1, h2⟩ := analyze_network_health_shape cm s
  obtain ⟨-, b, -, d⟩ := trigger_countermeasures_idle cm t (by rw [h1]; exact ha)
  rw [h0 h, d, activations_activation, h2]
  exact ⟨rfl, b⟩

/-- The tenth probe, a reply, with three of the nine before it lost and a loss
threshold of 20, starts an activation. -/
theorem tenth_probe_triggers (s0 s : State) (target : String) (env : PingEnv) (cm : CmEnv)
    (h : Quiet s0 s 9 3) (hen : s0.g_config.enable_countermeasures = true)
    (hthr : s0.g_config.loss_threshold = 20) (hok : probe_ok env = true) :
    (apiStep s (Op.execute (some target) true env cm)).g_stats.packets_sent = 10 ∧
    (apiStep s (Op.execute (some target) true env cm)).g_stats.packets_lost = 3 ∧
    activations (apiStep s (Op.execute (some target) true env cm)).trace =
      activations s0.trace + 1 ∧
    (apiStep s (Op.execute (some target) true env cm)).g_stats.last_countermeasure = cm.now := by
  obtain ⟨hi, hc, hs, hlost, ha, hlast, hidx, hact⟩ := h
  obtain ⟨-, -, h3⟩ := ping_execute_accepted target env cm s hi
  have hp := perform_ping_same (if target.length > 0 then target else s.g_config.target) env s
  have hpa := perform_ping_activations
    (if target.length > 0 then target else s.g_config.target) env s
  generalize perform_ping (if target.length > 0 then target else s.g_config.target) env s = p
    at h3 hp hpa
  obtain ⟨f1, f2, -, f4, f5, f6⟩ := update_stats_fields (probe_ok env) p.2.1.rtt_ms s.g_stats
  have hsent : (update_stats (probe_ok env) p.2.1.rtt_ms s.g_stats).packets_sent = 10 := by
    rw [f1, hs]
    exact to_dword_of_lt _ (by decide)
  have hl : (update_stats (probe_ok env) p.2.1.rtt_ms s.g_stats).packets_lost = 3 := by
    rw [f2, hok, if_pos rfl, hlost]
  have hstate : apiStep s (Op.execute (some target) true env cm) =
      (analyze_network_health cm
        { p.2.2 with g_stats := update_stats (probe_ok env) p.2.1.rtt_ms s.g_stats }).2 := by
    simp only [apiStep]
    rw [h3, hsent]
    rfl
  have hdec : (analyze_network_health cm
      { p.2.2 with g_stats := update_stats (probe_ok env) p.2.1.rtt_ms s.g_stats }).1 = true := by
    refine (analyze_network_health_decision cm _ ?_ (f4.trans ha) (Nat.le_of_eq hsent.symm)).mpr
      (Or.inl ?_)
    · show p.2.2.g_config.enable_countermeasures = true
      rw [hp.1, hc, hen]
    · show loss_percentage (update_stats (probe_ok env) p.2.1.rtt_ms s.g_stats).packets_lost
        (update_stats (probe_ok env) p.2.1.rtt_ms s.g_stats).packets_sent >
        (p.2.2.g_config.loss_threshold : ℚ)
      rw [hl, hsent, hp.1, hc, hthr, loss_percentage_3_10]
      norm_num
  obtain ⟨t1, t2⟩ := analyze_network_health_triggered cm _ hdec (f4.trans ha)
  obtain ⟨-, -, fr⟩ := analyze_network_health_frame cm
    { p.2.2 with g_stats := update_stats (probe_ok env) p.2.1.rtt_ms s.g_stats }
  rw [hstate]
  refine ⟨fr.1.trans hsent, fr.2.2.1.trans hl, ?_, t2⟩
  rw [t1]
  show activations p.2.2.trace + 1 = _
  rw [hpa, hact]

theorem lostUpTo_succ (k : Nat) (env : PingEnv)
    (h : probe_ok env = false ↔ (k = 1 ∨ k = 4 ∨ k = 7)) :
    lostUpTo (k + 1) = lostUpTo k + if probe_ok env then 0 else 1 := by
  unfold lostUpTo
  cases hp : probe_ok env
  · have := h.mp hp
    simp only [Bool.false_eq_true, if_false]
    rcases this with h' | h' | h' <;> subst h' <;> rfl
  · have hn : ¬ (k = 1 ∨ k = 4 ∨ k = 7) := fun hc => by
      rw [h.mpr hc] at hp
      exact absurd hp (by simp)
    simp only [if_true]
    split_ifs <;> omega

theorem lostUpTo_le (k : Nat) : lostUpTo k ≤ k := by
  unfold lostUpTo
  split_ifs <;> omega

/-- The first nine probes start no activation. -/
theorem quiet_run (s : State) (target : Nat → String) (e : Nat → PingEnv) (c : Nat → CmEnv)
    (hi : s.g_initialized = true) (hs : s.g_stats.packets_sent = 0)
    (hl : s.g_stats.packets_lost = 0) (ha : s.g_stats.countermeasures_active = false)
    (hok : ∀ i, i < 10 → (probe_ok (e i) = false ↔ (i = 1 ∨ i = 4 ∨ i = 7))) :
    ∀ k, k ≤ 9 → Quiet s (runOps s (probeOps target e c k)) k (lostUpTo k) := by
  intro k
  induction k with
  | zero => intro _; exact ⟨hi, rfl, hs, hl, ha, rfl, rfl, rfl⟩
  | succ k ih =>
    intro hk
    rw [probeOps_succ, runOps_append_singleton, lostUpTo_succ k (e k) (hok k (by omega))]
    exact quiet_step s _ k (lostUpTo k) (target k) (e k) (c k) (ih (by omega)) (by omega)
      (lostUpTo_le k)

/-- C12. From freshly reset statistics, with countermeasures enabled and a
loss threshold of 20, ten probes of which exactly the second, the fifth and
the eighth fail (whatever the round-trip times of the others): none of the
first nine calls starts an activation, and the tenth call, which brings the
counters to 10 sent and 3 lost (30 % loss), starts one. -/
theorem ten_probes_three_lost (s : State) (t0 : Nat) (target : Nat → String)
    (e : Nat → PingEnv) (c : Nat → CmEnv)
    (hi : s.g_initialized = true) (hfresh : s.g_stats = FRESH_STATS t0)
    (hen : s.g_config.enable_countermeasures = true)
    (hthr : s.g_config.loss_threshold = 20)
    (hok : ∀ i, i < 10 → (probe_ok (e i) = false ↔ (i = 1 ∨ i = 4 ∨ i = 7))) :
    (∀ k, k ≤ 9 →
      activations (runOps s (probeOps target e c k)).trace = activations s.trace ∧
      (runOps s (probeOps target e c k)).g_stats.last_countermeasure = t0) ∧
    activations (runOps s (probeOps target e c 10)).trace = activations s.trace + 1 ∧
    (runOps s (probeOps target e c 10)).g_stats.last_countermeasure = (c 9).now ∧
    (runOps s (probeOps target e c 10)).g_stats.packets_sent = 10 ∧
    (runOps s (probeOps target e c 10)).g_stats.packets_lost = 3 := by
  have hq := quiet_run s target e c hi (by rw [hfresh]; rfl) (by rw [hfresh]; rfl)
    (by rw [hfresh]; rfl) hok
  have hlast : s.g_stats.last_countermeasure = t0 := by rw [hfresh]; rfl
  refine ⟨fun k hk => ?_, ?_⟩
  · obtain ⟨-, -, -, -, -, h6, -, h8⟩ := hq k hk
    exact ⟨h8, h6.trans hlast⟩
  · have h9 := hq 9 (Nat.le_refl 9)
    have hok9 : probe_ok (e 9) = true := by
      cases hp : probe_ok (e 9)
      · have := (hok 9 (by decide)).mp hp
        omega
      · rfl
    obtain ⟨a, b, d, f⟩ := tenth_probe_triggers s _ (target 9) (e 9) (c 9) h9 hen hthr hok9
    rw [show probeOps target e c 10 = probeOps target e c 9 ++
      [Op.execute (some (target 9)) true (e 9) (c 9)] from probeOps_succ target e c 9,
      runOps_append_singleton]
    exact ⟨d, f, a, b⟩

/-- C12 on the sample answers: replies after 20 ms, the second, fifth and
eighth probes unresolved. -/
theorem ten_probes_three_lost_witness :
    (∀ k, k ≤ 9 →
      activations (runOps READY20 (probeOps (fun _ => "") SAMPLE_TEN SAMPLE_CM k)).trace =
        activations READY20.trace ∧
      (runOps READY20
        (probeOps (fun _ => "") SAMPLE_TEN SAMPLE_CM k)).g_stats.last_countermeasure = 0) ∧
    activations (runOps READY20 (probeOps (fun _ => "") SAMPLE_TEN SAMPLE_CM 10)).trace =
      activations READY20.trace + 1 ∧
    (runOps READY20 (probeOps (fun _ => "") SAMPLE_TEN SAMPLE_CM 10)).g_stats.last_countermeasure
      = (SAMPLE_CM 9).now ∧
    (runOps READY20 (probeOps (fun _ => "") SAMPLE_TEN SAMPLE_CM 10)).g_stats.packets_sent = 10 ∧
    (runOps READY20 (probeOps (fun _ => "") SAMPLE_TEN SAMPLE_CM 10)).g_stats.packets_lost = 3 :=
  ten_probes_three_lost READY20 0 (fun _ => "") SAMPLE_TEN SAMPLE_CM rfl rfl rfl rfl
    (fun i hi => by interval_cases i <;> decide)

/-! ## Replacing and reading the configuration -/

/-- C21. On an initialized monitor `ping_set_config` with any configuration
`c` returns `ERROR_SUCCESS` (whatever the outcome of writing the INI file) and
a `ping_get_config` that follows returns `ERROR_SUCCESS` and exactly `c`:
every field, the resolver table and the count included, is the one of `c`. -/
theorem set_config_then_get_config (c : ping_config_t) (env : IniEnv) (s : State)
    (h : s.g_initialized = true) :
    (ping_set_config (some c) env s).1 = ERROR_SUCCESS ∧
    ping_get_config true (ping_set_config (some c) env s).2 = (ERROR_SUCCESS, some c) := by
  have h1 := ping_set_config_g_config c env s h
  have h2 := (ping_set_config_same (some c) env s).1
  refine ⟨?_, ?_⟩
  · unfold ping_set_config
    simp [h]
  · unfold ping_get_config
    rw [h1, h2, h]
    rfl

/-- C21 at a concrete state: the initialized monitor, a configuration with
three resolvers, and an INI file that cannot be written. -/
theorem set_config_then_get_config_witness :
    (ping_set_config (some THREE_DNS_CONFIG) { SAMPLE_INI with write_ok := false } READY).1
      = ERROR_SUCCESS ∧
    ping_get_config true
      (ping_set_config (some THREE_DNS_CONFIG) { SAMPLE_INI with write_ok := false } READY).2
      = (ERROR_SUCCESS, some THREE_DNS_CONFIG) :=
  set_config_then_get_config THREE_DNS_CONFIG { SAMPLE_INI with write_ok := false } READY rfl

/-! ## Cleanup -/

/-- C23. `ping_cleanup` is idempotent: a second call right after the first
changes nothing (so the handle is closed and `WSACleanup` is called once, by
the first call only); after it the monitor is not initialized, `ping_execute`
and `ping_reset_stats` return `ERROR_NOT_READY`, and they are accepted again
once a `ping_initialize` has made the monitor initialized. -/
theorem cleanup_idempotent (s : State) (target : Option String) (result_given : Bool)
    (env : PingEnv) (cm : CmEnv) (now : Nat) :
    ping_cleanup (ping_cleanup s) = ping_cleanup s ∧
    (ping_cleanup s).g_initialized = false ∧
    (s.g_initialized = true →
      (ping_cleanup s).trace =
        s.trace ++ (if s.g_icmp_handle.isSome then [Action.icmp_close_handle] else []) ++
          [Action.wsa_cleanup]) ∧
    ping_execute target result_given env cm (ping_cleanup s) =
      (ERROR_NOT_READY, none, ping_cleanup s) ∧
    ping_reset_stats now (ping_cleanup s) = (ERROR_NOT_READY, ping_cleanup s) ∧
    (∀ ienv : InitEnv, Initializes ienv (ping_cleanup s) →
      (ping_reset_stats now ( ping_initialize ienv (ping_cleanup s)).2).1 = ERROR_SUCCESS ∧
      (ping_execute (some "") true env cm ( ping_initialize ienv (ping_cleanup s)).2).1
        ≠ ERROR_NOT_READY) := by
  have hc : (ping_cleanup s).g_initialized = false := by
    unfold ping_cleanup
    cases hi : s.g_initialized with
    | false => simp [hi]
    | true => cases hh : s.g_icmp_handle <;> simp [hh]
  refine ⟨?_, hc, ?_, ?_, ?_, ?_⟩
  · generalize ping_cleanup s = t at hc
    unfold ping_cleanup
    simp [hc]
  · intro hi
    unfold ping_cleanup
    cases hh : s.g_icmp_handle <;> simp [hi, hh]
  · unfold ping_execute
    simp [hc]
  · unfold ping_reset_stats
    simp [hc]
  · intro ienv hinit
    have hr := hinit.2
    generalize ( ping_initialize ienv (ping_cleanup s)).2 = t at hr
    constructor
    · unfold ping_reset_stats
      simp [hr]
    · rw [(ping_execute_accepted "" env cm t hr).1]
      split_ifs <;> decide

/-- C23 at a concrete state: the initialized monitor (one open ICMP handle). -/
theorem cleanup_idempotent_witness :
    ping_cleanup (ping_cleanup READY) = ping_cleanup READY ∧
    (ping_cleanup READY).g_initialized = false ∧
    (ping_cleanup READY).trace =
      READY.trace ++ [Action.icmp_close_handle] ++ [Action.wsa_cleanup] ∧
    ping_execute (some "8.8.8.8") true (SAMPLE_REPLY 20) (SAMPLE_CM 0) (ping_cleanup READY) =
      (ERROR_NOT_READY, none, ping_cleanup READY) ∧
    ping_reset_stats 5 (ping_cleanup READY) = (ERROR_NOT_READY, ping_cleanup READY) ∧
    (ping_reset_stats 5 ( ping_initialize SAMPLE_INIT (ping_cleanup READY)).2).1
      = ERROR_SUCCESS ∧
    (ping_execute (some "") true (SAMPLE_REPLY 20) (SAMPLE_CM 0)
      ( ping_initialize SAMPLE_INIT (ping_cleanup READY)).2).1 ≠ ERROR_NOT_READY :=
  have h := cleanup_idempotent READY (some "8.8.8.8") true (SAMPLE_REPLY 20) (SAMPLE_CM 0) 5
  ⟨h.1, h.2.1, h.2.2.1 rfl, h.2.2.2.1, h.2.2.2.2.1,
    h.2.2.2.2.2 SAMPLE_INIT ⟨rfl, rfl⟩⟩

/-! ## The flag when a call returns -/

theorem trigger_countermeasures_flag (cm : CmEnv) (s : State) :
    (trigger_countermeasures cm s).g_stats.countermeasures_active = false := by
  cases h : s.g_stats.countermeasures_active with
  | true => exact (trigger_countermeasures_active cm s h).2.2.2
  | false => exact (trigger_countermeasures_idle cm s h).1

theorem analyze_network_health_flag (cm : CmEnv) (s : State)
    (h : s.g_stats.countermeasures_active = false) :
    (analyze_network_health cm s).2.g_stats.countermeasures_active = false := by
  unfold analyze_network_health
  dsimp only
  split_ifs <;> first
    | exact h
    | exact trigger_countermeasures_flag cm _

theorem apiStep_flag (s : State) (op : Op) (h : s.g_stats.countermeasures_active = false) :
    (apiStep s op).g_stats.countermeasures_active = false := by
  cases op with
  | execute target result_given env cm =>
    simp only [apiStep]
    unfold ping_execute
    cases hi : s.g_initialized with
    | false => exact h
    | true =>
      cases target with
      | none => exact h
      | some target =>
        cases result_given with
        | false => exact h
        | true =>
          dsimp only
          generalize (if target.length > 0 then target else s.g_config.target) = ping_target
          have hg := perform_ping_g_stats ping_target env s
          generalize perform_ping ping_target env s = p at hg
          simp only [Bool.not_true, Bool.false_eq_true, if_false]
          rw [hg]
          have hu := (update_stats_fields p.1 p.2.1.rtt_ms s.g_stats).2.2.2.1
          split_ifs
          · exact analyze_network_health_flag cm _ (hu.trans h)
          · exact hu.trans h
  | get_stats _ => exact h
  | get_config _ => exact h
  | set_config config env =>
    simp only [apiStep]
    rw [(ping_set_config_same config env s).2]
    exact h
  | reset_stats now =>
    simp only [apiStep, ping_reset_stats]
    split_ifs
    · exact h
    · rfl
  | force_countermeasures cm =>
    simp only [apiStep, ping_force_countermeasures]
    split_ifs
    · exact h
    · exact trigger_countermeasures_flag cm _

/-- C29. `trigger_countermeasures` returns with `countermeasures_active`
false from every state (flag set or clear on entry), so does
`ping_force_countermeasures` on an initialized monitor; and after a successful
`ping_initialize`, whatever calls follow one after the other, `ping_get_stats`
succeeds with a snapshot whose `countermeasures_active` is false. -/
theorem flag_clear_on_return (cm : CmEnv) (s : State) (env : InitEnv) (s0 : State)
    (ops : List Op) (hinit : Initializes env s0) :
    (trigger_countermeasures cm s).g_stats.countermeasures_active = false ∧
    (s.g_initialized = true →
      (ping_force_countermeasures cm s).2.g_stats.countermeasures_active = false) ∧
    ∃ snap, ping_get_stats true (runOps ( ping_initialize env s0).2 ops)
        = (ERROR_SUCCESS, some snap) ∧
      snap.countermeasures_active = false := by
  refine ⟨trigger_countermeasures_flag cm s, ?_, ?_⟩
  · intro hi
    unfold ping_force_countermeasures
    simp only [hi, Bool.not_true, Bool.false_eq_true, if_false]
    exact trigger_countermeasures_flag cm _
  · have h0 : ( ping_initialize env s0).2.g_stats.countermeasures_active = false := by
      rw [(ping_initialize_ready env s0 hinit).2.1]
      rfl
    have hi := runOps_g_initialized _ ops hinit.2
    have hf := runOps_induction (fun t => t.g_stats.countermeasures_active = false)
      apiStep_flag ops _ h0
    refine ⟨_, ?_, hf⟩
    unfold ping_get_stats
    simp [hi]

/-- C29 at concrete states: `trigger_countermeasures` entered with the flag
set (`SLEEPING`); a forced activation on the initialized monitor; and a run of
a forced activation followed by a probe. -/
theorem flag_clear_on_return_witness :
    SLEEPING.g_stats.countermeasures_active = true ∧
    (trigger_countermeasures (SAMPLE_CM 2) SLEEPING).g_stats.countermeasures_active = false ∧
    (ping_force_countermeasures (SAMPLE_CM 2) READY).2.g_stats.countermeasures_active
      = false ∧
    ∃ snap, ping_get_stats true (runOps ( ping_initialize SAMPLE_INIT LOADED).2
        [Op.force_countermeasures (SAMPLE_CM 2),
          Op.execute (some "8.8.8.8") true (SAMPLE_REPLY 20) (SAMPLE_CM 3)])
        = (ERROR_SUCCESS, some snap) ∧
      snap.countermeasures_active = false :=
  ⟨SLEEPING_active,
    (flag_clear_on_return (SAMPLE_CM 2) SLEEPING SAMPLE_INIT LOADED [] ⟨rfl, rfl⟩).1,
    (flag_clear_on_return (SAMPLE_CM 2) READY SAMPLE_INIT LOADED
      [Op.force_countermeasures (SAMPLE_CM 2),
        Op.execute (some "8.8.8.8") true (SAMPLE_REPLY 20) (SAMPLE_CM 3)] ⟨rfl, rfl⟩).2.1 rfl,
    (flag_clear_on_return (SAMPLE_CM 2) READY SAMPLE_INIT LOADED
      [Op.force_countermeasures (SAMPLE_CM 2),
        Op.execute (some "8.8.8.8") true (SAMPLE_REPLY 20) (SAMPLE_CM 3)] ⟨rfl, rfl⟩).2.2⟩

/-! ## The rotation index when the launch fails -/

/-- C30. With resolver rotation enabled, `switch_dns_server` advances the
index first and launches `netsh` with the entry at the advanced index; when
the launch fails the function returns false and the index stays advanced.
After an activation from Idle whose `netsh` launch failed, with at least two
resolvers configured, the index is the advanced one and differs from the index
before the activation. -/
theorem rotation_index_kept_on_failure (env : CmEnv) (s : State)
    (hidle : s.g_stats.countermeasures_active = false)
    (hd : s.g_config.enable_dns_switching = true) (hfail : env.netsh_ok = false)
    (h2 : 2 ≤ s.g_config.backup_dns_count) (hlt : s.g_config.backup_dns_count < 2 ^ 32) :
    (switch_dns_server env.netsh_ok s).1 = false ∧
    (switch_dns_server env.netsh_ok s).2.g_stats.current_dns_index =
      next_dns_index s.g_stats.current_dns_index s.g_config.backup_dns_count ∧
    (switch_dns_server env.netsh_ok s).2.trace =
      s.trace ++ [Action.netsh_set_dns (s.g_config.backup_dns.getD
        (next_dns_index s.g_stats.current_dns_index s.g_config.backup_dns_count) "")] ∧
    (trigger_countermeasures env s).g_stats.current_dns_index =
      next_dns_index s.g_stats.current_dns_index s.g_config.backup_dns_count ∧
    (trigger_countermeasures env s).g_stats.current_dns_index ≠ s.g_stats.current_dns_index := by
  have hidx := (trigger_countermeasures_idle env s hidle).2.2.1
  rw [if_pos hd] at hidx
  have hne : next_dns_index s.g_stats.current_dns_index s.g_config.backup_dns_count
      ≠ s.g_stats.current_dns_index := by
    generalize s.g_stats.current_dns_index = i at *
    generalize s.g_config.backup_dns_count = n at *
    unfold next_dns_index dword_pred to_dword
    have hn : n ≠ 0 := by omega
    simp only [hn, if_false]
    norm_num at hlt
    split_ifs with hge
    · omega
    · have : i + 1 < 4294967296 := by omega
      norm_num
      rw [Nat.mod_eq_of_lt this]
      omega
  refine ⟨?_, ?_, ?_, hidx, ?_⟩
  · simp [switch_dns_server, hfail]
  · simp [switch_dns_server, hfail]
  · simp [switch_dns_server, hfail]
  · rw [hidx]
    exact hne

/-- C30 at a concrete state: the initialized monitor (eight resolvers, index
0) and an activation in which every launch fails; the index becomes 1. -/
theorem rotation_index_kept_on_failure_witness :
    (switch_dns_server false READY).1 = false ∧
    (switch_dns_server false READY).2.g_stats.current_dns_index = 1 ∧
    (switch_dns_server false READY).2.trace =
      READY.trace ++ [Action.netsh_set_dns "1.1.1.1"] ∧
    (trigger_countermeasures (SAMPLE_CM_FAIL 9) READY).g_stats.current_dns_index = 1 ∧
    (trigger_countermeasures (SAMPLE_CM_FAIL 9) READY).g_stats.current_dns_index
      ≠ READY.g_stats.current_dns_index :=
  rotation_index_kept_on_failure (SAMPLE_CM_FAIL 9) READY rfl rfl rfl (by decide) (by decide)

/-! ## The result of a probe -/

/-- The accepted path of `ping_execute` in two halves: the probe and the
statistics update, then (by the cadence test) the health analysis. -/
theorem ping_execute_split (target : String) (env : PingEnv) (cm : CmEnv) (s : State)
    (hi : s.g_initialized = true) :
    (ping_execute (some target) true env cm s).2.2 =
      (if ping_execute_analyzes (some target) true env s then
        (analyze_network_health cm (ping_execute_recorded target env s)).2
       else ping_execute_recorded target env s) := by
  unfold ping_execute ping_execute_analyzes ping_execute_recorded
  simp only [hi, Bool.not_true, Bool.false_eq_true, if_false, Bool.true_and,
    decide_eq_true_eq]

theorem ping_execute_recorded_stats (target : String) (env : PingEnv) (s : State) :
    (ping_execute_recorded target env s).g_stats =
      update_stats (probe_ok env)
        (perform_ping (if target.length > 0 then target else s.g_config.target) env s).2.1.rtt_ms
        s.g_stats := by
  unfold ping_execute_recorded
  dsimp only
  rw [perform_ping_g_stats, perform_ping_ok]

theorem ping_execute_recorded_activations (target : String) (env : PingEnv) (s : State) :
    activations (ping_execute_recorded target env s).trace = activations s.trace := by
  unfold ping_execute_recorded
  exact perform_ping_activations _ env s

theorem perform_ping_success (target : String) (env : PingEnv) (s : State) :
    (perform_ping target env s).2.1.success = probe_ok env ∧
    ((perform_ping target env s).2.1.success = false →
      (perform_ping target env s).2.1.status ∈
        [IP_DEST_HOST_UNREACHABLE, IP_BAD_DESTINATION, IP_NO_RESOURCES,
          to_dword env.echo_status, to_dword env.last_error]) ∧
    (probe_ok env = true → (perform_ping target env s).2.1.rtt_ms = to_dword env.echo_rtt) := by
  unfold perform_ping resolve_hostname probe_ok
  cases hr : env.resolved <;> cases hi : env.inet_addr_ok <;> cases hh : env.heap_alloc_ok <;>
    simp [ERROR_SUCCESS, ERROR_INVALID_PARAMETER, ZERO_RESULT]
  split_ifs <;> simp_all

/-- C22. On an initialized monitor, `ping_execute` with a target and a
result buffer always writes a result and returns: `ERROR_SUCCESS` exactly when
the result has `success = true`, otherwise `ERROR_NETWORK_UNREACHABLE` with a
result whose status is the code of the step that failed. In both cases
`packets_sent` is incremented (a `DWORD` increment, exact below `2 ^ 32`);
a failure increments `packets_lost` and leaves `packets_received`, a success
increments `packets_received` and leaves `packets_lost`. -/
theorem execute_result (target : String) (env : PingEnv) (cm : CmEnv) (s : State)
    (hi : s.g_initialized = true) :
    ∃ r : ping_result_t,
      (ping_execute (some target) true env cm s).2.1 = some r ∧
      ((ping_execute (some target) true env cm s).1 = ERROR_SUCCESS ↔ r.success = true) ∧
      (r.success = false →
        (ping_execute (some target) true env cm s).1 = ERROR_NETWORK_UNREACHABLE ∧
        r.status ∈ [IP_DEST_HOST_UNREACHABLE, IP_BAD_DESTINATION, IP_NO_RESOURCES,
          to_dword env.echo_status, to_dword env.last_error]) ∧
      (ping_execute (some target) true env cm s).2.2.g_stats.packets_sent =
        to_dword (s.g_stats.packets_sent + 1) ∧
      (s.g_stats.packets_sent + 1 < 2 ^ 32 →
        (ping_execute (some target) true env cm s).2.2.g_stats.packets_sent =
          s.g_stats.packets_sent + 1) ∧
      (ping_execute (some target) true env cm s).2.2.g_stats.packets_lost =
        (if r.success then s.g_stats.packets_lost
          else to_dword (s.g_stats.packets_lost + 1)) ∧
      (ping_execute (some target) true env cm s).2.2.g_stats.packets_received =
        (if r.success then to_dword (s.g_stats.packets_received + 1)
          else s.g_stats.packets_received) := by
  obtain ⟨h1, h2, -⟩ := ping_execute_accepted target env cm s hi
  obtain ⟨-, -, c3, c4, c5, -⟩ := (ping_execute_counters target env cm s hi).2
  obtain ⟨p1, p2, -⟩ := perform_ping_success
    (if target.length > 0 then target else s.g_config.target) env s
  have hok := perform_ping_ok (if target.length > 0 then target else s.g_config.target) env s
  have hsent := ping_execute_sent target env cm s hi
  obtain ⟨-, f2, f3, -⟩ := update_stats_fields
    (perform_ping (if target.length > 0 then target else s.g_config.target) env s).1
    (perform_ping (if target.length > 0 then target else s.g_config.target) env s).2.1.rtt_ms
    s.g_stats
  refine ⟨_, h2, ?_, ?_, hsent, ?_, ?_, ?_⟩
  · rw [h1, p1]
    cases probe_ok env <;> simp [ERROR_SUCCESS, ERROR_NETWORK_UNREACHABLE]
  · intro hf
    refine ⟨?_, p2 hf⟩
    rw [h1, ← p1, hf]
    rfl
  · intro hlt
    rw [hsent]
    exact to_dword_of_lt _ (by norm_num at hlt; exact hlt)
  · rw [(ping_execute_counters target env cm s hi).2.2.2.1, f2, p1, hok]
  · rw [(ping_execute_counters target env cm s hi).2.2.1, f3, p1, hok]

/-- C22 at a concrete state: on the initialized monitor a probe whose name
does not resolve returns `ERROR_NETWORK_UNREACHABLE` with status
`IP_DEST_HOST_UNREACHABLE` and is counted as sent and lost. -/
theorem execute_result_witness :
    (ping_execute (some "nowhere") true SAMPLE_UNRESOLVED (SAMPLE_CM 0) READY).1
      = ERROR_NETWORK_UNREACHABLE ∧
    ((ping_execute (some "nowhere") true SAMPLE_UNRESOLVED (SAMPLE_CM 0) READY).2.1.map
      (fun r => (r.success, r.status))) = some (false, IP_DEST_HOST_UNREACHABLE) ∧
    (ping_execute (some "nowhere") true SAMPLE_UNRESOLVED (SAMPLE_CM 0) READY).2.2.g_stats.packets_sent
      = 1 ∧
    (ping_execute (some "nowhere") true SAMPLE_UNRESOLVED (SAMPLE_CM 0) READY).2.2.g_stats.packets_lost
      = 1 ∧
    ∃ r : ping_result_t,
      (ping_execute (some "nowhere") true SAMPLE_UNRESOLVED (SAMPLE_CM 0) READY).2.1 = some r ∧
      ((ping_execute (some "nowhere") true SAMPLE_UNRESOLVED (SAMPLE_CM 0) READY).1
        = ERROR_SUCCESS ↔ r.success = true) :=
  ⟨by decide, by decide, by decide, by decide,
    (execute_result "nowhere" SAMPLE_UNRESOLVED (SAMPLE_CM 0) READY rfl).imp
      (fun _ h => ⟨h.1, h.2.1⟩)⟩

/-! ## The cooldown wait -/

theorem STRAINED_triggers :
    ping_execute_analyzes (some "nowhere") true SAMPLE_UNRESOLVED STRAINED = true ∧
    (analyze_network_health (SAMPLE_CM 4)
      (ping_execute_recorded "nowhere" SAMPLE_UNRESOLVED STRAINED)).1 = true := by
  refine ⟨by decide, ?_⟩
  have hs : (ping_execute_recorded "nowhere" SAMPLE_UNRESOLVED STRAINED).g_stats.packets_sent
      = 15 := by decide
  have hl : (ping_execute_recorded "nowhere" SAMPLE_UNRESOLVED STRAINED).g_stats.packets_lost
      = 6 := by decide
  have ht : (ping_execute_recorded "nowhere" SAMPLE_UNRESOLVED STRAINED).g_config.loss_threshold
      = 30 := by decide
  refine (analyze_network_health_decision (SAMPLE_CM 4) _ (by decide) (by decide)
    (by rw [hs]; decide)).mpr (Or.inl ?_)
  rw [hs, hl, ht, loss_percentage_6_15]
  norm_num

/-- C24 as stated fails: a forced activation on the initialized, idle monitor
makes the call `Sleep(30000)` itself, as the last thing the call does outside
the process. -/
theorem cooldown_inside_call_counterexample :
    READY.g_initialized = true ∧ READY.g_stats.countermeasures_active = false ∧
    (ping_force_countermeasures (SAMPLE_CM 1) READY).1 = ERROR_SUCCESS ∧
    (ping_force_countermeasures (SAMPLE_CM 1) READY).2.trace =
      READY.trace ++ [Action.netsh_set_dns "1.1.1.1", Action.arp_flush,
        Action.ipconfig_flushdns, Action.sleep 30000] := by
  decide

/-- C24, amended. A call that starts an activation on an initialized, idle
monitor performs the 30-second wait itself: `ping_force_countermeasures`, and
a `ping_execute` whose health analysis triggers, end their external calls with
`Sleep(30000)` (one more completed wait in the trace); and a thread that
entered the critical section at time `t` is inside `Sleep` until
`t + busy + 30000` and cannot take its next step, towards the return, before
that time. -/
theorem cooldown_sleep_inside_call (target : String) (env : PingEnv) (cm : CmEnv) (s : State)
    (t t1 busy : Nat) (hi : s.g_initialized = true)
    (hidle : s.g_stats.countermeasures_active = false) :
    (ping_force_countermeasures cm s).2.trace.getLast? = some (Action.sleep COOLDOWN_MS) ∧
    activations (ping_force_countermeasures cm s).2.trace = activations s.trace + 1 ∧
    (ping_execute_analyzes (some target) true env s = true →
      (analyze_network_health cm (ping_execute_recorded target env s)).1 = true →
      (ping_execute (some target) true env cm s).2.2.trace.getLast?
        = some (Action.sleep COOLDOWN_MS) ∧
      activations (ping_execute (some target) true env cm s).2.2.trace
        = activations s.trace + 1) ∧
    (callerStep t cm busy .start s).map Prod.fst = some (.sleeping (t + busy + COOLDOWN_MS)) ∧
    (t1 < t + busy + COOLDOWN_MS →
      ∀ s1 : State, callerStep t1 cm busy (.sleeping (t + busy + COOLDOWN_MS)) s1 = none) := by
  have hf : (ping_force_countermeasures cm s).2.trace =
      s.trace ++ activation_actions s.g_config s.g_stats.current_dns_index ++
        [Action.sleep COOLDOWN_MS] := by
    have h4 := (trigger_countermeasures_idle cm
      (dbj_log .LOG_INFO "Forcing countermeasures activation" s) hidle).2.2.2
    unfold ping_force_countermeasures
    simp only [hi, Bool.not_true, Bool.false_eq_true, if_false]
    exact h4
  refine ⟨?_, ?_, ?_, ?_, ?_⟩
  · rw [hf, List.getLast?_append]
    rfl
  · rw [hf, activations_activation]
  · intro ha ht
    have hs := ping_execute_recorded_stats target env s
    have hidle1 : (ping_execute_recorded target env s).g_stats.countermeasures_active
        = false := by
      rw [hs]
      exact (update_stats_fields _ _ _).2.2.2.1.trans hidle
    rw [ping_execute_split target env cm s hi, if_pos ha]
    obtain ⟨u, h0, h1, h2⟩ := analyze_network_health_shape cm
      (ping_execute_recorded target env s)
    have hu := (trigger_countermeasures_idle cm u (by rw [h1]; exact hidle1)).2.2.2
    rw [h0 ht, hu]
    constructor
    · rw [List.getLast?_append]
      rfl
    · rw [activations_activation, h2, ping_execute_recorded_activations]
  · rw [callerStep_start_idle t cm busy s hi hidle]
    rfl
  · intro hlt s1
    simp only [callerStep]
    rw [if_neg (by omega)]

/-- C24 (amended) at a concrete state: fourteen probes sent and five lost; a
forced activation, and a fifteenth probe that fails and triggers, both end
with the wait; a thread that entered at 1 s with 200 ms of launches cannot
step at 31 s. -/
theorem cooldown_sleep_inside_call_witness :
    (ping_force_countermeasures (SAMPLE_CM 4) STRAINED).2.trace.getLast?
      = some (Action.sleep COOLDOWN_MS) ∧
    activations (ping_force_countermeasures (SAMPLE_CM 4) STRAINED).2.trace
      = activations STRAINED.trace + 1 ∧
    ((ping_execute (some "nowhere") true SAMPLE_UNRESOLVED (SAMPLE_CM 4) STRAINED).2.2.trace.getLast?
        = some (Action.sleep COOLDOWN_MS) ∧
      activations (ping_execute (some "nowhere") true SAMPLE_UNRESOLVED (SAMPLE_CM 4)
        STRAINED).2.2.trace = activations STRAINED.trace + 1) ∧
    (callerStep 1000 (SAMPLE_CM 4) 200 .start STRAINED).map Prod.fst
      = some (.sleeping (1000 + 200 + COOLDOWN_MS)) ∧
    callerStep 31000 (SAMPLE_CM 4) 200 (.sleeping (1000 + 200 + COOLDOWN_MS)) STRAINED = none :=
  have h := cooldown_sleep_inside_call "nowhere" SAMPLE_UNRESOLVED (SAMPLE_CM 4) STRAINED
    1000 31000 200 rfl rfl
  ⟨h.1, h.2.1, h.2.2.1 STRAINED_triggers.1 STRAINED_triggers.2, h.2.2.2.1,
    h.2.2.2.2 (by decide) STRAINED⟩

/-! ## The cadence of the health analysis -/

theorem recordedSinceReset_append_singleton (ops : List Op) (op : Op) :
    recordedSinceReset (ops ++ [op]) = recordStep (recordedSinceReset ops) op := by
  simp [recordedSinceReset, List.foldl_append]

theorem ping_execute_rejected (target : Option String) (result_given : Bool) (env : PingEnv)
    (cm : CmEnv) (s : State) (h : target = none ∨ result_given = false) :
    (ping_execute target result_given env cm s).2.2 = s := by
  unfold ping_execute
  rcases h with h | h
  · subst h
    split_ifs <;> rfl
  · subst h
    cases target <;> cases s.g_initialized <;> rfl

/-- One call keeps `packets_sent` equal to the number of probes recorded since
the last reset, as long as that number is a `DWORD`. -/
theorem apiStep_sent (s : State) (op : Op) (n : Nat) (hinit : s.g_initialized = true)
    (h : n < 4294967296 → s.g_stats.packets_sent = n) :
    recordStep n op < 4294967296 → (apiStep s op).g_stats.packets_sent = recordStep n op := by
  cases op with
  | execute target result_given env cm =>
    cases target with
    | none =>
      intro hlt
      simp only [apiStep, recordStep] at hlt ⊢
      rw [ping_execute_rejected none result_given env cm s (Or.inl rfl)]
      exact h hlt
    | some target =>
      cases result_given with
      | false =>
        intro hlt
        simp only [apiStep, recordStep] at hlt ⊢
        rw [ping_execute_rejected (some target) false env cm s (Or.inr rfl)]
        exact h hlt
      | true =>
        intro hlt
        simp only [apiStep, recordStep] at hlt ⊢
        rw [ping_execute_sent target env cm s hinit, h (by omega)]
        exact to_dword_of_lt _ hlt
  | get_stats _ => exact h
  | get_config _ => exact h
  | set_config config env =>
    intro hlt
    simp only [apiStep, recordStep] at hlt ⊢
    rw [(ping_set_config_same config env s).2]
    exact h hlt
  | reset_stats now =>
    intro _
    simp only [apiStep, recordStep, ping_reset_stats, hinit, Bool.not_true, Bool.false_eq_true,
      if_false]
    rfl
  | force_countermeasures cm =>
    intro hlt
    simp only [apiStep, recordStep] at hlt ⊢
    rw [(ping_force_countermeasures_frame cm s).2.2.1]
    exact h hlt

theorem runOps_sent (s : State) (hinit : s.g_initialized = true)
    (hfresh : s.g_stats.packets_sent = 0) (ops : List Op) :
    recordedSinceReset ops < 4294967296 →
      (runOps s ops).g_stats.packets_sent = recordedSinceReset ops := by
  induction ops using List.reverseRecOn with
  | nil => exact fun _ => hfresh
  | append_singleton ops op ih =>
    rw [runOps_append_singleton, recordedSinceReset_append_singleton]
    exact apiStep_sent (runOps s ops) op (recordedSinceReset ops)
      (runOps_g_initialized s ops hinit) ih

theorem probes_succ (n : Nat) :
    probes (n + 1) = probes n ++ [Op.execute (some "") true (SAMPLE_REPLY 20) (SAMPLE_CM 0)] := by
  unfold probes
  exact List.replicate_succ' _ _

theorem recordedSinceReset_probes (n : Nat) : recordedSinceReset (probes n) = n := by
  induction n with
  | zero => rfl
  | succ n ih => rw [probes_succ, recordedSinceReset_append_singleton, ih]; rfl

theorem runOps_probes_sent (n : Nat) (s : State) (hi : s.g_initialized = true)
    (h : s.g_stats.packets_sent = 0) :
    (runOps s (probes n)).g_stats.packets_sent = n % 4294967296 := by
  induction n with
  | zero => exact h
  | succ n ih =>
    rw [probes_succ, runOps_append_singleton]
    simp only [apiStep]
    rw [ping_execute_sent "" _ _ _ (runOps_g_initialized s _ hi), ih]
    unfold to_dword
    norm_num

/-- C27 as stated fails when the `DWORD` counter wraps: the probe number
`2 ^ 32` after initialization (all recorded, none reset) makes `packets_sent`
0 again, so the health analysis is called although `2 ^ 32` is not a multiple
of 5. -/
theorem analyzer_cadence_counterexample :
    Initializes SAMPLE_INIT LOADED ∧
    recordedSinceReset
      (probes 4294967295 ++ [Op.execute (some "") true (SAMPLE_REPLY 20) (SAMPLE_CM 0)])
      = 4294967296 ∧
    ¬ (5 ∣ 4294967296) ∧
    ping_execute_analyzes (some "") true (SAMPLE_REPLY 20)
      (runOps ( ping_initialize SAMPLE_INIT LOADED).2 (probes 4294967295)) = true := by
  have hi := runOps_g_initialized ( ping_initialize SAMPLE_INIT LOADED).2 (probes 4294967295) rfl
  have hs := runOps_probes_sent 4294967295 ( ping_initialize SAMPLE_INIT LOADED).2 rfl rfl
  refine ⟨⟨rfl, rfl⟩, ?_, by decide, ?_⟩
  · rw [recordedSinceReset_append_singleton, recordedSinceReset_probes]
    rfl
  · generalize runOps ( ping_initialize SAMPLE_INIT LOADED).2 (probes 4294967295) = t at hi hs
    unfold ping_execute_analyzes
    simp only [hi, Bool.true_and, decide_eq_true_eq]
    rw [ping_execute_recorded_stats, (update_stats_fields _ _ _).1, hs]
    decide

/-- C27, amended. After a successful `ping_initialize` and any calls, as long
as fewer than `2 ^ 32` probes were recorded since the last reset, a
`ping_execute` that passes the argument checks calls `analyze_network_health`
exactly when the number of probes recorded since the last reset, this one
included, is a multiple of 5, and then the state it leaves is the one the
analysis leaves; otherwise it is the state right after the statistics update.
A call that is rejected never calls the analysis. -/
theorem analyzer_cadence (env : InitEnv) (s0 : State) (ops : List Op) (target : String)
    (penv : PingEnv) (cm : CmEnv) (hinit : Initializes env s0)
    (hlt : recordedSinceReset (ops ++ [Op.execute (some target) true penv cm]) < 2 ^ 32) :
    (ping_execute_analyzes (some target) true penv (runOps ( ping_initialize env s0).2 ops) = true ↔
      5 ∣ recordedSinceReset (ops ++ [Op.execute (some target) true penv cm])) ∧
    (ping_execute (some target) true penv cm (runOps ( ping_initialize env s0).2 ops)).2.2 =
      (if 5 ∣ recordedSinceReset (ops ++ [Op.execute (some target) true penv cm]) then
        (analyze_network_health cm
          (ping_execute_recorded target penv (runOps ( ping_initialize env s0).2 ops))).2
       else ping_execute_recorded target penv (runOps ( ping_initialize env s0).2 ops)) ∧
    ping_execute_analyzes none true penv (runOps ( ping_initialize env s0).2 ops) = false ∧
    ping_execute_analyzes (some target) false penv (runOps ( ping_initialize env s0).2 ops)
      = false := by
  have hi := runOps_g_initialized _ ops hinit.2
  have h0 : ( ping_initialize env s0).2.g_stats.packets_sent = 0 := by
    rw [(ping_initialize_ready env s0 hinit).2.1]
    rfl
  have hlt1 : recordedSinceReset (ops ++ [Op.execute (some target) true penv cm])
      < 4294967296 := by
    norm_num at hlt
    exact hlt
  have hs := runOps_sent _ hinit.2 h0 (ops ++ [Op.execute (some target) true penv cm]) hlt1
  rw [runOps_append_singleton] at hs
  simp only [apiStep] at hs
  have hsplit := ping_execute_split target penv cm _ hi
  have hrec : (ping_execute_recorded target penv
      (runOps ( ping_initialize env s0).2 ops)).g_stats.packets_sent =
      recordedSinceReset (ops ++ [Op.execute (some target) true penv cm]) := by
    rw [ping_execute_recorded_stats, (update_stats_fields _ _ _).1,
      ← ping_execute_sent target penv cm _ hi]
    exact hs
  have hiff : ping_execute_analyzes (some target) true penv
      (runOps ( ping_initialize env s0).2 ops) = true ↔
      5 ∣ recordedSinceReset (ops ++ [Op.execute (some target) true penv cm]) := by
    unfold ping_execute_analyzes
    simp only [hi, Bool.true_and, decide_eq_true_eq]
    rw [hrec]
    exact (Nat.dvd_iff_mod_eq_zero ..).symm
  refine ⟨hiff, ?_, rfl, ?_⟩
  · rw [hsplit]
    by_cases hd : 5 ∣ recordedSinceReset (ops ++ [Op.execute (some target) true penv cm])
    · rw [if_pos hd, if_pos (hiff.mpr hd)]
    · rw [if_neg hd, if_neg (fun h => hd (hiff.mp h))]
  · unfold ping_execute_analyzes
    simp

/-- C27 (amended) at a concrete run: after four recorded probes the fifth
calls the analysis; after a rejected call and one recorded probe the next
recorded probe (the second) does not. -/
theorem analyzer_cadence_witness :
    (ping_execute_analyzes (some "8.8.8.8") true (SAMPLE_REPLY 20)
      (runOps ( ping_initialize SAMPLE_INIT LOADED).2 (probes 4)) = true ↔
      5 ∣ recordedSinceReset
        (probes 4 ++ [Op.execute (some "8.8.8.8") true (SAMPLE_REPLY 20) (SAMPLE_CM 0)])) ∧
    5 ∣ recordedSinceReset
        (probes 4 ++ [Op.execute (some "8.8.8.8") true (SAMPLE_REPLY 20) (SAMPLE_CM 0)]) ∧
    (ping_execute_analyzes (some "8.8.8.8") true (SAMPLE_REPLY 20)
      (runOps ( ping_initialize SAMPLE_INIT LOADED).2
        [Op.execute none true (SAMPLE_REPLY 20) (SAMPLE_CM 0),
          Op.execute (some "") true (SAMPLE_REPLY 20) (SAMPLE_CM 0)]) = true ↔
      5 ∣ recordedSinceReset
        ([Op.execute none true (SAMPLE_REPLY 20) (SAMPLE_CM 0),
          Op.execute (some "") true (SAMPLE_REPLY 20) (SAMPLE_CM 0)] ++
          [Op.execute (some "8.8.8.8") true (SAMPLE_REPLY 20) (SAMPLE_CM 0)])) ∧
    ¬ (5 ∣ recordedSinceReset
        ([Op.execute none true (SAMPLE_REPLY 20) (SAMPLE_CM 0),
          Op.execute (some "") true (SAMPLE_REPLY 20) (SAMPLE_CM 0)] ++
          [Op.execute (some "8.8.8.8") true (SAMPLE_REPLY 20) (SAMPLE_CM 0)])) :=
  ⟨(analyzer_cadence SAMPLE_INIT LOADED (probes 4) "8.8.8.8" (SAMPLE_REPLY 20) (SAMPLE_CM 0)
      ⟨rfl, rfl⟩ (by decide)).1,
    by decide,
    (analyzer_cadence SAMPLE_INIT LOADED
      [Op.execute none true (SAMPLE_REPLY 20) (SAMPLE_CM 0),
        Op.execute (some "") true (SAMPLE_REPLY 20) (SAMPLE_CM 0)]
      "8.8.8.8" (SAMPLE_REPLY 20) (SAMPLE_CM 0) ⟨rfl, rfl⟩ (by decide)).1,
    by decide⟩

/-! ## Running average and jitter -/

theorem receivedRtts_append_singleton (ops : List Op) (op : Op) :
    receivedRtts (ops ++ [op]) = rttStep (receivedRtts ops) op := by
  simp [receivedRtts, List.foldl_append]

theorem MeanOk_of_same {a b : ping_stats_t} (l : List Nat) (h : SameCounters a b)
    (hb : MeanOk b l) : MeanOk a l := by
  obtain ⟨-, h2, -, -, -, h6, h7⟩ := h
  unfold MeanOk
  rw [h2, h6, h7]
  exact hb

/-- A successful probe extends the list by its round-trip time; the jitter
follows the update formula once a second probe is received. -/
theorem update_stats_MeanOk (r : Nat) (st : ping_stats_t) (l : List Nat)
    (hn : l.length + 1 < 4294967296) (h : MeanOk st l) :
    MeanOk (update_stats true r st) (l ++ [r]) ∧
    (1 ≤ l.length → (update_stats true r st).jitter =
      st.jitter * (9 / 10) + |(r : ℚ) - (update_stats true r st).avg_rtt| * (1 / 10)) := by
  obtain ⟨h1, h2, h3⟩ := h
  have hd : to_dword (st.packets_received + 1) = l.length + 1 := by
    rw [h1]
    exact to_dword_of_lt _ hn
  have hp : dword_pred (l.length + 1) = l.length := by
    unfold dword_pred
    simp
  have hk1 : ((l.length + 1 : Nat) : ℚ) ≠ 0 := Nat.cast_ne_zero.mpr (Nat.succ_ne_zero _)
  unfold update_stats MeanOk
  simp only [if_true, hd, hp, List.length_append, List.length_singleton, List.sum_append,
    List.sum_singleton]
  refine ⟨⟨trivial, ?_, ?_⟩, ?_⟩
  · rw [div_mul_cancel₀ _ hk1, h2, Nat.cast_add]
  · intro hle
    have h0 : l.length = 0 := by omega
    rw [h0]
    simp only [Nat.zero_add, Nat.lt_irrefl, if_false]
    exact h3 (by omega)
  · intro hge
    rw [if_pos (by omega)]

theorem update_stats_lost_same (r : Nat) (st : ping_stats_t) :
    (update_stats false r st).avg_rtt = st.avg_rtt ∧
    (update_stats false r st).min_rtt = st.min_rtt ∧
    (update_stats false r st).max_rtt = st.max_rtt ∧
    (update_stats false r st).jitter = st.jitter ∧
    (update_stats false r st).packets_received = st.packets_received := by
  unfold update_stats
  exact ⟨rfl, rfl, rfl, rfl, rfl⟩

theorem update_stats_jitter_nonneg (b : Bool) (r : Nat) (st : ping_stats_t)
    (h : 0 ≤ st.jitter) : 0 ≤ (update_stats b r st).jitter := by
  unfold update_stats
  cases b
  · exact h
  · simp only [if_true]
    split_ifs
    · have := abs_nonneg ((r : ℚ) -
        (st.avg_rtt * ((dword_pred (to_dword (st.packets_received + 1)) : Nat) : ℚ) + (r : ℚ)) /
          ((to_dword (st.packets_received + 1) : Nat) : ℚ))
      linarith
    · exact h

theorem apiStep_jitter_nonneg (s : State) (op : Op) (h : 0 ≤ s.g_stats.jitter) :
    0 ≤ (apiStep s op).g_stats.jitter := by
  cases op with
  | execute target result_given env cm =>
    rcases ping_execute_cases target result_given env cm s with h1 | ⟨b, r, -, -, -, h2⟩
    · simp only [apiStep]; rw [h1]; exact h
    · simp only [apiStep]
      rw [h2.2.2.2.2.2.2]
      exact update_stats_jitter_nonneg b r _ h
  | get_stats _ => exact h
  | get_config _ => exact h
  | set_config config env =>
    simp only [apiStep]
    rw [(ping_set_config_same config env s).2]
    exact h
  | reset_stats now =>
    simp only [apiStep, ping_reset_stats]
    split_ifs
    · exact h
    · exact le_refl _
  | force_countermeasures cm =>
    simp only [apiStep]
    rw [(ping_force_countermeasures_frame cm s).2.2.2.2.2.2.2.2]
    exact h

/-- What one recorded probe does to the probe statistics. -/
theorem apiStep_execute_stats (s : State) (target : String) (env : PingEnv) (cm : CmEnv)
    (hinit : s.g_initialized = true) :
    SameCounters (apiStep s (Op.execute (some target) true env cm)).g_stats
      (update_stats (probe_ok env) (if probe_ok env then to_dword env.echo_rtt else
        (perform_ping (if target.length > 0 then target else s.g_config.target)
          env s).2.1.rtt_ms) s.g_stats) := by
  have h := (ping_execute_counters target env cm s hinit).2
  rw [perform_ping_ok] at h
  cases hok : probe_ok env
  · rw [hok] at h
    simpa using h
  · rw [hok, (perform_ping_success _ env s).2.2 hok] at h
    simpa using h

/-- One call keeps the statistics in step with the list of received
round-trip times, as long as the length of the list is a `DWORD`. -/
theorem apiStep_MeanOk (s : State) (op : Op) (l : List Nat) (hinit : s.g_initialized = true)
    (h : l.length < 4294967296 → MeanOk s.g_stats l) :
    (rttStep l op).length < 4294967296 → MeanOk (apiStep s op).g_stats (rttStep l op) := by
  cases op with
  | execute target result_given env cm =>
    cases target with
    | none =>
      intro hlt
      simp only [apiStep, rttStep] at hlt ⊢
      rw [ping_execute_rejected none result_given env cm s (Or.inl rfl)]
      exact h hlt
    | some target =>
      cases result_given with
      | false =>
        intro hlt
        simp only [apiStep, rttStep] at hlt ⊢
        rw [ping_execute_rejected (some target) false env cm s (Or.inr rfl)]
        exact h hlt
      | true =>
        have hs := apiStep_execute_stats s target env cm hinit
        cases hok : probe_ok env
        · intro hlt
          simp only [rttStep, hok, Bool.false_eq_true, if_false] at hlt ⊢
          rw [hok] at hs
          refine MeanOk_of_same l hs ?_
          obtain ⟨a, -, -, d, e⟩ := update_stats_lost_same
            (if false = true then to_dword env.echo_rtt else
              (perform_ping (if target.length > 0 then target else s.g_config.target)
                env s).2.1.rtt_ms) s.g_stats
          unfold MeanOk
          rw [a, d, e]
          exact h hlt
        · intro hlt
          simp only [rttStep, hok, if_true, List.length_append, List.length_singleton] at hlt ⊢
          rw [hok] at hs
          simp only [if_true] at hs
          exact MeanOk_of_same _ hs
            (update_stats_MeanOk _ s.g_stats l hlt (h (by omega))).1
  | get_stats _ => exact h
  | get_config _ => exact h
  | set_config config env =>
    intro hlt
    simp only [apiStep, rttStep] at hlt ⊢
    rw [(ping_set_config_same config env s).2]
    exact h hlt
  | reset_stats now =>
    intro _
    simp only [apiStep, rttStep, ping_reset_stats, hinit, Bool.not_true, Bool.false_eq_true,
      if_false]
    exact ⟨rfl, by simp, fun _ => rfl⟩
  | force_countermeasures cm =>
    intro hlt
    simp only [apiStep, rttStep] at hlt ⊢
    exact MeanOk_of_same l (ping_force_countermeasures_frame cm s).2.2 (h hlt)

theorem runOps_MeanOk (s : State) (hinit : s.g_initialized = true)
    (hfresh : MeanOk s.g_stats []) (ops : List Op) :
    (receivedRtts ops).length < 4294967296 →
      MeanOk (runOps s ops).g_stats (receivedRtts ops) := by
  induction ops using List.reverseRecOn with
  | nil => exact fun _ => hfresh
  | append_singleton ops op ih =>
    rw [runOps_append_singleton, receivedRtts_append_singleton]
    exact apiStep_MeanOk (runOps s ops) op (receivedRtts ops)
      (runOps_g_initialized s ops hinit) ih

theorem ping_initialize_MeanOk (env : InitEnv) (s0 : State) (hinit : Initializes env s0) :
    MeanOk ( ping_initialize env s0).2.g_stats [] ∧
    0 ≤ ( ping_initialize env s0).2.g_stats.jitter := by
  rw [(ping_initialize_ready env s0 hinit).2.1]
  exact ⟨⟨rfl, by simp, fun _ => rfl⟩, le_refl _⟩

theorem receivedRtts_probes (n : Nat) : receivedRtts (probes n) = List.replicate n 20 := by
  induction n with
  | zero => rfl
  | succ n ih =>
    rw [probes_succ, receivedRtts_append_singleton, ih, List.replicate_succ']
    rfl

theorem mean_rtt_replicate (n : Nat) (hn : 0 < n) : mean_rtt (List.replicate n 20) = 20 := by
  have h : ((n : Nat) : ℚ) ≠ 0 := Nat.cast_ne_zero.mpr (by omega)
  unfold mean_rtt
  rw [List.sum_replicate, List.length_replicate, smul_eq_mul, Nat.cast_mul, mul_comm,
    mul_div_assoc, div_self h]
  norm_num

/-- After `n` probes of `probes` on a fresh monitor, with `n` a `DWORD`:
`n` received, average 20 (if any), jitter 0. -/
theorem runOps_probes_steady (s : State) (hi : s.g_initialized = true)
    (h0 : s.g_stats.packets_received = 0) (hj : s.g_stats.jitter = 0) (n : Nat) :
    n < 4294967296 →
      (runOps s (probes n)).g_stats.packets_received = n ∧
      (1 ≤ n → (runOps s (probes n)).g_stats.avg_rtt = 20) ∧
      (runOps s (probes n)).g_stats.jitter = 0 := by
  induction n with
  | zero => exact fun _ => ⟨h0, fun h => absurd h (by decide), hj⟩
  | succ n ih =>
    intro hn
    obtain ⟨a, b, c⟩ := ih (by omega)
    rw [probes_succ, runOps_append_singleton]
    obtain ⟨-, s2, -, -, -, s6, s7⟩ :=
      (apiStep_probe (runOps s (probes n)) (runOps_g_initialized s _ hi)).2
    have hd : to_dword (n + 1) = n + 1 := to_dword_of_lt _ hn
    have hp : dword_pred (n + 1) = n := by
      unfold dword_pred
      simp
    have hk : ((n + 1 : Nat) : ℚ) ≠ 0 := Nat.cast_ne_zero.mpr (Nat.succ_ne_zero _)
    have havg : (update_stats true 20 (runOps s (probes n)).g_stats).avg_rtt = 20 := by
      unfold update_stats
      simp only [if_true, a, hd, hp]
      rw [div_eq_iff hk]
      rcases Nat.eq_zero_or_pos n with hz | hpos
      · subst hz
        norm_num
      · rw [b hpos]
        push_cast
        ring
    refine ⟨?_, fun _ => ?_, ?_⟩
    · rw [s2]
      unfold update_stats
      simp only [if_true, a, hd]
    · rw [s6]
      exact havg
    · rw [s7]
      have hj2 : (update_stats true 20 (runOps s (probes n)).g_stats).jitter =
          if to_dword ((runOps s (probes n)).g_stats.packets_received + 1) > 1 then
            (runOps s (probes n)).g_stats.jitter * (9 / 10) +
              |((20 : Nat) : ℚ) - (update_stats true 20 (runOps s (probes n)).g_stats).avg_rtt|
                * (1 / 10)
          else (runOps s (probes n)).g_stats.jitter := by
        unfold update_stats
        rfl
      rw [hj2, havg, c]
      split_ifs <;> norm_num

theorem update_stats_wrap (st : ping_stats_t) (a : st.packets_received = 4294967295)
    (c : st.jitter = 0) :
    (update_stats true 20 st).packets_received = 0 ∧
    (update_stats true 20 st).avg_rtt = 0 ∧
    (update_stats true 20 st).jitter = 0 := by
  have hd : to_dword (4294967295 + 1) = 0 := by
    unfold to_dword
    norm_num
  unfold update_stats
  simp only [if_true, a, hd]
  simp [c]

/-- The probe number `2 ^ 32` of `probes` after initialization: the received
counter wraps to 0, the division by it gives 0 for the average (in the exact
arithmetic of this development; an infinity in IEEE arithmetic), and the
jitter is not updated. -/
theorem probes_wrap :
    (runOps ( ping_initialize SAMPLE_INIT LOADED).2 (probes 4294967295)).g_stats.jitter = 0 ∧
    (apiStep (runOps ( ping_initialize SAMPLE_INIT LOADED).2 (probes 4294967295))
      (Op.execute (some "") true (SAMPLE_REPLY 20) (SAMPLE_CM 0))).g_stats.packets_received = 0 ∧
    (apiStep (runOps ( ping_initialize SAMPLE_INIT LOADED).2 (probes 4294967295))
      (Op.execute (some "") true (SAMPLE_REPLY 20) (SAMPLE_CM 0))).g_stats.avg_rtt = 0 ∧
    (apiStep (runOps ( ping_initialize SAMPLE_INIT LOADED).2 (probes 4294967295))
      (Op.execute (some "") true (SAMPLE_REPLY 20) (SAMPLE_CM 0))).g_stats.jitter = 0 := by
  obtain ⟨a, -, c⟩ := runOps_probes_steady ( ping_initialize SAMPLE_INIT LOADED).2 rfl rfl rfl
    4294967295 (by norm_num)
  have hi := runOps_g_initialized ( ping_initialize SAMPLE_INIT LOADED).2 (probes 4294967295) rfl
  obtain ⟨-, s2, -, -, -, s6, s7⟩ := (apiStep_probe _ hi).2
  obtain ⟨w1, w2, w3⟩ := update_stats_wrap _ a c
  exact ⟨c, s2.trans w1, s6.trans w2, s7.trans w3⟩

/-- C25 as stated fails when the `DWORD` counter wraps: after `2 ^ 32` probes
that all succeed with a round trip of 20 ms (mean 20), `packets_received` is 0
again and the average, the result of a division by it, is not 20. -/
theorem avg_mean_counterexample :
    Initializes SAMPLE_INIT LOADED ∧
    receivedRtts (probes 4294967295 ++
      [Op.execute (some "") true (SAMPLE_REPLY 20) (SAMPLE_CM 0)]) ≠ [] ∧
    mean_rtt (receivedRtts (probes 4294967295 ++
      [Op.execute (some "") true (SAMPLE_REPLY 20) (SAMPLE_CM 0)])) = 20 ∧
    (runOps ( ping_initialize SAMPLE_INIT LOADED).2 (probes 4294967295 ++
      [Op.execute (some "") true (SAMPLE_REPLY 20) (SAMPLE_CM 0)])).g_stats.packets_received
      = 0 ∧
    (runOps ( ping_initialize SAMPLE_INIT LOADED).2 (probes 4294967295 ++
      [Op.execute (some "") true (SAMPLE_REPLY 20) (SAMPLE_CM 0)])).g_stats.avg_rtt ≠
      mean_rtt (receivedRtts (probes 4294967295 ++
        [Op.execute (some "") true (SAMPLE_REPLY 20) (SAMPLE_CM 0)])) := by
  have hl : receivedRtts (probes 4294967295 ++
      [Op.execute (some "") true (SAMPLE_REPLY 20) (SAMPLE_CM 0)])
      = List.replicate (4294967295 + 1) 20 := by
    rw [← probes_succ]
    exact receivedRtts_probes _
  have hm := mean_rtt_replicate (4294967295 + 1) (Nat.succ_pos _)
  obtain ⟨-, w1, w2, -⟩ := probes_wrap
  rw [hl, runOps_append_singleton, hm, w2]
  refine ⟨⟨rfl, rfl⟩, ?_, rfl, w1, by norm_num⟩
  rw [List.replicate_succ]
  exact List.cons_ne_nil _ _

/-- C25, amended. After a successful `ping_initialize` and any calls, as long
as fewer than `2 ^ 32` probes were received since the last reset and at least
one was, `packets_received` is their number and `avg_rtt` is the arithmetic
mean of their round-trip times (in exact arithmetic). A successful probe
computes `avg' = (avg * (n - 1) + rtt) / n` with `n` the new received count
(not wrapped); a failed probe leaves `avg_rtt`, `min_rtt`, `max_rtt`, `jitter`
and `packets_received` as they are. -/
theorem avg_is_mean (env : InitEnv) (s0 : State) (ops : List Op) (r : Nat)
    (st : ping_stats_t) (hinit : Initializes env s0)
    (hlt : (receivedRtts ops).length < 2 ^ 32) (hne : receivedRtts ops ≠ []) :
    (runOps ( ping_initialize env s0).2 ops).g_stats.packets_received
      = (receivedRtts ops).length ∧
    (runOps ( ping_initialize env s0).2 ops).g_stats.avg_rtt = mean_rtt (receivedRtts ops) ∧
    (st.packets_received + 1 < 2 ^ 32 →
      (update_stats true r st).avg_rtt =
        (st.avg_rtt * (((update_stats true r st).packets_received : ℚ) - 1) + (r : ℚ)) /
          ((update_stats true r st).packets_received : ℚ)) ∧
    ((update_stats false r st).avg_rtt = st.avg_rtt ∧
      (update_stats false r st).min_rtt = st.min_rtt ∧
      (update_stats false r st).max_rtt = st.max_rtt ∧
      (update_stats false r st).jitter = st.jitter ∧
      (update_stats false r st).packets_received = st.packets_received) := by
  have hlt1 : (receivedRtts ops).length < 4294967296 := by
    norm_num at hlt
    exact hlt
  obtain ⟨m1, m2, -⟩ := runOps_MeanOk _ hinit.2 (ping_initialize_MeanOk env s0 hinit).1 ops hlt1
  have hpos : 0 < (receivedRtts ops).length := List.length_pos.mpr hne
  have hk : (((receivedRtts ops).length : Nat) : ℚ) ≠ 0 := Nat.cast_ne_zero.mpr (by omega)
  refine ⟨m1, ?_, ?_, update_stats_lost_same r st⟩
  · unfold mean_rtt
    rw [eq_div_iff hk]
    exact m2
  · intro hn
    have hd : to_dword (st.packets_received + 1) = st.packets_received + 1 :=
      to_dword_of_lt _ (by norm_num at hn; exact hn)
    have hp : dword_pred (st.packets_received + 1) = st.packets_received := by
      unfold dword_pred
      simp
    unfold update_stats
    simp only [if_true, hd, hp]
    push_cast
    ring_nf

/-- C25 (amended) on the sample run: replies after 10 ms and 30 ms with a
failed probe in between give two received and an average of 20. -/
theorem avg_is_mean_witness :
    (runOps ( ping_initialize SAMPLE_INIT LOADED).2 SAMPLE_RUN).g_stats.packets_received
      = (receivedRtts SAMPLE_RUN).length ∧
    (runOps ( ping_initialize SAMPLE_INIT LOADED).2 SAMPLE_RUN).g_stats.avg_rtt
      = mean_rtt (receivedRtts SAMPLE_RUN) ∧
    receivedRtts SAMPLE_RUN = [10, 30] :=
  have h := avg_is_mean SAMPLE_INIT LOADED SAMPLE_RUN 20 ZERO_STATS ⟨rfl, rfl⟩
    (by decide) (by decide)
  ⟨h.1, h.2.1, by decide⟩

/-- C26 as stated fails when the `DWORD` counter wraps: the probe number
`2 ^ 32` after initialization, a reply after 20 ms like all before it, makes
`packets_received` 0, so the test `packets_received > 1` fails and the jitter
is left as it is instead of being updated by the formula. -/
theorem jitter_update_counterexample :
    Initializes SAMPLE_INIT LOADED ∧
    receivedRtts (probes 4294967295) ≠ [] ∧
    probe_ok (SAMPLE_REPLY 20) = true ∧
    (apiStep (runOps ( ping_initialize SAMPLE_INIT LOADED).2 (probes 4294967295))
      (Op.execute (some "") true (SAMPLE_REPLY 20) (SAMPLE_CM 0))).g_stats.jitter =
      (runOps ( ping_initialize SAMPLE_INIT LOADED).2 (probes 4294967295)).g_stats.jitter ∧
    (apiStep (runOps ( ping_initialize SAMPLE_INIT LOADED).2 (probes 4294967295))
      (Op.execute (some "") true (SAMPLE_REPLY 20) (SAMPLE_CM 0))).g_stats.jitter ≠
      (runOps ( ping_initialize SAMPLE_INIT LOADED).2 (probes 4294967295)).g_stats.jitter
          * (9 / 10) +
        |(20 : ℚ) - (apiStep (runOps ( ping_initialize SAMPLE_INIT LOADED).2 (probes 4294967295))
          (Op.execute (some "") true (SAMPLE_REPLY 20) (SAMPLE_CM 0))).g_stats.avg_rtt|
          * (1 / 10) := by
  obtain ⟨w0, -, w2, w3⟩ := probes_wrap
  rw [w0, w2, w3]
  refine ⟨⟨rfl, rfl⟩, ?_, by decide, rfl, by norm_num⟩
  rw [receivedRtts_probes]
  exact List.ne_nil_of_length_pos (by rw [List.length_replicate]; norm_num)

/-- C26, amended. After a successful `ping_initialize` and any calls, the
jitter is never negative, and it is 0 while at most one probe was received
since the last reset. A successful probe that is at least the second received
since the last reset, and not the one that brings their number to `2 ^ 32`,
sets `jitter' = 0.9 * jitter + 0.1 * |rtt - avg'|` with `avg'` the average
after the probe. -/
theorem jitter_update (env : InitEnv) (s0 : State) (ops : List Op) (target : String)
    (penv : PingEnv) (cm : CmEnv) (hinit : Initializes env s0) :
    0 ≤ (runOps ( ping_initialize env s0).2 ops).g_stats.jitter ∧
    ((receivedRtts ops).length ≤ 1 →
      (runOps ( ping_initialize env s0).2 ops).g_stats.jitter = 0) ∧
    (probe_ok penv = true → 1 ≤ (receivedRtts ops).length →
      (receivedRtts ops).length + 1 < 2 ^ 32 →
      (apiStep (runOps ( ping_initialize env s0).2 ops)
        (Op.execute (some target) true penv cm)).g_stats.jitter =
        (runOps ( ping_initialize env s0).2 ops).g_stats.jitter * (9 / 10) +
          |((to_dword penv.echo_rtt : Nat) : ℚ) -
            (apiStep (runOps ( ping_initialize env s0).2 ops)
              (Op.execute (some target) true penv cm)).g_stats.avg_rtt| * (1 / 10)) := by
  obtain ⟨f1, f2⟩ := ping_initialize_MeanOk env s0 hinit
  have hi := runOps_g_initialized _ ops hinit.2
  refine ⟨?_, ?_, ?_⟩
  · exact runOps_induction (fun t => 0 ≤ t.g_stats.jitter) apiStep_jitter_nonneg ops _ f2
  · intro hle
    exact (runOps_MeanOk _ hinit.2 f1 ops (by omega)).2.2 hle
  · intro hok hge hlt
    have hlt1 : (receivedRtts ops).length + 1 < 4294967296 := by
      norm_num at hlt
      exact hlt
    have hm := runOps_MeanOk _ hinit.2 f1 ops (by omega)
    have hs := apiStep_execute_stats _ target penv cm hi
    rw [hok] at hs
    simp only [if_true] at hs
    rw [hs.2.2.2.2.2.2, hs.2.2.2.2.2.1]
    exact (update_stats_MeanOk _ _ _ hlt1 hm).2 hge

/-- C26 (amended) at a concrete run: after a reply of 10 ms the jitter is 0;
a second reply, after 30 ms, is a second received probe and the formula
applies. -/
theorem jitter_update_witness :
    (runOps ( ping_initialize SAMPLE_INIT LOADED).2
      [Op.execute (some "8.8.8.8") true (SAMPLE_REPLY 10) (SAMPLE_CM 0)]).g_stats.jitter = 0 ∧
    (apiStep (runOps ( ping_initialize SAMPLE_INIT LOADED).2
        [Op.execute (some "8.8.8.8") true (SAMPLE_REPLY 10) (SAMPLE_CM 0)])
      (Op.execute (some "8.8.8.8") true (SAMPLE_REPLY 30) (SAMPLE_CM 0))).g_stats.jitter =
      (runOps ( ping_initialize SAMPLE_INIT LOADED).2
        [Op.execute (some "8.8.8.8") true (SAMPLE_REPLY 10) (SAMPLE_CM 0)]).g_stats.jitter
          * (9 / 10) +
        |((to_dword (SAMPLE_REPLY 30).echo_rtt : Nat) : ℚ) -
          (apiStep (runOps ( ping_initialize SAMPLE_INIT LOADED).2
              [Op.execute (some "8.8.8.8") true (SAMPLE_REPLY 10) (SAMPLE_CM 0)])
            (Op.execute (some "8.8.8.8") true (SAMPLE_REPLY 30) (SAMPLE_CM 0))).g_stats.avg_rtt|
          * (1 / 10) :=
  have h := jitter_update SAMPLE_INIT LOADED
    [Op.execute (some "8.8.8.8") true (SAMPLE_REPLY 10) (SAMPLE_CM 0)] "8.8.8.8"
    (SAMPLE_REPLY 30) (SAMPLE_CM 0) ⟨rfl, rfl⟩
  ⟨h.2.1 (by decide), h.2.2 (by decide) (by decide) (by decide)⟩

/-! ## The option `-i` of the command line -/

set_option maxRecDepth 1000000 in

/-- What the scanners of `atoi` and `strtod` read from the decimal numeral of
a number below 256: no white space, no sign, the digits to the end. -/
theorem scan_decimal : ∀ n : Nat, n < 256 →
    read_sign (skip_space (toString n).data) = (false, (toString n).data) ∧
    (read_digits (toString n).data 0 0).1 = n ∧
    0 < (read_digits (toString n).data 0 0).2.1 ∧
    (read_digits (toString n).data 0 0).2.2 = [] := by
  decide

theorem strtod_decimal (n : Nat) (h : n < 256) : strtod (toString n) = (true, (n : ℚ)) := by
  obtain ⟨h1, h2, h3, h4⟩ := scan_decimal n h
  unfold strtod
  simp only [h1, h4]
  rw [if_neg (by omega)]
  simp [h2]

theorem parse_loop_target (o : ping_options_t) (t : String) (ho : o.target = "")
    (ht : option_name t = none) (hne : t ≠ "") :
    parse_loop o [t] = (true, { o with target := String.mk (t.data.take 255) }) := by
  have hlen : (String.mk (t.data.take 255)).length ≠ 0 := by
    have : t.data ≠ [] := fun h => hne (String.ext h)
    show (t.data.take 255).length ≠ 0
    rw [List.length_take]
    have := List.length_pos.mpr this
    omega
  rw [parse_loop]
  simp only [ht, ho]
  have hl2 : t.length ≠ 0 := fun h => hne (String.ext (List.length_eq_zero.mp h))
  rw [if_pos (by decide), parse_loop, parse_finish]
  simp [hlen, hl2]

/-- C28 fails on the code. For every `n` from 1 to 255,
`dbj_ping -i n target` leaves `ttl` at its default 128 and sets `interval` to
`n * 1000` instead: `strtod` converts the numeral to a positive number, so the
interval branch is taken and the `atoi` branch that assigns `ttl` is not
reached. Without `-i` the `ttl` is 128 as well. -/
theorem dash_i_sets_interval (prog t : String) (n : Nat) (h1 : 1 ≤ n) (h2 : n ≤ 255)
    (ht : option_name t = none) (hne : t ≠ "") :
    (parse_arguments [prog, "-i", toString n, t] ZERO_OPTIONS).1 = true ∧
    (parse_arguments [prog, "-i", toString n, t] ZERO_OPTIONS).2.ttl = 128 ∧
    (parse_arguments [prog, "-i", toString n, t] ZERO_OPTIONS).2.interval = (n : Int) * 1000 ∧
    (parse_arguments [prog, "-i", toString n, t] ZERO_OPTIONS).2.target
      = String.mk (t.data.take 255) ∧
    (parse_arguments [prog, t] ZERO_OPTIONS).1 = true ∧
    (parse_arguments [prog, t] ZERO_OPTIONS).2.ttl = 128 := by
  have hd := strtod_decimal n (by omega)
  have hpos : (0 : ℚ) < (n : ℚ) := by exact_mod_cast h1
  have hfloor : ⌊(n : ℚ) * 1000⌋ = (n : Int) * 1000 := by
    have : (n : ℚ) * 1000 = (((n : Int) * 1000 : Int) : ℚ) := by push_cast; ring
    rw [this, Int.floor_intCast]
  have hopt : option_name "-i" = some "i" := by decide
  unfold parse_arguments
  simp only [List.length_cons, List.length_nil, List.drop_one, List.tail_cons]
  rw [if_neg (by decide), if_neg (by decide)]
  rw [parse_loop]
  simp only [hopt, hd]
  simp only [String.reduceEq, if_false, false_or, if_true, true_and, gt_iff_lt, hpos, hfloor]
  rw [parse_loop_target _ t rfl ht hne, parse_loop_target _ t rfl ht hne]
  exact ⟨rfl, rfl, rfl, rfl, rfl, rfl⟩

/-- The failing input of C28: `dbj_ping -i 64 example.com` leaves `ttl` at
128 and sets `interval` to 64000. -/
theorem dash_i_sets_interval_witness :
    (parse_arguments ["dbj_ping", "-i", toString 64, "example.com"] ZERO_OPTIONS).1 = true ∧
    (parse_arguments ["dbj_ping", "-i", toString 64, "example.com"] ZERO_OPTIONS).2.ttl = 128 ∧
    (parse_arguments ["dbj_ping", "-i", toString 64, "example.com"] ZERO_OPTIONS).2.interval
      = 64000 ∧
    toString 64 = "64" :=
  have h := dash_i_sets_interval "dbj_ping" "example.com" 64 (by decide) (by decide)
    (by decide) (by decide)
  ⟨h.1, h.2.1, h.2.2.1, by decide⟩

theorem runOps_probes_lost (n : Nat) (s : State) (hi : s.g_initialized = true) :
    (runOps s (probes n)).g_stats.packets_lost = s.g_stats.packets_lost := by
  induction n with
  | zero => rfl
  | succ n ih =>
    rw [probes_succ, runOps_append_singleton,
      (apiStep_probe _ (runOps_g_initialized s _ hi)).2.2.2.1, ← ih]
    exact (update_stats_fields true 20 _).2.1

/-- A failed probe recorded when `packets_sent` is `2 ^ 32 - 1`: the sent
counter wraps to 0, the lost counter goes from 0 to 1. -/
theorem update_stats_sent_wrap (r : Nat) (st : ping_stats_t)
    (a : st.packets_sent = 4294967295) (b : st.packets_lost = 0) :
    (update_stats false r st).packets_sent = 0 ∧
    (update_stats false r st).packets_lost = 1 ∧
    (update_stats false r st).packets_received = st.packets_received := by
  have hd : to_dword (4294967295 + 1) = 0 := by
    unfold to_dword
    norm_num
  have h1 : to_dword (0 + 1) = 1 := by
    unfold to_dword
    norm_num
  obtain ⟨f1, f2, f3, -⟩ := update_stats_fields false r st
  rw [f1, f2, f3, a, b, hd]
  simp [h1]

/-- C1 as stated fails when the `DWORD` counter wraps: after `2 ^ 32 - 1`
probes that are all answered and one that fails, the snapshot reads 0 sent,
`2 ^ 32 - 1` received and 1 lost. -/
theorem sent_eq_received_plus_lost_counterexample :
    Initializes SAMPLE_INIT LOADED ∧
    ∃ snap, ping_get_stats true (runOps ( ping_initialize SAMPLE_INIT LOADED).2
        (probes 4294967295 ++
          [Op.execute (some "") true SAMPLE_UNRESOLVED (SAMPLE_CM 0)])) =
        (ERROR_SUCCESS, some snap) ∧
      snap.packets_sent = 0 ∧ snap.packets_received = 4294967295 ∧ snap.packets_lost = 1 ∧
      snap.packets_sent ≠ snap.packets_received + snap.packets_lost := by
  have hi := runOps_g_initialized ( ping_initialize SAMPLE_INIT LOADED).2 (probes 4294967295) rfl
  have hs := runOps_probes_sent 4294967295 ( ping_initialize SAMPLE_INIT LOADED).2 rfl rfl
  have hr := runOps_probes_received 4294967295 ( ping_initialize SAMPLE_INIT LOADED).2 0 rfl
    (by norm_num) rfl
  have hl := runOps_probes_lost 4294967295 ( ping_initialize SAMPLE_INIT LOADED).2 rfl
  have hs1 : (runOps ( ping_initialize SAMPLE_INIT LOADED).2
      (probes 4294967295)).g_stats.packets_sent = 4294967295 := by
    rw [hs]
  have hr1 : (runOps ( ping_initialize SAMPLE_INIT LOADED).2
      (probes 4294967295)).g_stats.packets_received = 4294967295 := by
    rw [hr]
  have hl1 : (runOps ( ping_initialize SAMPLE_INIT LOADED).2
      (probes 4294967295)).g_stats.packets_lost = 0 := hl
  have hc := apiStep_execute_stats _ "" SAMPLE_UNRESOLVED (SAMPLE_CM 0) hi
  have hok : probe_ok SAMPLE_UNRESOLVED = false := rfl
  rw [hok] at hc
  obtain ⟨w1, w2, w3⟩ := update_stats_sent_wrap
    (if false = true then to_dword SAMPLE_UNRESOLVED.echo_rtt else
      (perform_ping (if "".length > 0 then "" else
        (runOps ( ping_initialize SAMPLE_INIT LOADED).2 (probes 4294967295)).g_config.target)
        SAMPLE_UNRESOLVED
        (runOps ( ping_initialize SAMPLE_INIT LOADED).2 (probes 4294967295))).2.1.rtt_ms)
    _ hs1 hl1
  have hi2 := apiStep_g_initialized _ (Op.execute (some "") true SAMPLE_UNRESOLVED (SAMPLE_CM 0)) hi
  refine ⟨⟨rfl, rfl⟩, (apiStep (runOps ( ping_initialize SAMPLE_INIT LOADED).2
    (probes 4294967295))
    (Op.execute (some "") true SAMPLE_UNRESOLVED (SAMPLE_CM 0))).g_stats, ?_, ?_, ?_, ?_, ?_⟩
  · rw [runOps_append_singleton]
    unfold ping_get_stats
    rw [hi2]
    rfl
  · exact hc.1.trans w1
  · exact (hc.2.1.trans w3).trans hr1
  · exact hc.2.2.1.trans w2
  · rw [hc.1.trans w1, (hc.2.1.trans w3).trans hr1, hc.2.2.1.trans w2]
    norm_num

/-! ## The rotation index after a lowering `ping_set_config` -/

/-- With at least one resolver, the index update of `switch_dns_server` gives
an index below the count from any index, stale ones included. -/
theorem next_dns_index_lt_any (i n : Nat) (h1 : 1 ≤ n) (h2 : n < 2 ^ 32) :
    next_dns_index i n < n := by
  unfold next_dns_index dword_pred to_dword
  have hn : n ≠ 0 := by omega
  simp only [hn, if_false]
  norm_num at h2
  split_ifs with hge
  · omega
  · have : i + 1 < 4294967296 := by omega
    norm_num
    rw [Nat.mod_eq_of_lt this]
    omega

theorem RunOk_append_singleton (ok : State → Op → Prop) (ops : List Op) (op : Op) :
    ∀ s : State, RunOk ok s (ops ++ [op]) ↔ RunOk ok s ops ∧ ok (runOps s ops) op := by
  induction ops with
  | nil =>
    intro s
    show ok s op ∧ True ↔ True ∧ ok s op
    tauto
  | cons a ops ih =>
    intro s
    show ok s a ∧ RunOk ok (apiStep s a) (ops ++ [op]) ↔
      (ok s a ∧ RunOk ok (apiStep s a) ops) ∧ ok (runOps (apiStep s a) ops) op
    rw [ih]
    tauto

/-- Only `ping_set_config` writes the configuration. -/
theorem apiStep_g_config (s : State) (op : Op) (hi : s.g_initialized = true) :
    (apiStep s op).g_config = s.g_config ∨
    ∃ c env, op = Op.set_config (some c) env ∧ (apiStep s op).g_config = c := by
  cases op with
  | execute target result_given env cm =>
    left
    rcases ping_execute_cases target result_given env cm s with h1 | ⟨b, r, -, hc, -, -⟩
    · simp only [apiStep]; rw [h1]
    · exact hc
  | get_stats _ => exact Or.inl rfl
  | get_config _ => exact Or.inl rfl
  | set_config config env =>
    cases config with
    | none =>
      left
      simp only [apiStep, ping_set_config]
      split_ifs <;> rfl
    | some c => exact Or.inr ⟨c, env, rfl, ping_set_config_g_config c env s hi⟩
  | reset_stats now =>
    left
    simp only [apiStep, ping_reset_stats]
    split_ifs <;> rfl
  | force_countermeasures cm => exact Or.inl (ping_force_countermeasures_frame cm s).1

theorem apiStep_CountOk (s : State) (op : Op) (hok : SetConfigCountOk s op) (h : CountOk s) :
    CountOk (apiStep s op) := by
  obtain ⟨hi, h1, h2⟩ := h
  refine ⟨apiStep_g_initialized s op hi, ?_⟩
  rcases apiStep_g_config s op hi with hc | ⟨c, env, rfl, hc⟩
  · rw [hc]
    exact ⟨h1, h2⟩
  · rw [hc]
    exact hok

theorem runOps_CountOk (ops : List Op) :
    ∀ s : State, RunOk SetConfigCountOk s ops → CountOk s → CountOk (runOps s ops) := by
  induction ops with
  | nil => intro s _ h; exact h
  | cons op ops ih =>
    intro s hok h
    exact ih (apiStep s op) hok.2 (apiStep_CountOk s op hok.1 h)

/-- Every call either leaves the rotation index as it is or leaves it below
the resolver count: each write of the index (a rotation, a reset) lands below
the count, whatever the index was. -/
theorem apiStep_index_same_or_lt (s : State) (op : Op) (hok : SetConfigCountOk s op)
    (h : CountOk s) :
    (apiStep s op).g_stats.current_dns_index = s.g_stats.current_dns_index ∨
    IndexOk (apiStep s op) := by
  obtain ⟨hi, h1, h2⟩ := h
  have hnext := next_dns_index_lt_any s.g_stats.current_dns_index _ h1 h2
  unfold IndexOk
  cases op with
  | execute target result_given env cm =>
    have hidx := ping_execute_index target result_given env cm s
    rcases ping_execute_cases target result_given env cm s with e1 | ⟨b, r, -, hc, -, -⟩
    · left
      simp only [apiStep]
      rw [e1]
    · simp only [apiStep]
      rcases hidx with h' | h'
      · exact Or.inl h'
      · right
        rw [h', hc]
        exact hnext
  | get_stats _ => exact Or.inl rfl
  | get_config _ => exact Or.inl rfl
  | set_config config env =>
    left
    simp only [apiStep]
    rw [(ping_set_config_same config env s).2]
  | reset_stats now =>
    right
    simp only [apiStep, ping_reset_stats, hi, Bool.not_true, Bool.false_eq_true, if_false]
    show 0 < s.g_config.backup_dns_count
    omega
  | force_countermeasures cm =>
    have hc := (ping_force_countermeasures_frame cm s).1
    simp only [apiStep]
    rw [hc]
    unfold ping_force_countermeasures
    simp only [hi, Bool.not_true, Bool.false_eq_true, if_false]
    rcases trigger_countermeasures_index cm
      (dbj_log .LOG_INFO "Forcing countermeasures activation" s) with h' | h'
    · exact Or.inl h'
    · right
      rw [h']
      exact hnext

/-- A rotation from Idle with resolver rotation enabled, and a reset, leave
the index below the count, whatever it was. -/
theorem apiStep_index_restored (s : State) (cm : CmEnv) (now : Nat) (h : CountOk s)
    (hidle : s.g_stats.countermeasures_active = false) :
    (s.g_config.enable_dns_switching = true →
      IndexOk (apiStep s (Op.force_countermeasures cm))) ∧
    IndexOk (apiStep s (Op.reset_stats now)) := by
  obtain ⟨hi, h1, h2⟩ := h
  unfold IndexOk
  constructor
  · intro hd
    have hc := (ping_force_countermeasures_frame cm s).1
    simp only [apiStep]
    rw [hc]
    unfold ping_force_countermeasures
    simp only [hi, Bool.not_true, Bool.false_eq_true, if_false]
    have hx := (trigger_countermeasures_idle cm
      (dbj_log .LOG_INFO "Forcing countermeasures activation" s) hidle).2.2.1
    rw [hx]
    simp only [dbj_log_g_config, hd, if_true, dbj_log_g_stats]
    exact next_dns_index_lt_any _ _ h1 h2
  · simp only [apiStep, ping_reset_stats, hi, Bool.not_true, Bool.false_eq_true, if_false]
    show 0 < s.g_config.backup_dns_count
    omega

/-- In a run whose `ping_set_config` calls install counts of at least 1, the
index is below the count at the end unless the run holds a `ping_set_config`
that installed a count at or below the index and the index has not been
written since. -/
theorem runOps_index_lt_or_stale (s : State) (hs : CountOk s) (hidx : IndexOk s)
    (ops : List Op) :
    RunOk SetConfigCountOk s ops →
      IndexOk (runOps s ops) ∨
      ∃ ops1 c env ops2, ops = ops1 ++ Op.set_config (some c) env :: ops2 ∧
        c.backup_dns_count ≤ (runOps s ops).g_stats.current_dns_index ∧
        ∀ k : Nat, (runOps s (ops1 ++ Op.set_config (some c) env ::
          ops2.take k)).g_stats.current_dns_index = (runOps s ops).g_stats.current_dns_index := by
  induction ops using List.reverseRecOn with
  | nil => exact fun _ => Or.inl hidx
  | append_singleton ops op ih =>
    intro hrun
    obtain ⟨hrun1, hop⟩ := (RunOk_append_singleton _ ops op s).mp hrun
    have hgood := runOps_CountOk ops s hrun1 hs
    rw [runOps_append_singleton]
    by_cases hok' : IndexOk (apiStep (runOps s ops) op)
    · exact Or.inl hok'
    right
    have hsame : (apiStep (runOps s ops) op).g_stats.current_dns_index =
        (runOps s ops).g_stats.current_dns_index := by
      rcases apiStep_index_same_or_lt _ op hop hgood with h' | h'
      · exact h'
      · exact absurd h' hok'
    rcases ih hrun1 with hprev | ⟨ops1, c, env, ops2, heq, hc, hall⟩
    · rcases apiStep_g_config (runOps s ops) op hgood.1 with hcfg | ⟨c, env, hop_eq, hcfg⟩
      · exfalso
        apply hok'
        unfold IndexOk at hprev ⊢
        rw [hsame, hcfg]
        exact hprev
      · refine ⟨ops, c, env, [], ?_, ?_, ?_⟩
        · rw [hop_eq]
        · unfold IndexOk at hok'
          rw [hcfg] at hok'
          exact not_lt.mp hok'
        · intro k
          rw [List.take_nil, ← hop_eq, runOps_append_singleton]
    · refine ⟨ops1, c, env, ops2 ++ [op], ?_, ?_, ?_⟩
      · rw [heq]
        simp
      · rw [hsame]
        exact hc
      · intro k
        rw [hsame]
        by_cases hk : k ≤ ops2.length
        · rw [List.take_append_of_le_length hk]
          exact hall k
        · have hlen : (ops2 ++ [op]).length ≤ k := by
            rw [List.length_append, List.length_singleton]
            omega
          rw [List.take_of_length_le hlen]
          have e : ops1 ++ Op.set_config (some c) env :: (ops2 ++ [op]) = ops ++ [op] := by
            rw [heq]
            simp
          rw [e, runOps_append_singleton, hsame]

/-- C6, amended. After a successful `ping_initialize`:
through any sequence of exported calls in which every `ping_set_config`
installs a resolver count greater than the rotation index at the time of the
call, the index stays below the count; and through any sequence in which
every `ping_set_config` installs a count of at least 1 (a `DWORD`), whatever
its relation to the index, the index is below the count unless a
`ping_set_config` of the sequence installed a count at or below the index and
the index has not been written since. `ping_set_config` never writes the
index; every call that does write it leaves it below the count, and so do, in
the state at the end of the sequence, a forced activation with resolver
rotation enabled and a reset. -/
theorem index_below_count (env : InitEnv) (s0 : State) (ops : List Op) (cm : CmEnv)
    (now : Nat) (h : Initializes env s0) :
    (RunOk SetConfigAboveIndex ( ping_initialize env s0).2 ops →
      IndexOk (runOps ( ping_initialize env s0).2 ops)) ∧
    (RunOk SetConfigCountOk ( ping_initialize env s0).2 ops →
      (IndexOk (runOps ( ping_initialize env s0).2 ops) ∨
        ∃ ops1 c ienv ops2, ops = ops1 ++ Op.set_config (some c) ienv :: ops2 ∧
          c.backup_dns_count ≤
            (runOps ( ping_initialize env s0).2 ops).g_stats.current_dns_index ∧
          ∀ k : Nat, (runOps ( ping_initialize env s0).2
              (ops1 ++ Op.set_config (some c) ienv :: ops2.take k)).g_stats.current_dns_index =
            (runOps ( ping_initialize env s0).2 ops).g_stats.current_dns_index) ∧
      (∀ op : Op, SetConfigCountOk (runOps ( ping_initialize env s0).2 ops) op →
        (apiStep (runOps ( ping_initialize env s0).2 ops) op).g_stats.current_dns_index =
          (runOps ( ping_initialize env s0).2 ops).g_stats.current_dns_index ∨
        IndexOk (apiStep (runOps ( ping_initialize env s0).2 ops) op)) ∧
      ((runOps ( ping_initialize env s0).2 ops).g_config.enable_dns_switching = true →
        IndexOk (apiStep (runOps ( ping_initialize env s0).2 ops)
          (Op.force_countermeasures cm))) ∧
      IndexOk (apiStep (runOps ( ping_initialize env s0).2 ops) (Op.reset_stats now))) := by
  obtain ⟨-, hs, h1, h8⟩ := ping_initialize_ready env s0 h
  have h32 : ( ping_initialize env s0).2.g_config.backup_dns_count < 2 ^ 32 := by
    have : MAX_BACKUP_DNS = 8 := rfl
    norm_num
    omega
  have hidx : IndexOk ( ping_initialize env s0).2 := by
    unfold IndexOk
    rw [hs]
    exact h1
  have hcount : CountOk ( ping_initialize env s0).2 := ⟨h.2, h1, h32⟩
  have hflag : ( ping_initialize env s0).2.g_stats.countermeasures_active = false := by
    rw [hs]
    rfl
  refine ⟨fun hok => runOps_index_lt ops _ hok ⟨h.2, hidx, h32⟩, fun hok => ?_⟩
  have hgood := runOps_CountOk ops _ hok hcount
  have hidle := runOps_induction (fun t => t.g_stats.countermeasures_active = false)
    apiStep_flag ops _ hflag
  obtain ⟨r1, r2⟩ := apiStep_index_restored _ cm now hgood hidle
  exact ⟨runOps_index_lt_or_stale _ hcount hidx ops hok,
    fun op hop => apiStep_index_same_or_lt _ op hop hgood, r1, r2⟩

/-- C6 (amended) at concrete runs: the count is lowered to 3 while the index
is 1, and the index stays below it; the count is lowered to 1 while the index
is 1, which leaves the index at the count, and a forced activation or a reset
brings it back below. -/
theorem index_below_count_witness :
    IndexOk (runOps ( ping_initialize SAMPLE_INIT LOADED).2
        [Op.force_countermeasures (SAMPLE_CM 1),
         Op.set_config (some THREE_DNS_CONFIG) SAMPLE_INI,
         Op.force_countermeasures (SAMPLE_CM 9),
         Op.force_countermeasures (SAMPLE_CM 9)]) ∧
    ¬ IndexOk (runOps ( ping_initialize SAMPLE_INIT LOADED).2
        [Op.force_countermeasures (SAMPLE_CM 1),
         Op.set_config (some ONE_DNS_CONFIG) SAMPLE_INI]) ∧
    IndexOk (apiStep (runOps ( ping_initialize SAMPLE_INIT LOADED).2
        [Op.force_countermeasures (SAMPLE_CM 1),
         Op.set_config (some ONE_DNS_CONFIG) SAMPLE_INI])
      (Op.force_countermeasures (SAMPLE_CM 9))) ∧
    IndexOk (apiStep (runOps ( ping_initialize SAMPLE_INIT LOADED).2
        [Op.force_countermeasures (SAMPLE_CM 1),
         Op.set_config (some ONE_DNS_CONFIG) SAMPLE_INI])
      (Op.reset_stats 5)) :=
  have hb := (index_below_count SAMPLE_INIT LOADED
    [Op.force_countermeasures (SAMPLE_CM 1), Op.set_config (some ONE_DNS_CONFIG) SAMPLE_INI]
    (SAMPLE_CM 9) 5 ⟨rfl, rfl⟩).2 ⟨trivial, ⟨by decide, by decide⟩, trivial⟩
  ⟨(index_below_count SAMPLE_INIT LOADED _ (SAMPLE_CM 9) 5 ⟨rfl, rfl⟩).1
      ⟨trivial, ⟨by decide, by decide⟩, trivial, trivial, trivial⟩,
    by unfold IndexOk; decide,
    hb.2.2.1 (by decide), hb.2.2.2⟩

end DbjPing
